import Mathlib

/-!
The iSCSI user-space daemon (`User Tools/iSCSIDaemon.c`).

A shallow embedding of the daemon's command handlers: the MC/S login
orchestration (`iSCSIDLoginCommon`, `iSCSIDLoginAllPortals`,
`iSCSIDLoginWithPortal`), the logout handler, the query handlers, the
collection handlers and the dispatch switch.

The daemon talks to three collaborators that live outside this file of the
repository: the kernel/session layer (`iSCSISession.h`: identity directory and
negotiator), the property list (`iSCSIPropertyList.h`) and the control socket.
Each of them is a component of the state (`kernel`, `plist`, `chan`); their
functions are the fields of `Env`, so every theorem holds for every behaviour
of the collaborators.  A ghost `trace` records, in chronological order, every
call with an effect (negotiator calls, socket reads and writes, teardown).
-/

namespace iSCSIDaemon

/-! ## Values and objects -/

/-- POSIX error number (`errno_t`). -/
abbrev errno_t := Int

/-- Session identifier (`SID`). -/
abbrev SID := Nat

/-- Connection identifier (`CID`). -/
abbrev CID := Nat

/-- A `CFStringRef`; `none` is NULL. -/
abbrev CFStringRef := Option String

/-- `EINVAL` of `<errno.h>`. -/
def EINVAL : errno_t := 22

/-- `EAGAIN` of `<errno.h>` (Darwin). -/
def EAGAIN : errno_t := 35

/-- Target object behind an `iSCSITargetRef`. -/
structure iSCSITarget where
  IQN : String
  deriving DecidableEq, Repr

/-- Portal object behind an `iSCSIPortalRef`. -/
structure iSCSIPortal where
  address : String
  port : String
  hostInterface : String
  deriving DecidableEq, Repr

/-- Authentication object behind an `iSCSIAuthRef`. -/
structure iSCSIAuth where
  method : Nat
  deriving DecidableEq, Repr

/-- Session configuration behind an `iSCSISessionConfigRef`. -/
structure iSCSISessionConfig where
  params : List Nat
  deriving DecidableEq, Repr

/-- Connection configuration behind an `iSCSIConnectionConfigRef`. -/
structure iSCSIConnectionConfig where
  params : List Nat
  deriving DecidableEq, Repr

/-- Discovery record behind an `iSCSIMutableDiscoveryRecRef`. -/
structure iSCSIDiscoveryRec where
  entries : List (String × String)
  deriving DecidableEq, Repr

/-- Byte buffer behind a `CFDataRef`. -/
structure CFData where
  bytes : List Nat
  deriving DecidableEq, Repr

/-- Session property dictionary returned by `iSCSICreateCFPropertiesForSession`.
`MaxConnections` is the value that
`CFNumberGetValue(number,kCFNumberSInt32Type,&maxConnections)` leaves in
`maxConnections` for the entry under `kRFC3720_Key_MaxConnections`. -/
structure SessionProperties where
  MaxConnections : Nat
  others : List (String × String)
  deriving DecidableEq, Repr

/-- Connection property dictionary returned by
`iSCSICreateCFPropertiesForConnection`. -/
structure ConnectionProperties where
  entries : List (String × String)
  deriving DecidableEq, Repr

abbrev iSCSITargetRef := Option iSCSITarget
abbrev iSCSIPortalRef := Option iSCSIPortal
abbrev iSCSIAuthRef := Option iSCSIAuth
abbrev iSCSISessionConfigRef := Option iSCSISessionConfig
abbrev iSCSIConnectionConfigRef := Option iSCSIConnectionConfig
abbrev CFDataRef := Option CFData

/-- `CFDataGetLength`. -/
def CFDataGetLength (data : CFData) : Nat := data.bytes.length

/-! ## Requests and responses

The struct declarations are in `iSCSIDaemonInterfaceShared.h`; a field holds
the value the handler assigns to it. -/

/-- The command header `struct iSCSIDCmd`, with the length fields that the
per-command views (`iSCSIDCmdLogin`, ...) read from it. -/
structure iSCSIDCmd where
  funcCode : Nat
  targetLength : Nat
  portalLength : Nat
  authLength : Nat
  deriving DecidableEq, Repr

structure iSCSIDRspLogin where
  funcCode : Nat
  errorCode : errno_t
  statusCode : Nat
  deriving DecidableEq, Repr

structure iSCSIDRspLogout where
  funcCode : Nat
  errorCode : errno_t
  statusCode : Nat
  deriving DecidableEq, Repr

structure iSCSIDRspCreateArrayOfActiveTargets where
  funcCode : Nat
  errorCode : errno_t
  dataLength : Nat
  deriving DecidableEq, Repr

structure iSCSIDRspCreateArrayOfActivePortalsForTarget where
  funcCode : Nat
  errorCode : errno_t
  dataLength : Nat
  deriving DecidableEq, Repr

structure iSCSIDRspIsTargetActive where
  funcCode : Nat
  active : Bool
  deriving DecidableEq, Repr

structure iSCSIDRspIsPortalActive where
  funcCode : Nat
  active : Bool
  deriving DecidableEq, Repr

structure iSCSIDRspQueryPortalForTargets where
  funcCode : Nat
  errorCode : errno_t
  statusCode : Nat
  discoveryLength : Nat
  deriving DecidableEq, Repr

structure iSCSIDRspQueryTargetForAuthMethod where
  funcCode : Nat
  errorCode : errno_t
  statusCode : Nat
  authMethod : Nat
  deriving DecidableEq, Repr

structure iSCSIDRspCreateCFPropertiesForSession where
  funcCode : Nat
  errorCode : errno_t
  dataLength : Nat
  deriving DecidableEq, Repr

structure iSCSIDRspCreateCFPropertiesForConnection where
  funcCode : Nat
  errorCode : errno_t
  dataLength : Nat
  deriving DecidableEq, Repr

/-- A response header handed to `send`, tagged with its struct type. -/
inductive Rsp
  | login (r : iSCSIDRspLogin)
  | logout (r : iSCSIDRspLogout)
  | createArrayOfActiveTargets (r : iSCSIDRspCreateArrayOfActiveTargets)
  | createArrayOfActivePortalsForTarget (r : iSCSIDRspCreateArrayOfActivePortalsForTarget)
  | isTargetActive (r : iSCSIDRspIsTargetActive)
  | isPortalActive (r : iSCSIDRspIsPortalActive)
  | queryPortalForTargets (r : iSCSIDRspQueryPortalForTargets)
  | queryTargetForAuthMethod (r : iSCSIDRspQueryTargetForAuthMethod)
  | createCFPropertiesForSession (r : iSCSIDRspCreateCFPropertiesForSession)
  | createCFPropertiesForConnection (r : iSCSIDRspCreateCFPropertiesForConnection)
  deriving DecidableEq, Repr

/-- The `funcCode` field of a response header. -/
def Rsp.funcCode : Rsp → Nat
  | .login r => r.funcCode
  | .logout r => r.funcCode
  | .createArrayOfActiveTargets r => r.funcCode
  | .createArrayOfActivePortalsForTarget r => r.funcCode
  | .isTargetActive r => r.funcCode
  | .isPortalActive r => r.funcCode
  | .queryPortalForTargets r => r.funcCode
  | .queryTargetForAuthMethod r => r.funcCode
  | .createCFPropertiesForSession r => r.funcCode
  | .createCFPropertiesForConnection r => r.funcCode

/-- What a `send` call is given: a response header or payload bytes. -/
inductive Msg
  | rsp (r : Rsp)
  | data (bytes : List Nat)
  deriving DecidableEq, Repr

/-! ## Ghost trace -/

/-- One effectful call made by the daemon, with what it returned. -/
inductive Event
  | loginSession (target : iSCSITargetRef) (portal : iSCSIPortalRef)
      (error : errno_t) (statusCode : Nat)
  | loginConnection (sessionId : SID) (portal : iSCSIPortalRef)
      (error : errno_t) (statusCode : Nat)
  | logoutSession (sessionId : SID) (error : errno_t) (statusCode : Nat)
  | logoutConnection (sessionId : SID) (connectionId : CID)
      (error : errno_t) (statusCode : Nat)
  | queryPortalForTargets (portal : iSCSIPortalRef) (auth : iSCSIAuthRef)
      (error : errno_t) (statusCode : Nat)
  | queryTargetForAuthMethod (portal : iSCSIPortalRef) (targetIQN : CFStringRef)
      (error : errno_t) (statusCode : Nat)
  | recv (fd : Int) (length : Nat) (count : Int)
  | send (fd : Int) (msg : Msg) (length : Nat) (count : Int)
  | cleanup
  | close (fd : Int)
  deriving DecidableEq, Repr

/-- A negotiator login call (session-level or connection-level). -/
def Event.isLogin : Event → Bool
  | .loginSession .. => true
  | .loginConnection .. => true
  | _ => false

/-- A negotiator logout call. -/
def Event.isLogout : Event → Bool
  | .logoutSession .. => true
  | .logoutConnection .. => true
  | _ => false

/-- Any call into the session negotiator. -/
def Event.isNegotiator : Event → Bool
  | .loginSession .. => true
  | .loginConnection .. => true
  | .logoutSession .. => true
  | .logoutConnection .. => true
  | .queryPortalForTargets .. => true
  | .queryTargetForAuthMethod .. => true
  | _ => false

/-- A `send` of a response header. -/
def Event.isSendRsp : Event → Bool
  | .send _ (.rsp _) _ _ => true
  | _ => false

/-- A read from the control socket. -/
def Event.isRecv : Event → Bool
  | .recv .. => true
  | _ => false

/-- The portal a login call was made for. -/
def Event.loginPortal : Event → iSCSIPortalRef
  | .loginSession _ portal _ _ => portal
  | .loginConnection _ portal _ _ => portal
  | _ => none

/-- The error code a negotiator call returned (0 for other events). -/
def Event.error : Event → errno_t
  | .loginSession _ _ e _ => e
  | .loginConnection _ _ e _ => e
  | .logoutSession _ e _ => e
  | .logoutConnection _ _ e _ => e
  | .queryPortalForTargets _ _ e _ => e
  | .queryTargetForAuthMethod _ _ e _ => e
  | _ => 0

/-- The status code a negotiator call reported (0 for other events). -/
def Event.statusCode : Event → Nat
  | .loginSession _ _ _ c => c
  | .loginConnection _ _ _ c => c
  | .logoutSession _ _ c => c
  | .logoutConnection _ _ _ c => c
  | .queryPortalForTargets _ _ _ c => c
  | .queryTargetForAuthMethod _ _ _ c => c
  | _ => 0

/-! ## Collaborators -/

/-- Result of a negotiator login/logout call: return value, the status code
left in `*statusCode`, and the kernel state afterwards. -/
structure NegResult (κ : Type) where
  error : errno_t
  statusCode : Nat
  kernel : κ

/-- Result of `iSCSIQueryPortalForTargets`. -/
structure DiscoveryResult (κ : Type) where
  error : errno_t
  discoveryRec : Option iSCSIDiscoveryRec
  statusCode : Nat
  kernel : κ

/-- Result of `iSCSIQueryTargetForAuthMethod`. -/
structure AuthMethodResult (κ : Type) where
  error : errno_t
  authMethod : Nat
  statusCode : Nat
  kernel : κ

/-- The constants and functions the daemon uses that are declared outside
`iSCSIDaemon.c`.  `κ` is the state of the kernel/session layer, `π` the state
of the property list, `χ` the state of the control socket. -/
structure Env (κ π χ : Type) where
  -- function codes (enum in iSCSIDaemonInterfaceShared.h)
  kiSCSIDLogin : Nat
  kiSCSIDLogout : Nat
  kiSCSIDCreateArrayOfActiveTargets : Nat
  kiSCSIDCreateArrayOfActivePortalsForTarget : Nat
  kiSCSIDIsTargetActive : Nat
  kiSCSIDIsPortalActive : Nat
  kiSCSIDQueryPortalForTargets : Nat
  kiSCSIDQueryTargetForAuthMethod : Nat
  kiSCSIDCreateCFPropertiesForSession : Nat
  kiSCSIDCreateCFPropertiesForConnection : Nat
  -- sentinels
  kiSCSIInvalidSessionId : SID
  kiSCSIInvalidConnectionId : CID
  kiSCSILoginInvalidStatusCode : Nat
  kiSCSILogoutInvalidStatusCode : Nat
  kiSCSIAuthMethodInvalid : Nat
  -- object accessors and constructors (iSCSITypes.h)
  iSCSITargetGetIQN : iSCSITargetRef → CFStringRef
  iSCSIPortalGetAddress : iSCSIPortalRef → CFStringRef
  iSCSISessionConfigCreateMutable : iSCSISessionConfigRef
  iSCSIConnectionConfigCreateMutable : iSCSIConnectionConfigRef
  iSCSIAuthCreateNone : iSCSIAuthRef
  iSCSITargetCreateWithData : CFDataRef → iSCSITargetRef
  iSCSIPortalCreateWithData : CFDataRef → iSCSIPortalRef
  iSCSIAuthCreateWithData : CFDataRef → iSCSIAuthRef
  iSCSIDiscoveryRecCreateData : iSCSIDiscoveryRec → CFDataRef
  -- serialization (CFPropertyListCreateData on each kind of collection)
  CFPropertyListCreateData_targets : List iSCSITargetRef → CFDataRef
  CFPropertyListCreateData_session : SessionProperties → CFDataRef
  CFPropertyListCreateData_connection : ConnectionProperties → CFDataRef
  -- identity directory (iSCSISession.h)
  iSCSIGetSessionIdForTarget : κ → CFStringRef → SID
  iSCSIGetConnectionIdForPortal : κ → SID → iSCSIPortalRef → CID
  iSCSICreateCFPropertiesForSession : κ → iSCSITargetRef → Option SessionProperties
  iSCSICreateCFPropertiesForConnection :
    κ → iSCSITargetRef → iSCSIPortalRef → Option ConnectionProperties
  iSCSICreateArrayOfConnectionsIds : κ → SID → Option (List CID)
  iSCSICreateArrayOfSessionIds : κ → List SID
  iSCSICreateTargetForSessionId : κ → SID → iSCSITargetRef
  -- session negotiator (iSCSISession.h)
  iSCSILoginSession : κ → iSCSITargetRef → iSCSIPortalRef → iSCSIAuthRef →
    iSCSISessionConfigRef → iSCSIConnectionConfigRef → NegResult κ
  iSCSILoginConnection : κ → SID → iSCSIPortalRef → iSCSIAuthRef →
    iSCSIConnectionConfigRef → NegResult κ
  iSCSILogoutSession : κ → SID → NegResult κ
  iSCSILogoutConnection : κ → SID → CID → NegResult κ
  iSCSIQueryPortalForTargets : κ → iSCSIPortalRef → iSCSIAuthRef → DiscoveryResult κ
  iSCSIQueryTargetForAuthMethod : κ → iSCSIPortalRef → CFStringRef → AuthMethodResult κ
  iSCSICleanup : κ → κ
  -- property list (iSCSIPropertyList.h)
  iSCSIPLSynchronize : π → π
  iSCSIPLCopySessionConfig : π → CFStringRef → iSCSISessionConfigRef
  iSCSIPLCopyConnectionConfig : π → CFStringRef → CFStringRef → iSCSIConnectionConfigRef
  iSCSIPLCopyAuthenticationForTarget : π → CFStringRef → iSCSIAuthRef
  iSCSIPLCreateArrayOfPortals : π → CFStringRef → List String
  iSCSIPLCopyPortalForTarget : π → CFStringRef → CFStringRef → iSCSIPortalRef
  -- control socket
  recv : χ → Int → Nat → (Int × List Nat) × χ
  send : χ → Int → Msg → Nat → Int × χ
  close : χ → Int → χ
  sizeofRsp : Rsp → Nat

/-- The state the handlers run in. -/
structure State (κ π χ : Type) where
  kernel : κ
  plist : π
  chan : χ
  trace : List Event

variable {κ π χ : Type}

/-! ## MC/S login orchestration -/

/-- `iSCSIDLoginCommon`: resolve the configuration for (target, portal) and do
either a session login or a connection login.  Returns the error code and the
status code left in `*statusCode`. -/
def iSCSIDLoginCommon (E : Env κ π χ) (sessionId : SID) (target : iSCSITargetRef)
    (portal : iSCSIPortalRef) (s : State κ π χ) : (errno_t × Nat) × State κ π χ :=
  let targetIQN := E.iSCSITargetGetIQN target
  -- If session needs to be logged in, copy session config from property list
  let sessCfg : iSCSISessionConfigRef :=
    if sessionId = E.kiSCSIInvalidSessionId then
      match E.iSCSIPLCopySessionConfig s.plist targetIQN with
      | some c => some c
      | none => E.iSCSISessionConfigCreateMutable
    else none
  -- Get connection configuration from property list, create one if needed
  let connCfg : iSCSIConnectionConfigRef :=
    match E.iSCSIPLCopyConnectionConfig s.plist targetIQN (E.iSCSIPortalGetAddress portal) with
    | some c => some c
    | none => E.iSCSIConnectionConfigCreateMutable
  -- Get authentication configuration from property list, create one if needed
  let auth : iSCSIAuthRef :=
    match E.iSCSIPLCopyAuthenticationForTarget s.plist targetIQN with
    | some a => some a
    | none => E.iSCSIAuthCreateNone
  -- Do either session or connection login
  if sessionId = E.kiSCSIInvalidSessionId then
    let r := E.iSCSILoginSession s.kernel target portal auth sessCfg connCfg
    ((r.error, r.statusCode),
      { s with kernel := r.kernel,
               trace := s.trace ++ [Event.loginSession target portal r.error r.statusCode] })
  else
    let r := E.iSCSILoginConnection s.kernel sessionId portal auth connCfg
    ((r.error, r.statusCode),
      { s with kernel := r.kernel,
               trace := s.trace ++ [Event.loginConnection sessionId portal r.error r.statusCode] })

/-- The local variables of `iSCSIDLoginAllPortals` that live across the
iterations of its `while` loop, with the state. -/
structure LoginLoop (κ π χ : Type) where
  activeConnections : Nat
  maxConnections : Nat
  portalIdx : Nat
  sessionId : SID
  errorCode : errno_t
  statusCode : Nat
  st : State κ π χ

/-- The rest of the loop body of `iSCSIDLoginAllPortals` after a login that
returned no error (`r` is what `iSCSIDLoginCommon` returned): the locals at
the end of the iteration. -/
def iSCSIDLoginAllPortals_advance (E : Env κ π χ) (target : iSCSITargetRef)
    (l : LoginLoop κ π χ) (r : (errno_t × Nat) × State κ π χ) : LoginLoop κ π χ :=
  let activeConnections := l.activeConnections + 1
  let portalIdx := l.portalIdx + 1
  -- Determine how many connections this session supports
  let sessionId := E.iSCSIGetSessionIdForTarget r.2.kernel (E.iSCSITargetGetIQN target)
  -- If this was the first connection of the session, get the number of
  -- allowed maximum connections
  let maxConnections :=
    if activeConnections = 1 then
      match E.iSCSICreateCFPropertiesForSession r.2.kernel target with
      | some properties => properties.MaxConnections
      | none => l.maxConnections
    else l.maxConnections
  { activeConnections := activeConnections
    maxConnections := maxConnections
    portalIdx := portalIdx
    sessionId := sessionId
    errorCode := r.1.1
    statusCode := r.1.2
    st := r.2 }

/-- The `while` loop of `iSCSIDLoginAllPortals`.  `CFArrayGetValueAtIndex` is
`portals.get?`: NULL past the end of the array, which is what the loop
condition relies on.  `fuel` bounds the number of iterations; see
`iSCSIDLoginAllPortals_loop_fuel` for why `portals.length + 1` is never
exhausted. -/
def iSCSIDLoginAllPortals_loop (E : Env κ π χ) (target : iSCSITargetRef)
    (targetIQN : CFStringRef) (portals : List String) :
    Nat → LoginLoop κ π χ → LoginLoop κ π χ
  | 0, l => l
  | fuel + 1, l =>
    if l.activeConnections < l.maxConnections then
      match portals.get? l.portalIdx with
      | none => l
      | some portalAddress =>
        -- Get portal object and login
        let portal := E.iSCSIPLCopyPortalForTarget l.st.plist targetIQN (some portalAddress)
        let r := iSCSIDLoginCommon E l.sessionId target portal l.st
        -- Quit if there was an error communicating with the daemon
        if r.1.1 ≠ 0 then
          { l with errorCode := r.1.1, statusCode := r.1.2, st := r.2 }
        else
          iSCSIDLoginAllPortals_loop E target targetIQN portals fuel
            (iSCSIDLoginAllPortals_advance E target l r)
    else l

/-- The values of the locals of `iSCSIDLoginAllPortals` when its loop is
entered. -/
def iSCSIDLoginAllPortals_init (E : Env κ π χ) (target : iSCSITargetRef)
    (s : State κ π χ) : LoginLoop κ π χ :=
  let targetIQN := E.iSCSITargetGetIQN target
  let sessionId := E.iSCSIGetSessionIdForTarget s.kernel targetIQN
  -- Set initial values for maxConnections and activeConnections
  let counts : Nat × Nat :=
    if sessionId = E.kiSCSIInvalidSessionId then (1, 0)
    else
      -- If session exists, get the max connections and active connections
      match E.iSCSICreateCFPropertiesForSession s.kernel target with
      | some properties =>
        (properties.MaxConnections,
          match E.iSCSICreateArrayOfConnectionsIds s.kernel sessionId with
          | some connections => connections.length
          | none => 0)
      | none => (0, 0)
  { activeConnections := counts.2
    maxConnections := counts.1
    portalIdx := 0
    sessionId := sessionId
    errorCode := 0
    statusCode := E.kiSCSILoginInvalidStatusCode
    st := s }

/-- `iSCSIDLoginAllPortals`: add portals to the session until the configured
portals run out or the maximum connection limit is reached. -/
def iSCSIDLoginAllPortals (E : Env κ π χ) (target : iSCSITargetRef)
    (s : State κ π χ) : (errno_t × Nat) × State κ π χ :=
  let targetIQN := E.iSCSITargetGetIQN target
  let portals := E.iSCSIPLCreateArrayOfPortals s.plist targetIQN
  let l := iSCSIDLoginAllPortals_loop E target targetIQN portals (portals.length + 1)
    (iSCSIDLoginAllPortals_init E target s)
  ((l.errorCode, l.statusCode), l.st)

/-- `iSCSIDLoginWithPortal`: login over one portal, adding a connection to an
existing session or doing the leading login. -/
def iSCSIDLoginWithPortal (E : Env κ π χ) (target : iSCSITargetRef)
    (portal : iSCSIPortalRef) (s : State κ π χ) : (errno_t × Nat) × State κ π χ :=
  let targetIQN := E.iSCSITargetGetIQN target
  let sessionId := E.iSCSIGetSessionIdForTarget s.kernel targetIQN
  -- Existing session, add a connection
  if sessionId ≠ E.kiSCSIInvalidSessionId then
    let connectionId := E.iSCSIGetConnectionIdForPortal s.kernel sessionId portal
    if connectionId ≠ E.kiSCSIInvalidConnectionId then
      ((0, E.kiSCSILoginInvalidStatusCode), s)
    else
      -- See if the session can support an additional connection
      match E.iSCSICreateCFPropertiesForSession s.kernel target with
      | some properties =>
        match E.iSCSICreateArrayOfConnectionsIds s.kernel sessionId with
        | some connections =>
          if connections.length = properties.MaxConnections then
            ((0, E.kiSCSILoginInvalidStatusCode), s)
          else iSCSIDLoginCommon E sessionId target portal s
        | none => ((0, E.kiSCSILoginInvalidStatusCode), s)
      | none => ((0, E.kiSCSILoginInvalidStatusCode), s)
  else
    -- Leading login
    iSCSIDLoginCommon E sessionId target portal s

/-! ## Socket helpers -/

/-- `send(fd,buf,length,0)` on the control socket; returns the byte count that
`send` reports. -/
def send (E : Env κ π χ) (fd : Int) (msg : Msg) (length : Nat)
    (s : State κ π χ) : Int × State κ π χ :=
  let r := E.send s.chan fd msg length
  (r.1, { s with chan := r.2, trace := s.trace ++ [Event.send fd msg length r.1] })

/-- The test `send(fd,&rsp,sizeof(rsp),0) != sizeof(rsp)` together with the
state after the call: `true` when the header went out short. -/
def sendRspShort (E : Env κ π χ) (fd : Int) (rsp : Rsp)
    (s : State κ π χ) : Bool × State κ π χ :=
  let r := send E fd (Msg.rsp rsp) (E.sizeofRsp rsp) s
  (decide (r.1 ≠ (E.sizeofRsp rsp : Int)), r.2)

/-- The call `iSCSIPLSynchronize()`: it acts on the property list only. -/
def iSCSIPLSynchronize (E : Env κ π χ) (s : State κ π χ) : State κ π χ :=
  { s with plist := E.iSCSIPLSynchronize s.plist }

/-- Modelled from the spec: `iSCSIDCreateObjectFromSocket` (defined in
`iSCSIDaemonInterfaceShared.h`, which is not among the sources).  One
exact-length read of the declared segment from the channel; a read that does
not deliver `length` bytes is a deserialization failure (NULL); otherwise the
bytes are handed to the object creator. -/
def iSCSIDCreateObjectFromSocket {α : Type} (E : Env κ π χ) (fd : Int) (length : Nat)
    (objectCreator : CFDataRef → Option α) (s : State κ π χ) : Option α × State κ π χ :=
  let r := E.recv s.chan fd length
  let s' : State κ π χ :=
    { s with chan := r.2, trace := s.trace ++ [Event.recv fd length r.1.1] }
  if r.1.1 ≠ (length : Int) then (none, s')
  else (objectCreator (some ⟨r.1.2⟩), s')

/-! ## Command handlers -/

/-- `iSCSIDLogin`: login with the given portal, or over all configured portals
when no portal came with the request. -/
def iSCSIDLogin (E : Env κ π χ) (fd : Int) (cmd : iSCSIDCmd)
    (s : State κ π χ) : errno_t × State κ π χ :=
  -- Grab objects from stream
  let t := iSCSIDCreateObjectFromSocket E fd cmd.targetLength E.iSCSITargetCreateWithData s
  let p := iSCSIDCreateObjectFromSocket E fd cmd.portalLength E.iSCSIPortalCreateWithData t.2
  let target := t.1
  let portal := p.1
  -- Synchronize property list
  let s1 : State κ π χ := iSCSIPLSynchronize E p.2
  if target.isSome && portal.isSome then
    let r := iSCSIDLoginWithPortal E target portal s1
    -- Compose a response to send back to the client
    let rsp : iSCSIDRspLogin :=
      { funcCode := E.kiSCSIDLogin, errorCode := r.1.1, statusCode := r.1.2 }
    let w := sendRspShort E fd (Rsp.login rsp) r.2
    if w.1 then (EAGAIN, w.2) else (0, w.2)
  else if target.isSome then
    let r := iSCSIDLoginAllPortals E target s1
    let rsp : iSCSIDRspLogin :=
      { funcCode := E.kiSCSIDLogin, errorCode := r.1.1, statusCode := r.1.2 }
    let w := sendRspShort E fd (Rsp.login rsp) r.2
    if w.1 then (EAGAIN, w.2) else (0, w.2)
  else (EINVAL, s1)

/-- The locals `errorCode`, `connectionId`, `statusCode` of `iSCSIDLogout` and
the state, after the precondition checks and the logout call (if any). -/
def iSCSIDLogout_core (E : Env κ π χ) (target : iSCSITargetRef) (portal : iSCSIPortalRef)
    (s : State κ π χ) : (errno_t × Nat) × State κ π χ :=
  let sessionId := E.iSCSIGetSessionIdForTarget s.kernel (E.iSCSITargetGetIQN target)
  -- See if there exists an active session for this target
  let errorCode0 : errno_t := if sessionId = E.kiSCSIInvalidSessionId then EINVAL else 0
  -- See if there exists an active connection for this portal
  let connectionId : CID :=
    if errorCode0 = 0 ∧ portal.isSome then E.iSCSIGetConnectionIdForPortal s.kernel sessionId portal
    else E.kiSCSIInvalidConnectionId
  -- If the portal was specified and a connection doesn't exist for it...
  let errorCode1 : errno_t :=
    if errorCode0 = 0 ∧ portal.isSome ∧ connectionId = E.kiSCSIInvalidConnectionId then EINVAL
    else errorCode0
  -- At this point either the we logout the session or just the connection
  -- associated with the specified portal, if one was specified
  if errorCode1 = 0 then
    if portal.isNone then
      let r := E.iSCSILogoutSession s.kernel sessionId
      ((r.error, r.statusCode),
        { s with kernel := r.kernel,
                 trace := s.trace ++ [Event.logoutSession sessionId r.error r.statusCode] })
    else
      let r := E.iSCSILogoutConnection s.kernel sessionId connectionId
      ((r.error, r.statusCode),
        { s with kernel := r.kernel,
                 trace := s.trace ++
                   [Event.logoutConnection sessionId connectionId r.error r.statusCode] })
  else ((errorCode1, E.kiSCSILogoutInvalidStatusCode), s)

/-- `iSCSIDLogout`: logout of the session of a target, or of the connection of
one portal when a portal came with the request. -/
def iSCSIDLogout (E : Env κ π χ) (fd : Int) (cmd : iSCSIDCmd)
    (s : State κ π χ) : errno_t × State κ π χ :=
  -- Grab objects from stream
  let t := iSCSIDCreateObjectFromSocket E fd cmd.targetLength E.iSCSITargetCreateWithData s
  let p := iSCSIDCreateObjectFromSocket E fd cmd.portalLength E.iSCSIPortalCreateWithData t.2
  -- Synchronize property list
  let s1 : State κ π χ := iSCSIPLSynchronize E p.2
  let r := iSCSIDLogout_core E t.1 p.1 s1
  -- Compose a response to send back to the client
  let rsp : iSCSIDRspLogout :=
    { funcCode := E.kiSCSIDLogout, errorCode := r.1.1, statusCode := r.1.2 }
  let w := sendRspShort E fd (Rsp.logout rsp) r.2
  if w.1 then (EAGAIN, w.2) else (0, w.2)

/-- `(UInt32)CFDataGetLength(data)`. -/
def dataLength32 (data : CFData) : Nat := CFDataGetLength data % 2 ^ 32

/-- `iSCSIDCreateArrayOfActiveTargets`: serialize and send the array of the
targets of all active sessions. -/
def iSCSIDCreateArrayOfActiveTargets (E : Env κ π χ) (fd : Int) (_cmd : iSCSIDCmd)
    (s : State κ π χ) : errno_t × State κ π χ :=
  let sessionIds := E.iSCSICreateArrayOfSessionIds s.kernel
  -- Get target object for each active session and add to array
  let activeTargets := sessionIds.map (E.iSCSICreateTargetForSessionId s.kernel)
  -- Serialize and send array
  let data := E.CFPropertyListCreateData_targets activeTargets
  -- Send response header
  let rsp : iSCSIDRspCreateArrayOfActiveTargets :=
    { funcCode := E.kiSCSIDCreateArrayOfActiveTargets
      errorCode := 0
      dataLength := match data with
        | some d => dataLength32 d
        | none => 0 }
  let w := sendRspShort E fd (Rsp.createArrayOfActiveTargets rsp) s
  if w.1 then (EAGAIN, w.2)
  else
    match data with
    | some d =>
      let w2 := send E fd (Msg.data (d.bytes.take rsp.dataLength)) rsp.dataLength w.2
      if w2.1 ≠ (rsp.dataLength : Int) then (EAGAIN, w2.2) else (0, w2.2)
    | none => (0, w.2)

/-- `iSCSIDCreateArrayofActivePortalsForTarget`, as written in the source: the
body builds the array of the targets of all active sessions, and the response
starts from `iSCSIDRspCreateArrayOfActiveTargetsInit`. -/
def iSCSIDCreateArrayofActivePortalsForTarget (E : Env κ π χ) (fd : Int) (_cmd : iSCSIDCmd)
    (s : State κ π χ) : errno_t × State κ π χ :=
  let sessionIds := E.iSCSICreateArrayOfSessionIds s.kernel
  -- Get target object for each active session and add to array
  let activeTargets := sessionIds.map (E.iSCSICreateTargetForSessionId s.kernel)
  -- Serialize and send array
  let data := E.CFPropertyListCreateData_targets activeTargets
  -- Send response header
  let rsp : iSCSIDRspCreateArrayOfActiveTargets :=
    { funcCode := E.kiSCSIDCreateArrayOfActiveTargets
      errorCode := 0
      dataLength := match data with
        | some d => dataLength32 d
        | none => 0 }
  let w := sendRspShort E fd (Rsp.createArrayOfActiveTargets rsp) s
  if w.1 then (EAGAIN, w.2)
  else
    match data with
    | some d =>
      let w2 := send E fd (Msg.data (d.bytes.take rsp.dataLength)) rsp.dataLength w.2
      if w2.1 ≠ (rsp.dataLength : Int) then (EAGAIN, w2.2) else (0, w2.2)
    | none => (0, w.2)

/-- `iSCSIDIsTargetActive`. -/
def iSCSIDIsTargetActive (E : Env κ π χ) (fd : Int) (cmd : iSCSIDCmd)
    (s : State κ π χ) : errno_t × State κ π χ :=
  -- Grab objects from stream
  let t := iSCSIDCreateObjectFromSocket E fd cmd.targetLength E.iSCSITargetCreateWithData s
  let rsp : iSCSIDRspIsTargetActive :=
    { funcCode := E.kiSCSIDIsTargetActive
      active := decide (E.iSCSIGetSessionIdForTarget t.2.kernel (E.iSCSITargetGetIQN t.1)
        ≠ E.kiSCSIInvalidSessionId) }
  let w := sendRspShort E fd (Rsp.isTargetActive rsp) t.2
  if w.1 then (EAGAIN, w.2) else (0, w.2)

/-- `iSCSIDIsPortalActive`. -/
def iSCSIDIsPortalActive (E : Env κ π χ) (fd : Int) (cmd : iSCSIDCmd)
    (s : State κ π χ) : errno_t × State κ π χ :=
  -- Grab objects from stream
  let t := iSCSIDCreateObjectFromSocket E fd cmd.targetLength E.iSCSITargetCreateWithData s
  let p := iSCSIDCreateObjectFromSocket E fd cmd.portalLength E.iSCSIPortalCreateWithData t.2
  let sessionId := E.iSCSIGetSessionIdForTarget p.2.kernel (E.iSCSITargetGetIQN t.1)
  let rsp : iSCSIDRspIsPortalActive :=
    { funcCode := E.kiSCSIDIsPortalActive
      active :=
        if sessionId = E.kiSCSIInvalidSessionId then false
        else decide (E.iSCSIGetConnectionIdForPortal p.2.kernel sessionId p.1
          ≠ E.kiSCSIInvalidConnectionId) }
  let w := sendRspShort E fd (Rsp.isPortalActive rsp) p.2
  if w.1 then (EAGAIN, w.2) else (0, w.2)

/-- `iSCSIDQueryPortalForTargets`.  `discoveryRec` is what the negotiator left
in the out-parameter.  The source reads the length of the buffer that
`iSCSIDiscoveryRecCreateData` returns without a NULL test; a NULL buffer is
given length 0 here.  The `CFRelease(data)` calls have no counterpart. -/
def iSCSIDQueryPortalForTargets (E : Env κ π χ) (fd : Int) (cmd : iSCSIDCmd)
    (s : State κ π χ) : errno_t × State κ π χ :=
  -- Grab objects from stream
  let p := iSCSIDCreateObjectFromSocket E fd cmd.portalLength E.iSCSIPortalCreateWithData s
  let a := iSCSIDCreateObjectFromSocket E fd cmd.authLength E.iSCSIAuthCreateWithData p.2
  let q := E.iSCSIQueryPortalForTargets a.2.kernel p.1 a.1
  let s1 : State κ π χ :=
    { a.2 with kernel := q.kernel,
               trace := a.2.trace ++ [Event.queryPortalForTargets p.1 a.1 q.error q.statusCode] }
  -- If a discovery record was returned, get data and free discovery object
  let data : CFDataRef :=
    match q.discoveryRec with
    | some rec => E.iSCSIDiscoveryRecCreateData rec
    | none => none
  -- Compose a response to send back to the client
  let rsp : iSCSIDRspQueryPortalForTargets :=
    { funcCode := E.kiSCSIDQueryPortalForTargets
      errorCode := q.error
      statusCode := q.statusCode
      discoveryLength := match data with
        | some d => dataLength32 d
        | none => 0 }
  let w := sendRspShort E fd (Rsp.queryPortalForTargets rsp) s1
  if w.1 then (EAGAIN, w.2)
  else
    -- Send discovery data if any
    match data with
    | some d =>
      let w2 := send E fd (Msg.data d.bytes) (CFDataGetLength d) w.2
      if w2.1 ≠ (CFDataGetLength d : Int) then (EAGAIN, w2.2) else (0, w2.2)
    | none => (0, w.2)

/-- `iSCSIDQueryTargetForAuthMethod`. -/
def iSCSIDQueryTargetForAuthMethod (E : Env κ π χ) (fd : Int) (cmd : iSCSIDCmd)
    (s : State κ π χ) : errno_t × State κ π χ :=
  -- Grab objects from stream
  let t := iSCSIDCreateObjectFromSocket E fd cmd.targetLength E.iSCSITargetCreateWithData s
  let p := iSCSIDCreateObjectFromSocket E fd cmd.portalLength E.iSCSIPortalCreateWithData t.2
  let q := E.iSCSIQueryTargetForAuthMethod p.2.kernel p.1 (E.iSCSITargetGetIQN t.1)
  let s1 : State κ π χ :=
    { p.2 with kernel := q.kernel,
               trace := p.2.trace ++
                 [Event.queryTargetForAuthMethod p.1 (E.iSCSITargetGetIQN t.1) q.error q.statusCode] }
  -- Compose a response to send back to the client
  let rsp : iSCSIDRspQueryTargetForAuthMethod :=
    { funcCode := E.kiSCSIDQueryTargetForAuthMethod
      errorCode := q.error
      statusCode := q.statusCode
      authMethod := q.authMethod }
  let w := sendRspShort E fd (Rsp.queryTargetForAuthMethod rsp) s1
  if w.1 then (EAGAIN, w.2) else (0, w.2)

/-- `iSCSIDCreateCFPropertiesForSession`.  The source reads the length of the
buffer that `CFPropertyListCreateData` returns without a NULL test; a NULL
buffer is given length 0 here. -/
def iSCSIDCreateCFPropertiesForSession (E : Env κ π χ) (fd : Int) (cmd : iSCSIDCmd)
    (s : State κ π χ) : errno_t × State κ π χ :=
  -- Grab objects from stream
  let t := iSCSIDCreateObjectFromSocket E fd cmd.targetLength E.iSCSITargetCreateWithData s
  if t.1.isNone then (EINVAL, t.2)
  else
    let properties := E.iSCSICreateCFPropertiesForSession t.2.kernel t.1
    let data : CFDataRef :=
      match properties with
      | some props => E.CFPropertyListCreateData_session props
      | none => none
    -- Send back response
    let rsp : iSCSIDRspCreateCFPropertiesForSession :=
      { funcCode := E.kiSCSIDCreateCFPropertiesForSession
        errorCode := 0
        dataLength := match data with
          | some d => dataLength32 d
          | none => 0 }
    let w := sendRspShort E fd (Rsp.createCFPropertiesForSession rsp) t.2
    let error : errno_t := if w.1 then EAGAIN else 0
    -- Send data if any
    match data with
    | some d =>
      if error = 0 then
        let w2 := send E fd (Msg.data d.bytes) (CFDataGetLength d) w.2
        if w2.1 ≠ (CFDataGetLength d : Int) then (EAGAIN, w2.2) else (error, w2.2)
      else (error, w.2)
    | none => (error, w.2)

/-- `iSCSIDCreateCFPropertiesForConnection`; see
`iSCSIDCreateCFPropertiesForSession` for the treatment of a NULL buffer. -/
def iSCSIDCreateCFPropertiesForConnection (E : Env κ π χ) (fd : Int) (cmd : iSCSIDCmd)
    (s : State κ π χ) : errno_t × State κ π χ :=
  -- Grab objects from stream
  let t := iSCSIDCreateObjectFromSocket E fd cmd.targetLength E.iSCSITargetCreateWithData s
  let p := iSCSIDCreateObjectFromSocket E fd cmd.portalLength E.iSCSIPortalCreateWithData t.2
  if t.1.isNone || p.1.isNone then (EINVAL, p.2)
  else
    let properties := E.iSCSICreateCFPropertiesForConnection p.2.kernel t.1 p.1
    let data : CFDataRef :=
      match properties with
      | some props => E.CFPropertyListCreateData_connection props
      | none => none
    -- Send back response
    let rsp : iSCSIDRspCreateCFPropertiesForConnection :=
      { funcCode := E.kiSCSIDCreateCFPropertiesForConnection
        errorCode := 0
        dataLength := match data with
          | some d => dataLength32 d
          | none => 0 }
    let w := sendRspShort E fd (Rsp.createCFPropertiesForConnection rsp) p.2
    let error : errno_t := if w.1 then EAGAIN else 0
    -- Send data if any
    match data with
    | some d =>
      if error = 0 then
        let w2 := send E fd (Msg.data d.bytes) (CFDataGetLength d) w.2
        if w2.1 ≠ (CFDataGetLength d : Int) then (EAGAIN, w2.2) else (error, w2.2)
      else (error, w.2)
    | none => (error, w.2)

/-! ## Dispatch -/

/-- The `switch(cmd.funcCode)` of `iSCSIDProcessIncomingRequest`, for one
command header already read from the socket.  Returns the value of the static
descriptor `fd` after the statement and the state; the handler's return value
`error` is not used by the caller.  The case labels are tried in the order in
which they are written. -/
def iSCSIDProcessIncomingRequest_switch (E : Env κ π χ) (fd : Int) (cmd : iSCSIDCmd)
    (s : State κ π χ) : Int × State κ π χ :=
  if cmd.funcCode = E.kiSCSIDLogin then
    (fd, (iSCSIDLogin E fd cmd s).2)
  else if cmd.funcCode = E.kiSCSIDLogout then
    (fd, (iSCSIDLogout E fd cmd s).2)
  else if cmd.funcCode = E.kiSCSIDCreateArrayOfActiveTargets then
    (fd, (iSCSIDCreateArrayOfActiveTargets E fd cmd s).2)
  else if cmd.funcCode = E.kiSCSIDCreateArrayOfActivePortalsForTarget then
    (fd, (iSCSIDCreateArrayofActivePortalsForTarget E fd cmd s).2)
  else if cmd.funcCode = E.kiSCSIDIsTargetActive then
    (fd, (iSCSIDIsTargetActive E fd cmd s).2)
  else if cmd.funcCode = E.kiSCSIDIsPortalActive then
    (fd, (iSCSIDIsPortalActive E fd cmd s).2)
  else if cmd.funcCode = E.kiSCSIDQueryPortalForTargets then
    (fd, (iSCSIDQueryPortalForTargets E fd cmd s).2)
  else if cmd.funcCode = E.kiSCSIDQueryTargetForAuthMethod then
    (fd, (iSCSIDQueryTargetForAuthMethod E fd cmd s).2)
  else if cmd.funcCode = E.kiSCSIDCreateCFPropertiesForSession then
    (fd, (iSCSIDCreateCFPropertiesForSession E fd cmd s).2)
  else if cmd.funcCode = E.kiSCSIDCreateCFPropertiesForConnection then
    (fd, (iSCSIDCreateCFPropertiesForConnection E fd cmd s).2)
  else
    -- Close our connection to the iSCSI kernel extension
    (0, { s with kernel := E.iSCSICleanup s.kernel,
                 chan := E.close s.chan fd,
                 trace := s.trace ++ [Event.cleanup, Event.close fd] })

/-- The ten case labels of the dispatch switch, in source order. -/
def caseLabels (E : Env κ π χ) : List Nat :=
  [E.kiSCSIDLogin, E.kiSCSIDLogout, E.kiSCSIDCreateArrayOfActiveTargets,
   E.kiSCSIDCreateArrayOfActivePortalsForTarget, E.kiSCSIDIsTargetActive,
   E.kiSCSIDIsPortalActive, E.kiSCSIDQueryPortalForTargets,
   E.kiSCSIDQueryTargetForAuthMethod, E.kiSCSIDCreateCFPropertiesForSession,
   E.kiSCSIDCreateCFPropertiesForConnection]

/-- The events appended to the trace between state `s` and a later state `s'`. -/
def callsMade (s s' : State κ π χ) : List Event := s'.trace.drop s.trace.length

/-- The configured portal addresses of a target:
`iSCSIPLCreateArrayOfPortals(targetIQN)`. -/
def configuredPortals (E : Env κ π χ) (target : iSCSITargetRef) (s : State κ π χ) :
    List String :=
  E.iSCSIPLCreateArrayOfPortals s.plist (E.iSCSITargetGetIQN target)

/-- The portal object for a configured address:
`iSCSIPLCopyPortalForTarget(targetIQN,portalAddress)`. -/
def portalAt (E : Env κ π χ) (target : iSCSITargetRef) (s : State κ π χ)
    (portalAddress : String) : iSCSIPortalRef :=
  E.iSCSIPLCopyPortalForTarget s.plist (E.iSCSITargetGetIQN target) (some portalAddress)

/-! ## A reference environment

A small executable instance of the collaborators, used to run the handlers on
concrete requests. -/

/-- A session of the reference kernel. -/
structure RefSession where
  sessionId : SID
  targetIQN : String
  maxConnections : Nat
  connections : List (CID × iSCSIPortal)
  deriving DecidableEq, Repr

/-- The reference kernel: its live sessions, and the `MaxConnections` value a
newly created session negotiates. -/
structure RefKernel where
  sessions : List RefSession
  negotiatedMax : Nat
  deriving DecidableEq, Repr

/-- The reference property list: the configured portals of each target. -/
structure RefPList where
  portals : List (String × List iSCSIPortal)
  deriving DecidableEq, Repr

/-- The reference socket: the bytes waiting to be read. -/
structure RefChan where
  pending : List Nat
  deriving DecidableEq, Repr

/-- Session of the reference kernel for a target name. -/
def RefKernel.sessionFor (k : RefKernel) (iqn : CFStringRef) : Option RefSession :=
  match iqn with
  | some q => k.sessions.find? (fun x => x.targetIQN == q)
  | none => none

/-- Session of the reference kernel with a given identifier. -/
def RefKernel.sessionWithId (k : RefKernel) (sid : SID) : Option RefSession :=
  k.sessions.find? (fun x => x.sessionId == sid)

/-- Reference connection login: append a connection over `portal` to session
`sid`. -/
def RefKernel.addConnection (k : RefKernel) (sid : SID) (portal : iSCSIPortal) : RefKernel :=
  { k with sessions := k.sessions.map (fun x =>
      if x.sessionId = sid then
        { x with connections := x.connections ++ [(x.connections.length, portal)] }
      else x) }

/-- The reference environment; every login succeeds. -/
def refEnv : Env RefKernel RefPList RefChan where
  kiSCSIDLogin := 0
  kiSCSIDLogout := 1
  kiSCSIDCreateArrayOfActiveTargets := 2
  kiSCSIDCreateArrayOfActivePortalsForTarget := 3
  kiSCSIDIsTargetActive := 4
  kiSCSIDIsPortalActive := 5
  kiSCSIDQueryPortalForTargets := 6
  kiSCSIDQueryTargetForAuthMethod := 7
  kiSCSIDCreateCFPropertiesForSession := 8
  kiSCSIDCreateCFPropertiesForConnection := 9
  kiSCSIInvalidSessionId := 65535
  kiSCSIInvalidConnectionId := 4294967295
  kiSCSILoginInvalidStatusCode := 255
  kiSCSILogoutInvalidStatusCode := 254
  kiSCSIAuthMethodInvalid := 253
  iSCSITargetGetIQN := fun t => t.map (fun x => x.IQN)
  iSCSIPortalGetAddress := fun p => p.map (fun x => x.address)
  iSCSISessionConfigCreateMutable := some ⟨[]⟩
  iSCSIConnectionConfigCreateMutable := some ⟨[]⟩
  iSCSIAuthCreateNone := some ⟨0⟩
  iSCSITargetCreateWithData := fun d =>
    match d with
    | some ⟨b :: bs⟩ => some ⟨String.mk ((b :: bs).map Char.ofNat)⟩
    | _ => none
  iSCSIPortalCreateWithData := fun d =>
    match d with
    | some ⟨b :: bs⟩ => some ⟨String.mk ((b :: bs).map Char.ofNat), "3260", "default"⟩
    | _ => none
  iSCSIAuthCreateWithData := fun d =>
    match d with
    | some ⟨b :: _⟩ => some ⟨b⟩
    | _ => none
  iSCSIDiscoveryRecCreateData := fun r => some ⟨r.entries.map (fun e => e.1.length)⟩
  CFPropertyListCreateData_targets := fun ts =>
    some ⟨ts.map (fun t => match t with
      | some x => x.IQN.length
      | none => 0)⟩
  CFPropertyListCreateData_session := fun props => some ⟨[props.MaxConnections]⟩
  CFPropertyListCreateData_connection := fun props => some ⟨[props.entries.length]⟩
  iSCSIGetSessionIdForTarget := fun k iqn =>
    match k.sessionFor iqn with
    | some x => x.sessionId
    | none => 65535
  iSCSIGetConnectionIdForPortal := fun k sid portal =>
    match k.sessionWithId sid, portal with
    | some x, some p =>
      match x.connections.find? (fun c => c.2 == p) with
      | some c => c.1
      | none => 4294967295
    | _, _ => 4294967295
  iSCSICreateCFPropertiesForSession := fun k t =>
    (k.sessionFor (t.map (fun x => x.IQN))).map (fun x => ⟨x.maxConnections, []⟩)
  iSCSICreateCFPropertiesForConnection := fun k t p =>
    match k.sessionFor (t.map (fun x => x.IQN)), p with
    | some x, some q =>
      (x.connections.find? (fun c => c.2 == q)).map (fun c => ⟨[("address", c.2.address)]⟩)
    | _, _ => none
  iSCSICreateArrayOfConnectionsIds := fun k sid =>
    (k.sessionWithId sid).map (fun x => x.connections.map (fun c => c.1))
  iSCSICreateArrayOfSessionIds := fun k => k.sessions.map (fun x => x.sessionId)
  iSCSICreateTargetForSessionId := fun k sid =>
    (k.sessionWithId sid).map (fun x => ⟨x.targetIQN⟩)
  iSCSILoginSession := fun k t p _ _ _ =>
    match t, p with
    | some x, some q =>
      ⟨0, 0, { k with sessions := k.sessions ++
        [⟨k.sessions.length, x.IQN, k.negotiatedMax, [(0, q)]⟩] }⟩
    | _, _ => ⟨0, 0, k⟩
  iSCSILoginConnection := fun k sid p _ _ =>
    match p with
    | some q => ⟨0, 0, k.addConnection sid q⟩
    | none => ⟨0, 0, k⟩
  iSCSILogoutSession := fun k sid =>
    ⟨0, 0, { k with sessions := k.sessions.filter (fun x => x.sessionId != sid) }⟩
  iSCSILogoutConnection := fun k sid cid =>
    ⟨0, 0, { k with sessions := k.sessions.map (fun x =>
      if x.sessionId = sid then
        { x with connections := x.connections.filter (fun c => c.1 != cid) }
      else x) }⟩
  iSCSIQueryPortalForTargets := fun k p _ =>
    match p with
    | some q => ⟨0, some ⟨[("iqn.2015-01.com.example:disk", q.address)]⟩, 0, k⟩
    | none => ⟨22, none, 255, k⟩
  iSCSIQueryTargetForAuthMethod := fun k _ _ => ⟨0, 0, 0, k⟩
  iSCSICleanup := fun k => { k with sessions := [] }
  iSCSIPLSynchronize := fun pl => pl
  iSCSIPLCopySessionConfig := fun _ _ => none
  iSCSIPLCopyConnectionConfig := fun _ _ _ => none
  iSCSIPLCopyAuthenticationForTarget := fun _ _ => none
  iSCSIPLCreateArrayOfPortals := fun pl iqn =>
    match iqn with
    | some q =>
      match pl.portals.find? (fun e => e.1 == q) with
      | some e => e.2.map (fun x => x.address)
      | none => []
    | none => []
  iSCSIPLCopyPortalForTarget := fun pl iqn addr =>
    match iqn, addr with
    | some q, some a =>
      match pl.portals.find? (fun e => e.1 == q) with
      | some e => e.2.find? (fun x => x.address == a)
      | none => none
    | _, _ => none
  recv := fun c _ n => (((c.pending.take n).length, c.pending.take n), ⟨c.pending.drop n⟩)
  send := fun c _ _ n => (n, c)
  close := fun _ _ => ⟨[]⟩
  sizeofRsp := fun _ => 12

/-- The reference environment with a negotiator whose connection-level login
fails with `ECONNREFUSED` (61) and status code 3. -/
def refEnvRefusing : Env RefKernel RefPList RefChan :=
  { refEnv with iSCSILoginConnection := fun k _ _ _ _ => ⟨61, 3, k⟩ }

/-- The reference environment with a negotiator whose every login fails with
`ECONNREFUSED` (61) and status code 3. -/
def refEnvDown : Env RefKernel RefPList RefChan :=
  { refEnv with
      iSCSILoginSession := fun k _ _ _ _ _ => ⟨61, 3, k⟩
      iSCSILoginConnection := fun k _ _ _ _ => ⟨61, 3, k⟩ }

/-- The reference environment with a directory that cannot supply session
properties. -/
def refEnvNoProps : Env RefKernel RefPList RefChan :=
  { refEnv with iSCSICreateCFPropertiesForSession := fun _ _ => none }

/-- A target used in the examples. -/
def tgtA : iSCSITarget := ⟨"iqn.A"⟩

/-- Three portals used in the examples. -/
def portal1 : iSCSIPortal := ⟨"10.0.0.1", "3260", "default"⟩
def portal2 : iSCSIPortal := ⟨"10.0.0.2", "3260", "default"⟩
def portal3 : iSCSIPortal := ⟨"10.0.0.3", "3260", "default"⟩

/-- A property list that configures three portals for `tgtA`. -/
def plist3 : RefPList := ⟨[("iqn.A", [portal1, portal2, portal3])]⟩

/-- A state with no session, three configured portals for `tgtA`, and a kernel
whose new sessions negotiate `MaxConnections = m`. -/
def state0 (m : Nat) : State RefKernel RefPList RefChan :=
  { kernel := ⟨[], m⟩, plist := plist3, chan := ⟨[]⟩, trace := [] }

/-- A state in which `tgtA` has a session (id 0, `MaxConnections = m`) with one
connection, over `portal1`. -/
def state1 (m : Nat) : State RefKernel RefPList RefChan :=
  { kernel := ⟨[⟨0, "iqn.A", m, [(0, portal1)]⟩], m⟩, plist := plist3, chan := ⟨[]⟩,
    trace := [] }

/-! ## Reading a handler's run -/

/-- The target a handler obtains from the socket: the first
`iSCSIDCreateObjectFromSocket` call of the handlers that start with a target
segment. -/
def requestTarget (E : Env κ π χ) (fd : Int) (cmd : iSCSIDCmd) (s : State κ π χ) :
    iSCSITargetRef :=
  (iSCSIDCreateObjectFromSocket E fd cmd.targetLength E.iSCSITargetCreateWithData s).1

/-- The portal a handler obtains from the socket: the second
`iSCSIDCreateObjectFromSocket` call of the handlers that read a target segment
and then a portal segment. -/
def requestPortal (E : Env κ π χ) (fd : Int) (cmd : iSCSIDCmd) (s : State κ π χ) :
    iSCSIPortalRef :=
  (iSCSIDCreateObjectFromSocket E fd cmd.portalLength E.iSCSIPortalCreateWithData
    (iSCSIDCreateObjectFromSocket E fd cmd.targetLength E.iSCSITargetCreateWithData s).2).1

/-- The response headers among a list of events, in the order they were
handed to `send`. -/
def rspsSent : List Event → List Rsp
  | [] => []
  | Event.send _ (Msg.rsp r) _ _ :: evs => r :: rspsSent evs
  | _ :: evs => rspsSent evs

/-- The payload sends among a list of events: the bytes handed to `send` and
the length asked for. -/
def dataSent : List Event → List (List Nat × Nat)
  | [] => []
  | Event.send _ (Msg.data bytes) length _ :: evs => (bytes, length) :: dataSent evs
  | _ :: evs => dataSent evs

/-- The bytes of a string, as a segment on the reference socket. -/
def bytesOf (str : String) : List Nat := str.data.map Char.toNat

/-- A state in which `tgtA` has a session (id 0, `MaxConnections = 3`) with two
connections, over `portal1` (id 0) and `portal2` (id 1). -/
def state2 : State RefKernel RefPList RefChan :=
  { kernel := ⟨[⟨0, "iqn.A", 3, [(0, portal1), (1, portal2)]⟩], 3⟩, plist := plist3,
    chan := ⟨[]⟩, trace := [] }

/-- The state `st` with the given bytes waiting on the socket. -/
def withPending (st : State RefKernel RefPList RefChan) (pending : List Nat) :
    State RefKernel RefPList RefChan :=
  { st with chan := ⟨pending⟩ }

/-- A request header with the given function code, for target `iqn.A` (5
bytes) and a portal address of 8 bytes. -/
def cmdTargetPortal (funcCode : Nat) : iSCSIDCmd := ⟨funcCode, 5, 8, 0⟩

/-- A request header with the given function code, for target `iqn.A` (5
bytes) and no portal. -/
def cmdTarget (funcCode : Nat) : iSCSIDCmd := ⟨funcCode, 5, 0, 0⟩

/-- The state after a handler's first read (the target segment). -/
def afterTarget (E : Env κ π χ) (fd : Int) (cmd : iSCSIDCmd) (s : State κ π χ) :
    State κ π χ :=
  (iSCSIDCreateObjectFromSocket E fd cmd.targetLength E.iSCSITargetCreateWithData s).2

/-- The state after a handler's reads of the target segment and then the
portal segment. -/
def afterTargetPortal (E : Env κ π χ) (fd : Int) (cmd : iSCSIDCmd) (s : State κ π χ) :
    State κ π χ :=
  (iSCSIDCreateObjectFromSocket E fd cmd.portalLength E.iSCSIPortalCreateWithData
    (iSCSIDCreateObjectFromSocket E fd cmd.targetLength E.iSCSITargetCreateWithData s).2).2

/-- The `send` event of a response header handed to `send` in state `s`. -/
def sendRspEvent (E : Env κ π χ) (fd : Int) (rsp : Rsp) (s : State κ π χ) : Event :=
  Event.send fd (Msg.rsp rsp) (E.sizeofRsp rsp)
    (E.send s.chan fd (Msg.rsp rsp) (E.sizeofRsp rsp)).1

/-- The `recv` event of reading a segment of the given length in state `s`. -/
def recvEvent (E : Env κ π χ) (fd : Int) (length : Nat) (s : State κ π χ) : Event :=
  Event.recv fd length (E.recv s.chan fd length).1.1

/-- A second target used in the examples. -/
def tgtB : iSCSITarget := ⟨"iqn.B"⟩

/-- A state with two sessions: `tgtA` (id 0) connected over `portal1` and
`portal2`, `tgtB` (id 1) connected over `portal3`. -/
def state3 : State RefKernel RefPList RefChan :=
  { kernel := ⟨[⟨0, "iqn.A", 3, [(0, portal1), (1, portal2)]⟩,
                ⟨1, "iqn.B", 1, [(0, portal3)]⟩], 3⟩,
    plist := plist3, chan := ⟨[]⟩, trace := [] }

/-- The serialized session properties that `iSCSIDCreateCFPropertiesForSession`
responds with (its local `data`): NULL when there are no properties. -/
def sessionPropsData (E : Env κ π χ) (fd : Int) (cmd : iSCSIDCmd) (s : State κ π χ) :
    CFDataRef :=
  match E.iSCSICreateCFPropertiesForSession s.kernel (requestTarget E fd cmd s) with
  | some props => E.CFPropertyListCreateData_session props
  | none => none

/-- The number of payload bytes written: the sum of what the payload `send`
calls among a list of events returned. -/
def bytesWritten : List Event → Int
  | [] => 0
  | Event.send _ (Msg.data _) _ count :: evs => count + bytesWritten evs
  | _ :: evs => bytesWritten evs

/-- What `iSCSIQueryPortalForTargets` returns in `iSCSIDQueryPortalForTargets`,
for the portal and the authentication object the handler read. -/
def discoveryResult (E : Env κ π χ) (fd : Int) (cmd : iSCSIDCmd) (s : State κ π χ) :
    DiscoveryResult κ :=
  E.iSCSIQueryPortalForTargets s.kernel
    (iSCSIDCreateObjectFromSocket E fd cmd.portalLength E.iSCSIPortalCreateWithData s).1
    (iSCSIDCreateObjectFromSocket E fd cmd.authLength E.iSCSIAuthCreateWithData
      (iSCSIDCreateObjectFromSocket E fd cmd.portalLength E.iSCSIPortalCreateWithData s).2).1

/-- The serialized discovery record that `iSCSIDQueryPortalForTargets` responds
with (its local `data`): NULL when no discovery record was returned. -/
def discoveryData (E : Env κ π χ) (fd : Int) (cmd : iSCSIDCmd) (s : State κ π χ) :
    CFDataRef :=
  match (discoveryResult E fd cmd s).discoveryRec with
  | some rec => E.iSCSIDiscoveryRecCreateData rec
  | none => none

/-- The state in which `iSCSIDQueryPortalForTargets` sends its response: after
the two reads and the discovery query. -/
def afterDiscovery (E : Env κ π χ) (fd : Int) (cmd : iSCSIDCmd) (s : State κ π χ) :
    State κ π χ :=
  { (iSCSIDCreateObjectFromSocket E fd cmd.authLength E.iSCSIAuthCreateWithData
      (iSCSIDCreateObjectFromSocket E fd cmd.portalLength
        E.iSCSIPortalCreateWithData s).2).2 with
    kernel := (discoveryResult E fd cmd s).kernel
    trace := (iSCSIDCreateObjectFromSocket E fd cmd.authLength E.iSCSIAuthCreateWithData
        (iSCSIDCreateObjectFromSocket E fd cmd.portalLength
          E.iSCSIPortalCreateWithData s).2).2.trace ++
      [Event.queryPortalForTargets
        (iSCSIDCreateObjectFromSocket E fd cmd.portalLength E.iSCSIPortalCreateWithData s).1
        (iSCSIDCreateObjectFromSocket E fd cmd.authLength E.iSCSIAuthCreateWithData
          (iSCSIDCreateObjectFromSocket E fd cmd.portalLength
            E.iSCSIPortalCreateWithData s).2).1
        (discoveryResult E fd cmd s).error (discoveryResult E fd cmd s).statusCode] }

/-- The reference environment with a socket on which every `send` transfers
nothing. -/
def refEnvShortWrite : Env RefKernel RefPList RefChan :=
  { refEnv with send := fun c _ _ _ => (0, c) }

/-- The login step of `iSCSIDLogin` when a target was read: over the given
portal when there is one, else over all configured portals. -/
def loginStep (E : Env κ π χ) (target : iSCSITargetRef) (portal : iSCSIPortalRef)
    (s : State κ π χ) : (errno_t × Nat) × State κ π χ :=
  if target.isSome && portal.isSome then iSCSIDLoginWithPortal E target portal s
  else iSCSIDLoginAllPortals E target s

/-- A teardown of the channel: the kernel-resource cleanup or the `close` of
the descriptor. -/
def Event.isTeardown : Event → Bool
  | .cleanup => true
  | .close _ => true
  | _ => false

/-- The session the directory has for a target:
`iSCSIGetSessionIdForTarget(iSCSITargetGetIQN(target))`. -/
def sessionOf (E : Env κ π χ) (target : iSCSITargetRef) (k : κ) : SID :=
  E.iSCSIGetSessionIdForTarget k (E.iSCSITargetGetIQN target)

/-- The active-connection count of the target's session as the login code
reads it: `CFArrayGetCount(iSCSICreateArrayOfConnectionsIds(sessionId))`, 0
when the array is NULL. -/
def activeConnections (E : Env κ π χ) (target : iSCSITargetRef) (k : κ) : Nat :=
  match E.iSCSICreateArrayOfConnectionsIds k (sessionOf E target k) with
  | some connections => connections.length
  | none => 0

/-- The negotiated maximum of the target's session as the login code reads it:
the `MaxConnections` entry of `iSCSICreateCFPropertiesForSession(target)`,
unknown when there are no properties. -/
def maxConnections (E : Env κ π χ) (target : iSCSITargetRef) (k : κ) : Option Nat :=
  (E.iSCSICreateCFPropertiesForSession k target).map (fun p => p.MaxConnections)

/-- The connection limit holds in a kernel state: if the target has a session
whose maximum is known, its active-connection count does not exceed it. -/
def withinLimit (E : Env κ π χ) (target : iSCSITargetRef) (k : κ) : Prop :=
  sessionOf E target k ≠ E.kiSCSIInvalidSessionId →
    ∀ m, maxConnections E target k = some m → activeConnections E target k ≤ m

/-- A minimal environment: the kernel state is the number of connections of
the one session (`none` when there is no session), every session negotiates
`MaxConnections = 2`, the property list is the list of configured portal
addresses, and the negotiator accepts every login it is asked for. -/
def tinyEnv : Env (Option Nat) (List String) Unit where
  kiSCSIDLogin := 0
  kiSCSIDLogout := 1
  kiSCSIDCreateArrayOfActiveTargets := 2
  kiSCSIDCreateArrayOfActivePortalsForTarget := 3
  kiSCSIDIsTargetActive := 4
  kiSCSIDIsPortalActive := 5
  kiSCSIDQueryPortalForTargets := 6
  kiSCSIDQueryTargetForAuthMethod := 7
  kiSCSIDCreateCFPropertiesForSession := 8
  kiSCSIDCreateCFPropertiesForConnection := 9
  kiSCSIInvalidSessionId := 65535
  kiSCSIInvalidConnectionId := 4294967295
  kiSCSILoginInvalidStatusCode := 255
  kiSCSILogoutInvalidStatusCode := 254
  kiSCSIAuthMethodInvalid := 253
  iSCSITargetGetIQN := fun t => t.map (fun x => x.IQN)
  iSCSIPortalGetAddress := fun p => p.map (fun x => x.address)
  iSCSISessionConfigCreateMutable := some ⟨[]⟩
  iSCSIConnectionConfigCreateMutable := some ⟨[]⟩
  iSCSIAuthCreateNone := some ⟨0⟩
  iSCSITargetCreateWithData := fun _ => none
  iSCSIPortalCreateWithData := fun _ => none
  iSCSIAuthCreateWithData := fun _ => none
  iSCSIDiscoveryRecCreateData := fun _ => none
  CFPropertyListCreateData_targets := fun _ => none
  CFPropertyListCreateData_session := fun _ => none
  CFPropertyListCreateData_connection := fun _ => none
  iSCSIGetSessionIdForTarget := fun k _ =>
    match k with
    | some _ => 0
    | none => 65535
  iSCSIGetConnectionIdForPortal := fun _ _ _ => 4294967295
  iSCSICreateCFPropertiesForSession := fun k _ => k.map (fun _ => ⟨2, []⟩)
  iSCSICreateCFPropertiesForConnection := fun _ _ _ => none
  iSCSICreateArrayOfConnectionsIds := fun k _ => k.map (fun c => List.range c)
  iSCSICreateArrayOfSessionIds := fun k =>
    match k with
    | some _ => [0]
    | none => []
  iSCSICreateTargetForSessionId := fun _ _ => none
  iSCSILoginSession := fun k _ _ _ _ _ =>
    match k with
    | none => ⟨0, 0, some 1⟩
    | some c => ⟨17, 255, some c⟩
  iSCSILoginConnection := fun k _ _ _ _ =>
    match k with
    | some c => ⟨0, 0, some (c + 1)⟩
    | none => ⟨22, 255, none⟩
  iSCSILogoutSession := fun _ _ => ⟨0, 0, none⟩
  iSCSILogoutConnection := fun k _ _ => ⟨0, 0, k.map (fun c => c - 1)⟩
  iSCSIQueryPortalForTargets := fun k _ _ => ⟨0, none, 0, k⟩
  iSCSIQueryTargetForAuthMethod := fun k _ _ => ⟨0, 0, 0, k⟩
  iSCSICleanup := fun _ => none
  iSCSIPLSynchronize := fun pl => pl
  iSCSIPLCopySessionConfig := fun _ _ => none
  iSCSIPLCopyConnectionConfig := fun _ _ _ => none
  iSCSIPLCopyAuthenticationForTarget := fun _ _ => none
  iSCSIPLCreateArrayOfPortals := fun pl _ => pl
  iSCSIPLCopyPortalForTarget := fun _ _ addr => addr.map (fun x => ⟨x, "3260", "default"⟩)
  recv := fun c _ _ => ((0, []), c)
  send := fun c _ _ n => (n, c)
  close := fun c _ => c
  sizeofRsp := fun _ => 12

/-- A state of the minimal environment: kernel state `k`, three configured
portals. -/
def tinyState (k : Option Nat) : State (Option Nat) (List String) Unit :=
  { kernel := k, plist := ["10.0.0.1", "10.0.0.2", "10.0.0.3"], chan := (), trace := [] }

/-- The minimal environment with a negotiator whose connection login to the
address `10.0.0.1` fails with `ECONNREFUSED` (61) and leaves two half-open
connections behind in the session; its other logins behave as in `tinyEnv`. -/
def leakyEnv : Env (Option Nat) (List String) Unit :=
  { tinyEnv with
      iSCSILoginConnection := fun k _ p _ _ =>
        match k with
        | some c =>
          if p.map (fun x => x.address) = some "10.0.0.1" then ⟨61, 3, some (c + 2)⟩
          else ⟨0, 0, some (c + 1)⟩
        | none => ⟨22, 255, none⟩ }

/-- The reference environment with a negotiator whose session-level login sets
the session up with its first connection, as in `refEnv`, and then reports
`ECONNREFUSED` (61) with status code 3 without taking the session down. -/
def refEnvHalfOpen : Env RefKernel RefPList RefChan :=
  { refEnv with
      iSCSILoginSession := fun k t p a sc cc =>
        ⟨61, 3, (refEnv.iSCSILoginSession k t p a sc cc).kernel⟩ }

/-- The serialized array of active targets that
`iSCSIDCreateArrayOfActiveTargets` and
`iSCSIDCreateArrayofActivePortalsForTarget` respond with (their local
`data`). -/
def activeTargetsData (E : Env κ π χ) (s : State κ π χ) : CFDataRef :=
  E.CFPropertyListCreateData_targets
    ((E.iSCSICreateArrayOfSessionIds s.kernel).map (E.iSCSICreateTargetForSessionId s.kernel))

/-- The serialized connection properties that
`iSCSIDCreateCFPropertiesForConnection` responds with (its local `data`): NULL
when there are no properties. -/
def connectionPropsData (E : Env κ π χ) (fd : Int) (cmd : iSCSIDCmd) (s : State κ π χ) :
    CFDataRef :=
  match E.iSCSICreateCFPropertiesForConnection s.kernel (requestTarget E fd cmd s)
      (requestPortal E fd cmd s) with
  | some props => E.CFPropertyListCreateData_connection props
  | none => none

/-- The reference environment on a socket whose `send` transfers at most
`0x7ffff000` bytes in one call. -/
def refEnvBounded : Env RefKernel RefPList RefChan :=
  { refEnv with send := fun c _ _ n => ((min n 2147479552 : Nat), c) }

/-! ## Properties of `iSCSIDLoginCommon` -/

theorem loginCommon_plist (E : Env κ π χ) (sid : SID) (target : iSCSITargetRef)
    (portal : iSCSIPortalRef) (s : State κ π χ) :
    (iSCSIDLoginCommon E sid target portal s).2.plist = s.plist := by
  unfold iSCSIDLoginCommon
  by_cases h : sid = E.kiSCSIInvalidSessionId <;> simp [h]

theorem loginCommon_chan (E : Env κ π χ) (sid : SID) (target : iSCSITargetRef)
    (portal : iSCSIPortalRef) (s : State κ π χ) :
    (iSCSIDLoginCommon E sid target portal s).2.chan = s.chan := by
  unfold iSCSIDLoginCommon
  by_cases h : sid = E.kiSCSIInvalidSessionId <;> simp [h]

/-- `iSCSIDLoginCommon` makes exactly one call, a negotiator login for the
given portal, and returns what that call returned. -/
theorem loginCommon_trace (E : Env κ π χ) (sid : SID) (target : iSCSITargetRef)
    (portal : iSCSIPortalRef) (s : State κ π χ) :
    ∃ e : Event, (iSCSIDLoginCommon E sid target portal s).2.trace = s.trace ++ [e] ∧
      e.isLogin = true ∧ e.isLogout = false ∧ e.loginPortal = portal ∧
      e.error = (iSCSIDLoginCommon E sid target portal s).1.1 ∧
      e.statusCode = (iSCSIDLoginCommon E sid target portal s).1.2 ∧
      (e = Event.loginSession target portal e.error e.statusCode ∧ sid = E.kiSCSIInvalidSessionId ∨
       e = Event.loginConnection sid portal e.error e.statusCode ∧ sid ≠ E.kiSCSIInvalidSessionId) := by
  unfold iSCSIDLoginCommon
  by_cases h : sid = E.kiSCSIInvalidSessionId
  · simp only [h, if_true]
    exact ⟨_, rfl, rfl, rfl, rfl, rfl, rfl, Or.inl ⟨rfl, trivial⟩⟩
  · simp only [h, if_false]
    exact ⟨_, rfl, rfl, rfl, rfl, rfl, rfl, Or.inr ⟨rfl, h⟩⟩

/-- When every negotiator login returns 0, so does `iSCSIDLoginCommon`. -/
theorem loginCommon_error_zero (E : Env κ π χ)
    (hs : ∀ k t p a sc cc, (E.iSCSILoginSession k t p a sc cc).error = 0)
    (hc : ∀ k sid p a cc, (E.iSCSILoginConnection k sid p a cc).error = 0)
    (sid : SID) (target : iSCSITargetRef) (portal : iSCSIPortalRef) (s : State κ π χ) :
    (iSCSIDLoginCommon E sid target portal s).1.1 = 0 := by
  unfold iSCSIDLoginCommon
  by_cases h : sid = E.kiSCSIInvalidSessionId
  · simp only [h, if_true]; exact hs _ _ _ _ _ _
  · simp only [h, if_false]; exact hc _ _ _ _ _

/-! ## The loop of `iSCSIDLoginAllPortals` -/

/-- One more unit of fuel changes nothing once the fuel exceeds the number of
portals left: the `0` case of the loop is never reached from
`iSCSIDLoginAllPortals`. -/
theorem iSCSIDLoginAllPortals_loop_fuel (E : Env κ π χ) (target : iSCSITargetRef)
    (iqn : CFStringRef) (portals : List String) :
    ∀ (fuel : Nat) (l : LoginLoop κ π χ), portals.length - l.portalIdx < fuel →
      iSCSIDLoginAllPortals_loop E target iqn portals (fuel + 1) l =
        iSCSIDLoginAllPortals_loop E target iqn portals fuel l := by
  intro fuel
  induction fuel with
  | zero => intro l h; omega
  | succ n ih =>
    intro l h
    rw [iSCSIDLoginAllPortals_loop, iSCSIDLoginAllPortals_loop.eq_2 E target iqn portals l n]
    by_cases hlt : l.activeConnections < l.maxConnections
    · simp only [hlt, if_true]
      cases hg : portals.get? l.portalIdx with
      | none => rfl
      | some a =>
        simp only []
        have hidx : l.portalIdx < portals.length := (List.get?_eq_some.mp hg).1
        by_cases he : (iSCSIDLoginCommon E l.sessionId target
            (E.iSCSIPLCopyPortalForTarget l.st.plist iqn (some a)) l.st).1.1 = 0
        · simp only [he, ne_eq, not_true_eq_false, if_false]
          apply ih
          simp only [iSCSIDLoginAllPortals_advance]
          omega
        · simp only [he, ne_eq, not_false_eq_true, if_true]
    · simp only [hlt, if_false]

/-- The loop when every login succeeds, entered with at least one active
connection (so `maxConnections` is not read again): it logs in over the next
`min (portals left) (maxConnections - activeConnections)` configured portals,
in order. -/
theorem loop_all_success (E : Env κ π χ) (target : iSCSITargetRef) (iqn : CFStringRef)
    (portals : List String)
    (hs : ∀ k t p a sc cc, (E.iSCSILoginSession k t p a sc cc).error = 0)
    (hc : ∀ k sid p a cc, (E.iSCSILoginConnection k sid p a cc).error = 0) :
    ∀ (fuel : Nat) (l : LoginLoop κ π χ), 1 ≤ l.activeConnections →
      portals.length - l.portalIdx < fuel → l.errorCode = 0 →
      (iSCSIDLoginAllPortals_loop E target iqn portals fuel l).errorCode = 0 ∧
      ∃ evs : List Event,
        (iSCSIDLoginAllPortals_loop E target iqn portals fuel l).st.trace = l.st.trace ++ evs ∧
        evs.length = min (portals.length - l.portalIdx)
          (l.maxConnections - l.activeConnections) ∧
        (∀ e ∈ evs, e.isLogin = true) ∧
        evs.map Event.loginPortal =
          ((portals.drop l.portalIdx).take (l.maxConnections - l.activeConnections)).map
            (fun a => E.iSCSIPLCopyPortalForTarget l.st.plist iqn (some a)) := by
  intro fuel
  induction fuel with
  | zero => intro l _ h; omega
  | succ n ih =>
    intro l hact hfuel herr
    rw [iSCSIDLoginAllPortals_loop]
    by_cases hlt : l.activeConnections < l.maxConnections
    · simp only [hlt, if_true]
      cases hg : portals.get? l.portalIdx with
      | none =>
        have hge : portals.length ≤ l.portalIdx := List.get?_eq_none.mp hg
        refine ⟨herr, [], by simp, ?_, by simp, ?_⟩
        · simp; omega
        · simp [List.drop_eq_nil_of_le hge]
      | some a =>
        simp only []
        have hidx : l.portalIdx < portals.length := (List.get?_eq_some.mp hg).1
        have hdrop : portals.drop l.portalIdx = a :: portals.drop (l.portalIdx + 1) := by
          rw [List.drop_eq_getElem_cons hidx]
          congr 1
          have := (List.get?_eq_some.mp hg).2
          simpa using this
        have he := loginCommon_error_zero E hs hc l.sessionId target
          (E.iSCSIPLCopyPortalForTarget l.st.plist iqn (some a)) l.st
        obtain ⟨e, htr, hlog, _, hport, _, _, _⟩ := loginCommon_trace E l.sessionId target
          (E.iSCSIPLCopyPortalForTarget l.st.plist iqn (some a)) l.st
        have hpl := loginCommon_plist E l.sessionId target
          (E.iSCSIPLCopyPortalForTarget l.st.plist iqn (some a)) l.st
        simp only [he, ne_eq, not_true_eq_false, if_false]
        have hne : ¬ (l.activeConnections + 1 = 1) := by omega
        obtain ⟨h0, evs, h1, h2, h3, h4⟩ := ih
          (iSCSIDLoginAllPortals_advance E target l (iSCSIDLoginCommon E l.sessionId target
            (E.iSCSIPLCopyPortalForTarget l.st.plist iqn (some a)) l.st))
          (by simp [iSCSIDLoginAllPortals_advance])
          (by simp only [iSCSIDLoginAllPortals_advance]; omega)
          (by simp only [iSCSIDLoginAllPortals_advance]; exact he)
        have hmax : (iSCSIDLoginAllPortals_advance E target l (iSCSIDLoginCommon E l.sessionId
            target (E.iSCSIPLCopyPortalForTarget l.st.plist iqn (some a)) l.st)).maxConnections
            = l.maxConnections := by
          simp [iSCSIDLoginAllPortals_advance, hne]
        have hst : (iSCSIDLoginAllPortals_advance E target l (iSCSIDLoginCommon E l.sessionId
            target (E.iSCSIPLCopyPortalForTarget l.st.plist iqn (some a)) l.st)).st
            = (iSCSIDLoginCommon E l.sessionId target
              (E.iSCSIPLCopyPortalForTarget l.st.plist iqn (some a)) l.st).2 := rfl
        have hac : (iSCSIDLoginAllPortals_advance E target l (iSCSIDLoginCommon E l.sessionId
            target (E.iSCSIPLCopyPortalForTarget l.st.plist iqn (some a)) l.st)).activeConnections
            = l.activeConnections + 1 := rfl
        have hix : (iSCSIDLoginAllPortals_advance E target l (iSCSIDLoginCommon E l.sessionId
            target (E.iSCSIPLCopyPortalForTarget l.st.plist iqn (some a)) l.st)).portalIdx
            = l.portalIdx + 1 := rfl
        rw [hmax, hst, hac, hix] at h4
        rw [hmax, hac, hix] at h2
        rw [hst] at h1
        refine ⟨h0, e :: evs, ?_, ?_, ?_, ?_⟩
        · rw [h1, htr]; simp
        · simp only [List.length_cons, h2]; omega
        · intro x hx
          rcases List.mem_cons.mp hx with rfl | hx
          · exact hlog
          · exact h3 x hx
        · have hk : l.maxConnections - l.activeConnections
              = (l.maxConnections - (l.activeConnections + 1)) + 1 := by omega
          rw [hdrop, hk, List.take_succ_cons, List.map_cons, List.map_cons, h4, hport]
          simp only [hpl]
    · simp only [hlt, if_false]
      refine ⟨herr, [], by simp, ?_, by simp, ?_⟩
      · simp; omega
      · have : l.maxConnections - l.activeConnections = 0 := by omega
        simp [this]

/-- The loop for an arbitrary negotiator: it only makes negotiator login
calls, and a call that returns a non-zero error code is the last one, its
error code and status code being what the loop leaves in `errorCode` and
`statusCode`. -/
theorem loop_trace (E : Env κ π χ) (target : iSCSITargetRef) (iqn : CFStringRef)
    (portals : List String) :
    ∀ (fuel : Nat) (l : LoginLoop κ π χ), ∃ evs : List Event,
      (iSCSIDLoginAllPortals_loop E target iqn portals fuel l).st.trace = l.st.trace ++ evs ∧
      (∀ e ∈ evs, e.isLogin = true ∧ e.isLogout = false) ∧
      (∀ (k : Nat) (e : Event), evs[k]? = some e → e.error ≠ 0 →
        evs.length = k + 1 ∧
        (iSCSIDLoginAllPortals_loop E target iqn portals fuel l).errorCode = e.error ∧
        (iSCSIDLoginAllPortals_loop E target iqn portals fuel l).statusCode = e.statusCode) ∧
      (evs = [] → iSCSIDLoginAllPortals_loop E target iqn portals fuel l = l) := by
  intro fuel
  induction fuel with
  | zero =>
    intro l
    exact ⟨[], by simp [iSCSIDLoginAllPortals_loop], by simp, by simp,
      fun _ => by simp [iSCSIDLoginAllPortals_loop]⟩
  | succ n ih =>
    intro l
    rw [iSCSIDLoginAllPortals_loop]
    by_cases hlt : l.activeConnections < l.maxConnections
    · simp only [hlt, if_true]
      cases hg : portals.get? l.portalIdx with
      | none => exact ⟨[], by simp, by simp, by simp, fun _ => rfl⟩
      | some a =>
        simp only []
        obtain ⟨e, htr, hlog, hnlog, _, herr, hst, _⟩ := loginCommon_trace E l.sessionId target
          (E.iSCSIPLCopyPortalForTarget l.st.plist iqn (some a)) l.st
        by_cases he : (iSCSIDLoginCommon E l.sessionId target
            (E.iSCSIPLCopyPortalForTarget l.st.plist iqn (some a)) l.st).1.1 = 0
        · simp only [he, ne_eq, not_true_eq_false, if_false]
          obtain ⟨evs, h1, h2, h3, _⟩ := ih
            (iSCSIDLoginAllPortals_advance E target l (iSCSIDLoginCommon E l.sessionId target
              (E.iSCSIPLCopyPortalForTarget l.st.plist iqn (some a)) l.st))
          have hadv : (iSCSIDLoginAllPortals_advance E target l (iSCSIDLoginCommon E l.sessionId
              target (E.iSCSIPLCopyPortalForTarget l.st.plist iqn (some a)) l.st)).st
              = (iSCSIDLoginCommon E l.sessionId target
                (E.iSCSIPLCopyPortalForTarget l.st.plist iqn (some a)) l.st).2 := rfl
          refine ⟨e :: evs, ?_, ?_, ?_, by simp⟩
          · rw [h1, hadv, htr]; simp
          · intro x hx
            rcases List.mem_cons.mp hx with rfl | hx
            · exact ⟨hlog, hnlog⟩
            · exact h2 x hx
          · intro k x hk hx
            cases k with
            | zero =>
              simp only [List.getElem?_cons_zero, Option.some.injEq] at hk
              subst hk
              exact absurd (herr.trans he) hx
            | succ j =>
              simp only [List.getElem?_cons_succ] at hk
              obtain ⟨a1, a2, a3⟩ := h3 j x hk hx
              exact ⟨by simp [a1], a2, a3⟩
        · simp only [he, ne_eq, not_false_eq_true, if_true]
          refine ⟨[e], htr, ?_, ?_, by simp⟩
          · intro x hx
            rw [List.mem_singleton.mp hx]
            exact ⟨hlog, hnlog⟩
          · intro k x hk _
            cases k with
            | zero =>
              simp only [List.getElem?_cons_zero, Option.some.injEq] at hk
              subst hk
              exact ⟨by simp, herr.symm, hst.symm⟩
            | succ j => simp at hk
    · simp only [hlt, if_false]
      exact ⟨[], by simp, by simp, by simp, by simp⟩

/-- The locals of `iSCSIDLoginAllPortals` at loop entry when the target has no
session. -/
theorem init_no_session (E : Env κ π χ) (target : iSCSITargetRef) (s : State κ π χ)
    (hno : E.iSCSIGetSessionIdForTarget s.kernel (E.iSCSITargetGetIQN target)
      = E.kiSCSIInvalidSessionId) :
    iSCSIDLoginAllPortals_init E target s =
      { activeConnections := 0, maxConnections := 1, portalIdx := 0,
        sessionId := E.kiSCSIInvalidSessionId, errorCode := 0,
        statusCode := E.kiSCSILoginInvalidStatusCode, st := s } := by
  unfold iSCSIDLoginAllPortals_init
  simp [hno]

/-! ## Claims -/

/-- C1: for a target with N configured portals and no existing session, when
every negotiator login returns error code 0 and the first login negotiates
`MaxConnections = m` with `m ≥ 1`, `iSCSIDLoginAllPortals` returns 0 and makes
exactly `min N m` calls, all of them negotiator logins, one for each of the
first `min N m` configured portals in stored order. -/
theorem C1_loginAllPortals_min_calls (E : Env κ π χ) (target : iSCSITargetRef)
    (s : State κ π χ) (m : Nat)
    (hno : E.iSCSIGetSessionIdForTarget s.kernel (E.iSCSITargetGetIQN target)
      = E.kiSCSIInvalidSessionId)
    (hs : ∀ k t p a sc cc, (E.iSCSILoginSession k t p a sc cc).error = 0)
    (hc : ∀ k sid p a cc, (E.iSCSILoginConnection k sid p a cc).error = 0)
    (hm : 1 ≤ m)
    (hfirst : ∀ a, (configuredPortals E target s).head? = some a →
      ∃ props, E.iSCSICreateCFPropertiesForSession
        (iSCSIDLoginCommon E E.kiSCSIInvalidSessionId target (portalAt E target s a) s).2.kernel
        target = some props ∧ props.MaxConnections = m) :
    (iSCSIDLoginAllPortals E target s).1.1 = 0 ∧
    (iSCSIDLoginAllPortals E target s).2.trace
      = s.trace ++ callsMade s (iSCSIDLoginAllPortals E target s).2 ∧
    (callsMade s (iSCSIDLoginAllPortals E target s).2).length
      = min (configuredPortals E target s).length m ∧
    (∀ e ∈ callsMade s (iSCSIDLoginAllPortals E target s).2, e.isLogin = true) ∧
    (callsMade s (iSCSIDLoginAllPortals E target s).2).map Event.loginPortal
      = ((configuredPortals E target s).take (min (configuredPortals E target s).length m)).map
          (portalAt E target s) := by
  -- it suffices to exhibit the appended events
  suffices h : (iSCSIDLoginAllPortals E target s).1.1 = 0 ∧ ∃ evs : List Event,
      (iSCSIDLoginAllPortals E target s).2.trace = s.trace ++ evs ∧
      evs.length = min (configuredPortals E target s).length m ∧
      (∀ e ∈ evs, e.isLogin = true) ∧
      evs.map Event.loginPortal
        = ((configuredPortals E target s).take (min (configuredPortals E target s).length m)).map
            (portalAt E target s) by
    obtain ⟨h0, evs, h1, h2, h3, h4⟩ := h
    have hcm : callsMade s (iSCSIDLoginAllPortals E target s).2 = evs := by
      unfold callsMade; rw [h1]; simp
    rw [hcm]
    exact ⟨h0, h1, h2, h3, h4⟩
  unfold iSCSIDLoginAllPortals
  simp only []
  rw [init_no_session E target s hno]
  change _ ∧ ∃ evs : List Event, _ ∧ evs.length = min (E.iSCSIPLCreateArrayOfPortals s.plist
      (E.iSCSITargetGetIQN target)).length m ∧ _ ∧
    evs.map Event.loginPortal = ((E.iSCSIPLCreateArrayOfPortals s.plist
      (E.iSCSITargetGetIQN target)).take (min (E.iSCSIPLCreateArrayOfPortals s.plist
      (E.iSCSITargetGetIQN target)).length m)).map (portalAt E target s)
  unfold configuredPortals at hfirst
  generalize E.iSCSIPLCreateArrayOfPortals s.plist (E.iSCSITargetGetIQN target) = portals
    at hfirst ⊢
  rw [iSCSIDLoginAllPortals_loop]
  simp only [Nat.lt_one_iff, if_true]
  cases portals with
  | nil =>
    simp
  | cons a rest =>
    simp only [List.get?_cons_zero]
    obtain ⟨props, hp1, hp2⟩ := hfirst a rfl
    unfold portalAt at hp1
    have he := loginCommon_error_zero E hs hc E.kiSCSIInvalidSessionId target
      (E.iSCSIPLCopyPortalForTarget s.plist (E.iSCSITargetGetIQN target) (some a)) s
    obtain ⟨e, htr, hlog, _, hport, _, _, _⟩ := loginCommon_trace E E.kiSCSIInvalidSessionId
      target (E.iSCSIPLCopyPortalForTarget s.plist (E.iSCSITargetGetIQN target) (some a)) s
    have hpl := loginCommon_plist E E.kiSCSIInvalidSessionId target
      (E.iSCSIPLCopyPortalForTarget s.plist (E.iSCSITargetGetIQN target) (some a)) s
    simp only [he, ne_eq, not_true_eq_false, if_false]
    generalize hadv : iSCSIDLoginAllPortals_advance E target
      { activeConnections := 0, maxConnections := 1, portalIdx := 0,
        sessionId := E.kiSCSIInvalidSessionId, errorCode := 0,
        statusCode := E.kiSCSILoginInvalidStatusCode, st := s }
      (iSCSIDLoginCommon E E.kiSCSIInvalidSessionId target
        (E.iSCSIPLCopyPortalForTarget s.plist (E.iSCSITargetGetIQN target) (some a)) s) = l1
    have hac : l1.activeConnections = 1 := by rw [← hadv]; rfl
    have hix : l1.portalIdx = 1 := by rw [← hadv]; rfl
    have hst : l1.st = (iSCSIDLoginCommon E E.kiSCSIInvalidSessionId target
        (E.iSCSIPLCopyPortalForTarget s.plist (E.iSCSITargetGetIQN target) (some a)) s).2 := by
      rw [← hadv]; rfl
    have her : l1.errorCode = 0 := by rw [← hadv]; exact he
    have hmax : l1.maxConnections = m := by
      rw [← hadv]; simp [iSCSIDLoginAllPortals_advance, hp1, hp2]
    obtain ⟨h0, evs, h1, h2, h3, h4⟩ := loop_all_success E target (E.iSCSITargetGetIQN target)
      (a :: rest) hs hc (a :: rest).length l1 (by omega) (by rw [hix]; simp) her
    rw [hmax, hac, hix] at h2 h4
    rw [hst] at h1 h4
    refine ⟨h0, e :: evs, ?_, ?_, ?_, ?_⟩
    · rw [h1, htr]; simp
    · simp only [List.length_cons, h2]; omega
    · intro x hx
      rcases List.mem_cons.mp hx with rfl | hx
      · exact hlog
      · exact h3 x hx
    · have hk : min (rest.length + 1) m = (m - 1) + 1 ∨ min (rest.length + 1) m = rest.length + 1 ∧ rest.length + 1 ≤ m := by
        omega
      simp only [List.length_cons]
      rw [List.map_cons, h4, hport]
      simp only [hpl, List.drop_one, List.tail_cons]
      unfold portalAt
      rcases hk with hk | ⟨hk, hle⟩
      · rw [hk, List.take_succ_cons, List.map_cons]
      · rw [hk, List.take_succ_cons, List.map_cons]
        congr 2
        rw [List.take_of_length_le (by omega), List.take_of_length_le (by omega)]
/-- C1 at a concrete input: three configured portals, no session, a negotiator
that negotiates `MaxConnections = 1`: exactly one login call, over the first
portal; portals 2 and 3 are not attempted. -/
theorem C1_loginAllPortals_min_calls_witness :
    (configuredPortals refEnv (some tgtA) (state0 1)).length = 3 ∧
    (iSCSIDLoginAllPortals refEnv (some tgtA) (state0 1)).1.1 = 0 ∧
    (callsMade (state0 1) (iSCSIDLoginAllPortals refEnv (some tgtA) (state0 1)).2).length = 1 ∧
    (∀ e ∈ callsMade (state0 1) (iSCSIDLoginAllPortals refEnv (some tgtA) (state0 1)).2,
      e.isLogin = true) ∧
    (callsMade (state0 1) (iSCSIDLoginAllPortals refEnv (some tgtA) (state0 1)).2).map
      Event.loginPortal = [some portal1] := by
  have h := C1_loginAllPortals_min_calls refEnv (some tgtA) (state0 1) 1 rfl
    (by intro k t p a sc cc; cases t <;> cases p <;> rfl)
    (by intro k sid p a cc; cases p <;> rfl)
    (le_refl 1)
    (by
      intro a ha
      have ha' : a = "10.0.0.1" := by
        have : (configuredPortals refEnv (some tgtA) (state0 1)).head? = some "10.0.0.1" := rfl
        rw [this] at ha
        exact (Option.some.inj ha).symm
      subst ha'
      exact ⟨⟨1, []⟩, rfl, rfl⟩)
  refine ⟨rfl, h.1, ?_, h.2.2.2.1, ?_⟩
  · rw [h.2.2.1]; rfl
  · rw [h.2.2.2.2]; rfl

/-- C2: whatever the target, the portal list and the negotiator do, the calls
`iSCSIDLoginAllPortals` makes are negotiator logins only (no logout is ever
issued); if the call at position `k` returns a non-zero error code it is the
last call, and the function returns exactly that error code and the status code
that call reported.  When that failing call is the first one, on a target with
no session, and a failed session login leaves the kernel as it was, the kernel
state is unchanged: there is still no session, so no connection, for the
target. -/
theorem C2_loginAllPortals_stops_on_error (E : Env κ π χ) (target : iSCSITargetRef)
    (s : State κ π χ) :
    (iSCSIDLoginAllPortals E target s).2.trace
      = s.trace ++ callsMade s (iSCSIDLoginAllPortals E target s).2 ∧
    (∀ e ∈ callsMade s (iSCSIDLoginAllPortals E target s).2,
      e.isLogin = true ∧ e.isLogout = false) ∧
    (∀ (k : Nat) (e : Event),
      (callsMade s (iSCSIDLoginAllPortals E target s).2)[k]? = some e → e.error ≠ 0 →
      (callsMade s (iSCSIDLoginAllPortals E target s).2).length = k + 1 ∧
      (iSCSIDLoginAllPortals E target s).1 = (e.error, e.statusCode)) ∧
    (E.iSCSIGetSessionIdForTarget s.kernel (E.iSCSITargetGetIQN target)
        = E.kiSCSIInvalidSessionId →
      (∀ k t p a sc cc, (E.iSCSILoginSession k t p a sc cc).error ≠ 0 →
        (E.iSCSILoginSession k t p a sc cc).kernel = k) →
      ∀ e : Event, (callsMade s (iSCSIDLoginAllPortals E target s).2)[0]? = some e →
        e.error ≠ 0 →
        (iSCSIDLoginAllPortals E target s).2.kernel = s.kernel ∧
        E.iSCSIGetSessionIdForTarget (iSCSIDLoginAllPortals E target s).2.kernel
          (E.iSCSITargetGetIQN target) = E.kiSCSIInvalidSessionId) := by
  obtain ⟨evs, h1, h2, h3, h4⟩ := loop_trace E target (E.iSCSITargetGetIQN target)
    (E.iSCSIPLCreateArrayOfPortals s.plist (E.iSCSITargetGetIQN target))
    ((E.iSCSIPLCreateArrayOfPortals s.plist (E.iSCSITargetGetIQN target)).length + 1)
    (iSCSIDLoginAllPortals_init E target s)
  have hst : (iSCSIDLoginAllPortals_init E target s).st = s := rfl
  rw [hst] at h1
  have htr : (iSCSIDLoginAllPortals E target s).2.trace = s.trace ++ evs := h1
  have hcm : callsMade s (iSCSIDLoginAllPortals E target s).2 = evs := by
    unfold callsMade; rw [htr]; simp
  rw [hcm]
  refine ⟨htr, h2, ?_, ?_⟩
  · intro k e hk he
    obtain ⟨a1, a2, a3⟩ := h3 k e hk he
    refine ⟨a1, ?_⟩
    unfold iSCSIDLoginAllPortals
    simp only []
    rw [a2, a3]
  · intro hno hatomic e h0 he
    -- the single call is the failing session login of the first iteration
    suffices hk : (iSCSIDLoginAllPortals E target s).2.kernel = s.kernel by
      rw [hk]; exact ⟨rfl, hno⟩
    unfold iSCSIDLoginAllPortals at htr ⊢
    simp only [] at htr ⊢
    rw [init_no_session E target s hno] at htr ⊢
    rw [iSCSIDLoginAllPortals_loop] at htr ⊢
    simp only [Nat.lt_one_iff, if_true] at htr ⊢
    cases hp : (E.iSCSIPLCreateArrayOfPortals s.plist (E.iSCSITargetGetIQN target)).get? 0 with
    | none => simp only [hp]
    | some a =>
      simp only [hp] at htr ⊢
      by_cases hz : (iSCSIDLoginCommon E E.kiSCSIInvalidSessionId target
          (E.iSCSIPLCopyPortalForTarget s.plist (E.iSCSITargetGetIQN target) (some a)) s).1.1 = 0
      · -- a successful first call would put a zero error code at position 0
        exfalso
        obtain ⟨e0, htr0, _, _, _, herr0, _, _⟩ := loginCommon_trace E E.kiSCSIInvalidSessionId
          target (E.iSCSIPLCopyPortalForTarget s.plist (E.iSCSITargetGetIQN target) (some a)) s
        simp only [hz, ne_eq, not_true_eq_false, if_false] at htr
        generalize hadv : iSCSIDLoginAllPortals_advance E target
          { activeConnections := 0, maxConnections := 1, portalIdx := 0,
            sessionId := E.kiSCSIInvalidSessionId, errorCode := 0,
            statusCode := E.kiSCSILoginInvalidStatusCode, st := s }
          (iSCSIDLoginCommon E E.kiSCSIInvalidSessionId target
            (E.iSCSIPLCopyPortalForTarget s.plist (E.iSCSITargetGetIQN target) (some a)) s) = l1
          at htr
        have hst1 : l1.st = (iSCSIDLoginCommon E E.kiSCSIInvalidSessionId target
            (E.iSCSIPLCopyPortalForTarget s.plist (E.iSCSITargetGetIQN target) (some a)) s).2 := by
          rw [← hadv]; rfl
        obtain ⟨evs', g1, _, _, _⟩ := loop_trace E target (E.iSCSITargetGetIQN target)
          (E.iSCSIPLCreateArrayOfPortals s.plist (E.iSCSITargetGetIQN target))
          (E.iSCSIPLCreateArrayOfPortals s.plist (E.iSCSITargetGetIQN target)).length l1
        rw [g1, hst1, htr0, List.append_assoc] at htr
        have hcons := List.append_cancel_left htr
        rw [← hcons] at h0
        simp only [List.singleton_append, List.getElem?_cons_zero, Option.some.injEq] at h0
        exact he (h0 ▸ herr0.trans hz)
      · simp only [hz, ne_eq, not_false_eq_true, if_true]
        unfold iSCSIDLoginCommon at hz ⊢
        simp only [if_true] at hz ⊢
        exact hatomic _ _ _ _ _ _ hz

/-- C2 at concrete inputs.  With a negotiator whose connection-level login is
refused, over three portals and `MaxConnections = 5`: the second call fails,
there are exactly two calls, and `(61, 3)` is returned.  With a negotiator
whose every login is refused: one call, `(61, 3)` returned, still no session. -/
theorem C2_loginAllPortals_stops_on_error_witness :
    (callsMade (state0 5) (iSCSIDLoginAllPortals refEnvRefusing (some tgtA) (state0 5)).2)[1]?
      = some (Event.loginConnection 0 (some portal2) 61 3) ∧
    (callsMade (state0 5)
      (iSCSIDLoginAllPortals refEnvRefusing (some tgtA) (state0 5)).2).length = 2 ∧
    (iSCSIDLoginAllPortals refEnvRefusing (some tgtA) (state0 5)).1 = (61, 3) ∧
    (callsMade (state0 5) (iSCSIDLoginAllPortals refEnvDown (some tgtA) (state0 5)).2)[0]?
      = some (Event.loginSession (some tgtA) (some portal1) 61 3) ∧
    (iSCSIDLoginAllPortals refEnvDown (some tgtA) (state0 5)).2.kernel = (state0 5).kernel ∧
    refEnvDown.iSCSIGetSessionIdForTarget
      (iSCSIDLoginAllPortals refEnvDown (some tgtA) (state0 5)).2.kernel
      (refEnvDown.iSCSITargetGetIQN (some tgtA)) = refEnvDown.kiSCSIInvalidSessionId := by
  have h := (C2_loginAllPortals_stops_on_error refEnvRefusing (some tgtA) (state0 5)).2.2.1 1
    (Event.loginConnection 0 (some portal2) 61 3) rfl (by decide)
  have g := (C2_loginAllPortals_stops_on_error refEnvDown (some tgtA) (state0 5)).2.2.2 rfl
    (by intro k t p a sc cc _; rfl)
    (Event.loginSession (some tgtA) (some portal1) 61 3) rfl (by decide)
  exact ⟨rfl, h.1, h.2, rfl, g.1, g.2⟩

/-- C2 as stated fails in its last clause for a negotiator whose failed
session login leaves the session behind: `tgtA` has no session, the first
call of `iSCSIDLoginAllPortals` is the only one and fails, `(61, 3)` is
returned, and afterwards `tgtA` has a session with one connection. -/
theorem C2_loginAllPortals_stops_on_error_counterexample :
    refEnvHalfOpen.iSCSIGetSessionIdForTarget (state0 5).kernel
      (refEnvHalfOpen.iSCSITargetGetIQN (some tgtA)) = refEnvHalfOpen.kiSCSIInvalidSessionId ∧
    callsMade (state0 5) (iSCSIDLoginAllPortals refEnvHalfOpen (some tgtA) (state0 5)).2
      = [Event.loginSession (some tgtA) (some portal1) 61 3] ∧
    (iSCSIDLoginAllPortals refEnvHalfOpen (some tgtA) (state0 5)).1 = (61, 3) ∧
    refEnvHalfOpen.iSCSIGetSessionIdForTarget
      (iSCSIDLoginAllPortals refEnvHalfOpen (some tgtA) (state0 5)).2.kernel
      (refEnvHalfOpen.iSCSITargetGetIQN (some tgtA)) = 0 ∧
    refEnvHalfOpen.iSCSICreateArrayOfConnectionsIds
      (iSCSIDLoginAllPortals refEnvHalfOpen (some tgtA) (state0 5)).2.kernel 0 = some [0] ∧
    refEnvHalfOpen.iSCSIGetConnectionIdForPortal
      (iSCSIDLoginAllPortals refEnvHalfOpen (some tgtA) (state0 5)).2.kernel 0 (some portal1)
      = 0 := by
  decide

/-- C3: when a session exists for the target and a connection already exists
for (session, portal), `iSCSIDLoginWithPortal` returns error code 0 with the
login invalid-status sentinel and leaves the whole state, trace included, as
it was: no negotiator call is made.  Calling it again on the resulting state
gives the same result, so two calls in a row make no negotiator call at all. -/
theorem C3_loginWithPortal_idempotent (E : Env κ π χ) (target : iSCSITargetRef)
    (portal : iSCSIPortalRef) (s : State κ π χ)
    (hsess : E.iSCSIGetSessionIdForTarget s.kernel (E.iSCSITargetGetIQN target)
      ≠ E.kiSCSIInvalidSessionId)
    (hconn : E.iSCSIGetConnectionIdForPortal s.kernel
      (E.iSCSIGetSessionIdForTarget s.kernel (E.iSCSITargetGetIQN target)) portal
      ≠ E.kiSCSIInvalidConnectionId) :
    iSCSIDLoginWithPortal E target portal s = ((0, E.kiSCSILoginInvalidStatusCode), s) ∧
    iSCSIDLoginWithPortal E target portal (iSCSIDLoginWithPortal E target portal s).2
      = ((0, E.kiSCSILoginInvalidStatusCode), s) ∧
    callsMade s (iSCSIDLoginWithPortal E target portal
      (iSCSIDLoginWithPortal E target portal s).2).2 = [] := by
  have h : iSCSIDLoginWithPortal E target portal s
      = ((0, E.kiSCSILoginInvalidStatusCode), s) := by
    unfold iSCSIDLoginWithPortal
    simp only [ne_eq, hsess, not_false_eq_true, if_true, hconn]
  refine ⟨h, ?_, ?_⟩
  · rw [h]; exact h
  · rw [h]
    simp only []
    rw [h]
    simp [callsMade]

/-- C3 at a concrete input: `tgtA` has a session with a connection over
`portal1`; logging in over `portal1` again changes nothing. -/
theorem C3_loginWithPortal_idempotent_witness :
    iSCSIDLoginWithPortal refEnv (some tgtA) (some portal1) (state1 3)
      = ((0, 255), state1 3) ∧
    iSCSIDLoginWithPortal refEnv (some tgtA) (some portal1)
      (iSCSIDLoginWithPortal refEnv (some tgtA) (some portal1) (state1 3)).2
      = ((0, 255), state1 3) ∧
    callsMade (state1 3) (iSCSIDLoginWithPortal refEnv (some tgtA) (some portal1)
      (iSCSIDLoginWithPortal refEnv (some tgtA) (some portal1) (state1 3)).2).2 = [] :=
  C3_loginWithPortal_idempotent refEnv (some tgtA) (some portal1) (state1 3)
    (by decide) (by decide)

/-- C4 as stated fails where the directory has a session for the target, no
connection for the portal, one active connection against a negotiated
`MaxConnections` of 3, but does not supply the session's properties:
`iSCSIDLoginWithPortal` makes no connection-level login (no call at all). -/
theorem C4_loginWithPortal_decision_counterexample :
    ¬ ((∃ e st, callsMade (state1 3)
          (iSCSIDLoginWithPortal refEnvNoProps (some tgtA) (some portal2) (state1 3)).2
          = [Event.loginConnection
              (refEnvNoProps.iSCSIGetSessionIdForTarget (state1 3).kernel
                (refEnvNoProps.iSCSITargetGetIQN (some tgtA)))
              (some portal2) e st]) ↔
        (refEnvNoProps.iSCSIGetSessionIdForTarget (state1 3).kernel
            (refEnvNoProps.iSCSITargetGetIQN (some tgtA)) ≠ refEnvNoProps.kiSCSIInvalidSessionId ∧
          refEnvNoProps.iSCSIGetConnectionIdForPortal (state1 3).kernel
            (refEnvNoProps.iSCSIGetSessionIdForTarget (state1 3).kernel
              (refEnvNoProps.iSCSITargetGetIQN (some tgtA))) (some portal2)
            = refEnvNoProps.kiSCSIInvalidConnectionId ∧
          ¬ ∃ props conns,
            refEnvNoProps.iSCSICreateCFPropertiesForSession (state1 3).kernel (some tgtA)
              = some props ∧
            refEnvNoProps.iSCSICreateArrayOfConnectionsIds (state1 3).kernel
              (refEnvNoProps.iSCSIGetSessionIdForTarget (state1 3).kernel
                (refEnvNoProps.iSCSITargetGetIQN (some tgtA))) = some conns ∧
            conns.length = props.MaxConnections)) := by
  intro h
  have hr : (∃ e st, callsMade (state1 3)
      (iSCSIDLoginWithPortal refEnvNoProps (some tgtA) (some portal2) (state1 3)).2
      = [Event.loginConnection
          (refEnvNoProps.iSCSIGetSessionIdForTarget (state1 3).kernel
            (refEnvNoProps.iSCSITargetGetIQN (some tgtA)))
          (some portal2) e st]) := by
    apply h.mpr
    refine ⟨by decide, by decide, ?_⟩
    rintro ⟨props, conns, hp, _, _⟩
    exact Option.noConfusion hp
  obtain ⟨e, st, he⟩ := hr
  have hnil : callsMade (state1 3)
      (iSCSIDLoginWithPortal refEnvNoProps (some tgtA) (some portal2) (state1 3)).2 = [] := by
    decide
  rw [hnil] at he
  exact List.noConfusion he

theorem callsMade_of_append (s s' : State κ π χ) (evs : List Event)
    (h : s'.trace = s.trace ++ evs) : callsMade s s' = evs := by
  unfold callsMade; rw [h]; simp

theorem callsMade_self (s : State κ π χ) : callsMade s s = [] := by
  simp [callsMade]

/-- The decision of `iSCSIDLoginWithPortal`: at most one call, always a
negotiator login whose error code and status code are returned; a
session-level login iff no session exists; a connection-level login on the
existing session iff a session exists, no connection exists for the portal,
the directory supplies the session's properties and its array of connection
ids, and the number of connections differs from `MaxConnections`; without a
call the state is unchanged. -/
theorem loginWithPortal_decision (E : Env κ π χ) (target : iSCSITargetRef)
    (portal : iSCSIPortalRef) (s : State κ π χ) :
    (iSCSIDLoginWithPortal E target portal s).2.trace
      = s.trace ++ callsMade s (iSCSIDLoginWithPortal E target portal s).2 ∧
    (callsMade s (iSCSIDLoginWithPortal E target portal s).2).length ≤ 1 ∧
    (∀ e ∈ callsMade s (iSCSIDLoginWithPortal E target portal s).2,
      e.isLogin = true ∧ (iSCSIDLoginWithPortal E target portal s).1 = (e.error, e.statusCode)) ∧
    ((∃ e st, callsMade s (iSCSIDLoginWithPortal E target portal s).2
        = [Event.loginSession target portal e st]) ↔
      E.iSCSIGetSessionIdForTarget s.kernel (E.iSCSITargetGetIQN target)
        = E.kiSCSIInvalidSessionId) ∧
    ((∃ e st, callsMade s (iSCSIDLoginWithPortal E target portal s).2
        = [Event.loginConnection
            (E.iSCSIGetSessionIdForTarget s.kernel (E.iSCSITargetGetIQN target)) portal e st]) ↔
      (E.iSCSIGetSessionIdForTarget s.kernel (E.iSCSITargetGetIQN target)
          ≠ E.kiSCSIInvalidSessionId ∧
        E.iSCSIGetConnectionIdForPortal s.kernel
          (E.iSCSIGetSessionIdForTarget s.kernel (E.iSCSITargetGetIQN target)) portal
          = E.kiSCSIInvalidConnectionId ∧
        ∃ props conns,
          E.iSCSICreateCFPropertiesForSession s.kernel target = some props ∧
          E.iSCSICreateArrayOfConnectionsIds s.kernel
            (E.iSCSIGetSessionIdForTarget s.kernel (E.iSCSITargetGetIQN target)) = some conns ∧
          conns.length ≠ props.MaxConnections)) ∧
    ((¬ ∃ e ∈ callsMade s (iSCSIDLoginWithPortal E target portal s).2, e.isLogin = true) →
      iSCSIDLoginWithPortal E target portal s = ((0, E.kiSCSILoginInvalidStatusCode), s)) := by
  -- the two shapes of outcome
  have hnone : iSCSIDLoginWithPortal E target portal s = ((0, E.kiSCSILoginInvalidStatusCode), s) →
      (iSCSIDLoginWithPortal E target portal s).2.trace = s.trace ++ [] ∧
      callsMade s (iSCSIDLoginWithPortal E target portal s).2 = [] := by
    intro h
    rw [h]
    exact ⟨by simp, callsMade_self s⟩
  have hcall : iSCSIDLoginWithPortal E target portal s
        = iSCSIDLoginCommon E (E.iSCSIGetSessionIdForTarget s.kernel (E.iSCSITargetGetIQN target))
            target portal s →
      ∃ e : Event, (iSCSIDLoginWithPortal E target portal s).2.trace = s.trace ++ [e] ∧
        callsMade s (iSCSIDLoginWithPortal E target portal s).2 = [e] ∧
        e.isLogin = true ∧
        (iSCSIDLoginWithPortal E target portal s).1 = (e.error, e.statusCode) ∧
        (e = Event.loginSession target portal e.error e.statusCode ∧
            E.iSCSIGetSessionIdForTarget s.kernel (E.iSCSITargetGetIQN target)
              = E.kiSCSIInvalidSessionId ∨
          e = Event.loginConnection
              (E.iSCSIGetSessionIdForTarget s.kernel (E.iSCSITargetGetIQN target)) portal
              e.error e.statusCode ∧
            E.iSCSIGetSessionIdForTarget s.kernel (E.iSCSITargetGetIQN target)
              ≠ E.kiSCSIInvalidSessionId) := by
    intro h
    obtain ⟨e, htr, hlog, _, _, herr, hst, hform⟩ := loginCommon_trace E
      (E.iSCSIGetSessionIdForTarget s.kernel (E.iSCSITargetGetIQN target)) target portal s
    rw [h]
    refine ⟨e, htr, callsMade_of_append _ _ _ htr, hlog, ?_, hform⟩
    rw [herr, hst]
  by_cases hsid : E.iSCSIGetSessionIdForTarget s.kernel (E.iSCSITargetGetIQN target)
      = E.kiSCSIInvalidSessionId
  · -- leading login
    have hrun : iSCSIDLoginWithPortal E target portal s
        = iSCSIDLoginCommon E (E.iSCSIGetSessionIdForTarget s.kernel (E.iSCSITargetGetIQN target))
            target portal s := by
      unfold iSCSIDLoginWithPortal
      simp only [ne_eq, hsid, not_true_eq_false, if_false]
    obtain ⟨e, htr, hcm, hlog, hret, hform⟩ := hcall hrun
    rw [hcm]
    rcases hform with ⟨hf, _⟩ | ⟨_, hf⟩
    · refine ⟨htr, by simp, ?_, ?_, ?_, ?_⟩
      · intro x hx; rw [List.mem_singleton.mp hx]; exact ⟨hlog, hret⟩
      · exact ⟨fun _ => hsid, fun _ => ⟨e.error, e.statusCode, by rw [← hf]⟩⟩
      · constructor
        · rintro ⟨e', st', h'⟩
          rw [hf] at h'
          simp at h'
        · rintro ⟨h', _⟩
          exact absurd hsid h'
      · intro hno
        exact absurd ⟨e, by simp, hlog⟩ hno
    · exact absurd hsid hf
  · -- existing session
    have key : (iSCSIDLoginWithPortal E target portal s
          = iSCSIDLoginCommon E
              (E.iSCSIGetSessionIdForTarget s.kernel (E.iSCSITargetGetIQN target))
              target portal s ∧
        (E.iSCSIGetConnectionIdForPortal s.kernel
          (E.iSCSIGetSessionIdForTarget s.kernel (E.iSCSITargetGetIQN target)) portal
          = E.kiSCSIInvalidConnectionId ∧
        ∃ props conns,
          E.iSCSICreateCFPropertiesForSession s.kernel target = some props ∧
          E.iSCSICreateArrayOfConnectionsIds s.kernel
            (E.iSCSIGetSessionIdForTarget s.kernel (E.iSCSITargetGetIQN target)) = some conns ∧
          conns.length ≠ props.MaxConnections)) ∨
        (iSCSIDLoginWithPortal E target portal s = ((0, E.kiSCSILoginInvalidStatusCode), s) ∧
        ¬ (E.iSCSIGetConnectionIdForPortal s.kernel
          (E.iSCSIGetSessionIdForTarget s.kernel (E.iSCSITargetGetIQN target)) portal
          = E.kiSCSIInvalidConnectionId ∧
        ∃ props conns,
          E.iSCSICreateCFPropertiesForSession s.kernel target = some props ∧
          E.iSCSICreateArrayOfConnectionsIds s.kernel
            (E.iSCSIGetSessionIdForTarget s.kernel (E.iSCSITargetGetIQN target)) = some conns ∧
          conns.length ≠ props.MaxConnections)) := by
      unfold iSCSIDLoginWithPortal
      simp only [ne_eq, hsid, not_false_eq_true, if_true]
      by_cases hcid : E.iSCSIGetConnectionIdForPortal s.kernel
          (E.iSCSIGetSessionIdForTarget s.kernel (E.iSCSITargetGetIQN target)) portal
          = E.kiSCSIInvalidConnectionId
      · simp only [hcid, not_true_eq_false, if_false, true_and]
        cases hp : E.iSCSICreateCFPropertiesForSession s.kernel target with
        | none => right; simp
        | some props =>
          cases hc : E.iSCSICreateArrayOfConnectionsIds s.kernel
              (E.iSCSIGetSessionIdForTarget s.kernel (E.iSCSITargetGetIQN target)) with
          | none => right; simp
          | some conns =>
            by_cases hlen : conns.length = props.MaxConnections
            · right; simp [hlen]
            · left; simp [hlen]
      · right
        simp only [hcid, not_false_eq_true, if_true, false_and, and_self]
    rcases key with ⟨hrun, hcond⟩ | ⟨hrun, hcond⟩
    · obtain ⟨e, htr, hcm, hlog, hret, hform⟩ := hcall hrun
      rw [hcm]
      rcases hform with ⟨_, hf⟩ | ⟨hf, _⟩
      · exact absurd hf hsid
      · refine ⟨htr, by simp, ?_, ?_, ?_, ?_⟩
        · intro x hx; rw [List.mem_singleton.mp hx]; exact ⟨hlog, hret⟩
        · constructor
          · rintro ⟨e', st', h'⟩
            rw [hf] at h'
            simp at h'
          · intro h'
            exact absurd h' hsid
        · exact ⟨fun _ => ⟨hsid, hcond⟩, fun _ => ⟨e.error, e.statusCode, by rw [← hf]⟩⟩
        · intro hno
          exact absurd ⟨e, by simp, hlog⟩ hno
    · obtain ⟨htr, hcm⟩ := hnone hrun
      rw [hcm]
      refine ⟨by simpa using htr, by simp, by simp, ?_, ?_, fun _ => hrun⟩
      · constructor
        · rintro ⟨e', st', h'⟩
          simp at h'
        · intro h'
          exact absurd h' hsid
      · constructor
        · rintro ⟨e', st', h'⟩
          simp at h'
        · rintro ⟨_, h'⟩
          exact absurd h' hcond

/-- The cases in which `iSCSIDLoginWithPortal` makes no call: a session
exists and the portal already has a connection, or the directory does not
supply the session's properties or its array of connection ids, or the number
of connections equals `MaxConnections`.  The function then returns 0 with the
login invalid-status sentinel and the state is unchanged. -/
theorem loginWithPortal_no_call (E : Env κ π χ) (target : iSCSITargetRef)
    (portal : iSCSIPortalRef) (s : State κ π χ)
    (hsid : E.iSCSIGetSessionIdForTarget s.kernel (E.iSCSITargetGetIQN target)
      ≠ E.kiSCSIInvalidSessionId)
    (hcase : E.iSCSIGetConnectionIdForPortal s.kernel
          (E.iSCSIGetSessionIdForTarget s.kernel (E.iSCSITargetGetIQN target)) portal
          ≠ E.kiSCSIInvalidConnectionId ∨
      E.iSCSICreateCFPropertiesForSession s.kernel target = none ∨
      E.iSCSICreateArrayOfConnectionsIds s.kernel
          (E.iSCSIGetSessionIdForTarget s.kernel (E.iSCSITargetGetIQN target)) = none ∨
      ∃ props conns,
        E.iSCSICreateCFPropertiesForSession s.kernel target = some props ∧
        E.iSCSICreateArrayOfConnectionsIds s.kernel
          (E.iSCSIGetSessionIdForTarget s.kernel (E.iSCSITargetGetIQN target)) = some conns ∧
        conns.length = props.MaxConnections) :
    iSCSIDLoginWithPortal E target portal s = ((0, E.kiSCSILoginInvalidStatusCode), s) := by
  unfold iSCSIDLoginWithPortal
  simp only [ne_eq, hsid, not_false_eq_true, if_true]
  by_cases hcid : E.iSCSIGetConnectionIdForPortal s.kernel
      (E.iSCSIGetSessionIdForTarget s.kernel (E.iSCSITargetGetIQN target)) portal
      = E.kiSCSIInvalidConnectionId
  · simp only [hcid, not_true_eq_false, if_false]
    rcases hcase with h | h | h | ⟨props, conns, hp, hc, hlen⟩
    · exact absurd hcid h
    · simp only [h]
    · simp only [h]
      cases E.iSCSICreateCFPropertiesForSession s.kernel target <;> rfl
    · simp only [hp, hc, hlen, if_true]
  · simp only [hcid, not_false_eq_true, if_true]

/-- The form of a call of `iSCSIDLoginWithPortal`: a session-level login for
(target, portal) when the target has no session, a connection-level login for
the portal on the target's session when it has one. -/
theorem loginWithPortal_call_form (E : Env κ π χ) (target : iSCSITargetRef)
    (portal : iSCSIPortalRef) (s : State κ π χ) :
    ∀ e ∈ callsMade s (iSCSIDLoginWithPortal E target portal s).2,
      (e = Event.loginSession target portal e.error e.statusCode ∧
        E.iSCSIGetSessionIdForTarget s.kernel (E.iSCSITargetGetIQN target)
          = E.kiSCSIInvalidSessionId) ∨
      (e = Event.loginConnection
            (E.iSCSIGetSessionIdForTarget s.kernel (E.iSCSITargetGetIQN target)) portal
            e.error e.statusCode ∧
        E.iSCSIGetSessionIdForTarget s.kernel (E.iSCSITargetGetIQN target)
          ≠ E.kiSCSIInvalidSessionId) := by
  obtain ⟨e0, htr, _, _, _, _, _, hform⟩ := loginCommon_trace E
    (E.iSCSIGetSessionIdForTarget s.kernel (E.iSCSITargetGetIQN target)) target portal s
  have hcommon : ∀ e ∈ callsMade s (iSCSIDLoginCommon E
      (E.iSCSIGetSessionIdForTarget s.kernel (E.iSCSITargetGetIQN target)) target portal s).2,
      (e = Event.loginSession target portal e.error e.statusCode ∧
        E.iSCSIGetSessionIdForTarget s.kernel (E.iSCSITargetGetIQN target)
          = E.kiSCSIInvalidSessionId) ∨
      (e = Event.loginConnection
            (E.iSCSIGetSessionIdForTarget s.kernel (E.iSCSITargetGetIQN target)) portal
            e.error e.statusCode ∧
        E.iSCSIGetSessionIdForTarget s.kernel (E.iSCSITargetGetIQN target)
          ≠ E.kiSCSIInvalidSessionId) := by
    intro e he
    rw [callsMade_of_append _ _ _ htr] at he
    rw [List.mem_singleton.mp he]
    exact hform
  have hnone : ∀ e ∈ callsMade s s,
      (e = Event.loginSession target portal e.error e.statusCode ∧
        E.iSCSIGetSessionIdForTarget s.kernel (E.iSCSITargetGetIQN target)
          = E.kiSCSIInvalidSessionId) ∨
      (e = Event.loginConnection
            (E.iSCSIGetSessionIdForTarget s.kernel (E.iSCSITargetGetIQN target)) portal
            e.error e.statusCode ∧
        E.iSCSIGetSessionIdForTarget s.kernel (E.iSCSITargetGetIQN target)
          ≠ E.kiSCSIInvalidSessionId) := by
    intro e he
    rw [callsMade_self] at he
    exact absurd he (List.not_mem_nil e)
  unfold iSCSIDLoginWithPortal
  simp only []
  split
  · split
    · exact hnone
    · split
      · split
        · split
          · exact hnone
          · exact hcommon
        · exact hnone
      · exact hnone
  · exact hcommon

/-- C4 (amended): `iSCSIDLoginWithPortal` makes at most one call, always a
negotiator login, and returns that call's error code and status code
unchanged.  The call is a session-level login for (target, portal) iff no
session exists for the target.  It is a connection-level login for the portal
on the existing session iff a session exists, no connection exists for the
portal, the directory supplies both the session's properties and its array of
connection ids, and the number of connections differs from `MaxConnections`.
When a session exists and the portal already has a connection, or the
properties or the array are not supplied, or the number of connections equals
`MaxConnections`, no call at all is made, 0 is returned with the login
invalid-status sentinel and the state is unchanged.  No call of any other form
is ever made. -/
theorem C4_loginWithPortal_decision (E : Env κ π χ) (target : iSCSITargetRef)
    (portal : iSCSIPortalRef) (s : State κ π χ) :
    (iSCSIDLoginWithPortal E target portal s).2.trace
      = s.trace ++ callsMade s (iSCSIDLoginWithPortal E target portal s).2 ∧
    (callsMade s (iSCSIDLoginWithPortal E target portal s).2).length ≤ 1 ∧
    (∀ e ∈ callsMade s (iSCSIDLoginWithPortal E target portal s).2,
      e.isLogin = true ∧ (iSCSIDLoginWithPortal E target portal s).1 = (e.error, e.statusCode)) ∧
    ((∃ e st, callsMade s (iSCSIDLoginWithPortal E target portal s).2
        = [Event.loginSession target portal e st]) ↔
      E.iSCSIGetSessionIdForTarget s.kernel (E.iSCSITargetGetIQN target)
        = E.kiSCSIInvalidSessionId) ∧
    ((∃ e st, callsMade s (iSCSIDLoginWithPortal E target portal s).2
        = [Event.loginConnection
            (E.iSCSIGetSessionIdForTarget s.kernel (E.iSCSITargetGetIQN target)) portal e st]) ↔
      (E.iSCSIGetSessionIdForTarget s.kernel (E.iSCSITargetGetIQN target)
          ≠ E.kiSCSIInvalidSessionId ∧
        E.iSCSIGetConnectionIdForPortal s.kernel
          (E.iSCSIGetSessionIdForTarget s.kernel (E.iSCSITargetGetIQN target)) portal
          = E.kiSCSIInvalidConnectionId ∧
        ∃ props conns,
          E.iSCSICreateCFPropertiesForSession s.kernel target = some props ∧
          E.iSCSICreateArrayOfConnectionsIds s.kernel
            (E.iSCSIGetSessionIdForTarget s.kernel (E.iSCSITargetGetIQN target)) = some conns ∧
          conns.length ≠ props.MaxConnections)) ∧
    ((¬ ∃ e ∈ callsMade s (iSCSIDLoginWithPortal E target portal s).2, e.isLogin = true) →
      iSCSIDLoginWithPortal E target portal s = ((0, E.kiSCSILoginInvalidStatusCode), s)) ∧
    (E.iSCSIGetSessionIdForTarget s.kernel (E.iSCSITargetGetIQN target)
        ≠ E.kiSCSIInvalidSessionId →
      (E.iSCSIGetConnectionIdForPortal s.kernel
          (E.iSCSIGetSessionIdForTarget s.kernel (E.iSCSITargetGetIQN target)) portal
          ≠ E.kiSCSIInvalidConnectionId ∨
        E.iSCSICreateCFPropertiesForSession s.kernel target = none ∨
        E.iSCSICreateArrayOfConnectionsIds s.kernel
          (E.iSCSIGetSessionIdForTarget s.kernel (E.iSCSITargetGetIQN target)) = none ∨
        ∃ props conns,
          E.iSCSICreateCFPropertiesForSession s.kernel target = some props ∧
          E.iSCSICreateArrayOfConnectionsIds s.kernel
            (E.iSCSIGetSessionIdForTarget s.kernel (E.iSCSITargetGetIQN target)) = some conns ∧
          conns.length = props.MaxConnections) →
      callsMade s (iSCSIDLoginWithPortal E target portal s).2 = [] ∧
      iSCSIDLoginWithPortal E target portal s = ((0, E.kiSCSILoginInvalidStatusCode), s)) ∧
    (∀ e ∈ callsMade s (iSCSIDLoginWithPortal E target portal s).2,
      (e = Event.loginSession target portal e.error e.statusCode ∧
        E.iSCSIGetSessionIdForTarget s.kernel (E.iSCSITargetGetIQN target)
          = E.kiSCSIInvalidSessionId) ∨
      (e = Event.loginConnection
            (E.iSCSIGetSessionIdForTarget s.kernel (E.iSCSITargetGetIQN target)) portal
            e.error e.statusCode ∧
        E.iSCSIGetSessionIdForTarget s.kernel (E.iSCSITargetGetIQN target)
          ≠ E.kiSCSIInvalidSessionId)) := by
  obtain ⟨h1, h2, h3, h4, h5, h6⟩ := loginWithPortal_decision E target portal s
  refine ⟨h1, h2, h3, h4, h5, h6, ?_, loginWithPortal_call_form E target portal s⟩
  intro hsid hcase
  have hrun := loginWithPortal_no_call E target portal s hsid hcase
  refine ⟨?_, hrun⟩
  rw [hrun]
  exact callsMade_self s

/-- C4 at concrete inputs.  `tgtA` has a session with one connection against
`MaxConnections = 3`: logging in over `portal2` makes one connection-level
login on session 0, and its result `(0, 0)` is returned.  With
`MaxConnections = 1` the session is at capacity: no call is made and
`(0, 255)` is returned with the state unchanged. -/
theorem C4_loginWithPortal_decision_witness :
    callsMade (state1 3) (iSCSIDLoginWithPortal refEnv (some tgtA) (some portal2) (state1 3)).2
      = [Event.loginConnection 0 (some portal2) 0 0] ∧
    (iSCSIDLoginWithPortal refEnv (some tgtA) (some portal2) (state1 3)).1 = (0, 0) ∧
    callsMade (state1 1) (iSCSIDLoginWithPortal refEnv (some tgtA) (some portal2) (state1 1)).2
      = [] ∧
    iSCSIDLoginWithPortal refEnv (some tgtA) (some portal2) (state1 1)
      = ((0, 255), state1 1) := by
  have h := (C4_loginWithPortal_decision refEnv (some tgtA) (some portal2) (state1 3)).2.2.1
    (Event.loginConnection 0 (some portal2) 0 0) (by decide)
  have g := (C4_loginWithPortal_decision refEnv (some tgtA) (some portal2)
    (state1 1)).2.2.2.2.2.2.1 (by decide)
    (Or.inr (Or.inr (Or.inr ⟨⟨1, []⟩, [0], rfl, rfl, rfl⟩)))
  exact ⟨by decide, h.2, g.1, g.2⟩

/-! ## Socket helpers: effect on the state -/

theorem createObject_state {α : Type} (E : Env κ π χ) (fd : Int) (length : Nat)
    (c : CFDataRef → Option α) (s : State κ π χ) :
    (iSCSIDCreateObjectFromSocket E fd length c s).2.kernel = s.kernel ∧
    (iSCSIDCreateObjectFromSocket E fd length c s).2.plist = s.plist ∧
    (iSCSIDCreateObjectFromSocket E fd length c s).2.trace
      = s.trace ++ [Event.recv fd length (E.recv s.chan fd length).1.1] := by
  unfold iSCSIDCreateObjectFromSocket
  by_cases h : (E.recv s.chan fd length).1.1 = (length : Int) <;> simp [h]

theorem send_state (E : Env κ π χ) (fd : Int) (msg : Msg) (length : Nat) (s : State κ π χ) :
    (send E fd msg length s).2.kernel = s.kernel ∧
    (send E fd msg length s).2.plist = s.plist ∧
    (send E fd msg length s).2.trace
      = s.trace ++ [Event.send fd msg length (E.send s.chan fd msg length).1] := by
  simp [send]

theorem sendRspShort_state (E : Env κ π χ) (fd : Int) (rsp : Rsp) (s : State κ π χ) :
    (sendRspShort E fd rsp s).2.kernel = s.kernel ∧
    (sendRspShort E fd rsp s).2.plist = s.plist ∧
    (sendRspShort E fd rsp s).2.trace
      = s.trace ++ [Event.send fd (Msg.rsp rsp) (E.sizeofRsp rsp)
          (E.send s.chan fd (Msg.rsp rsp) (E.sizeofRsp rsp)).1] := by
  simp [sendRspShort, send]

theorem rspsSent_append (xs ys : List Event) :
    rspsSent (xs ++ ys) = rspsSent xs ++ rspsSent ys := by
  induction xs with
  | nil => rfl
  | cons x xs ih =>
    cases x with
    | send fd msg length count =>
      cases msg with
      | rsp r => simp [rspsSent, ih]
      | data b => simp [rspsSent, ih]
    | _ => simp [rspsSent, ih]

/-! ## Logout -/

/-- The four outcomes of the precondition checks of `iSCSIDLogout`. -/
theorem logout_core_cases (E : Env κ π χ) (target : iSCSITargetRef) (portal : iSCSIPortalRef)
    (s : State κ π χ) :
    (E.iSCSIGetSessionIdForTarget s.kernel (E.iSCSITargetGetIQN target)
        = E.kiSCSIInvalidSessionId →
      iSCSIDLogout_core E target portal s = ((EINVAL, E.kiSCSILogoutInvalidStatusCode), s)) ∧
    (E.iSCSIGetSessionIdForTarget s.kernel (E.iSCSITargetGetIQN target)
        ≠ E.kiSCSIInvalidSessionId → portal ≠ none →
      E.iSCSIGetConnectionIdForPortal s.kernel
        (E.iSCSIGetSessionIdForTarget s.kernel (E.iSCSITargetGetIQN target)) portal
        = E.kiSCSIInvalidConnectionId →
      iSCSIDLogout_core E target portal s = ((EINVAL, E.kiSCSILogoutInvalidStatusCode), s)) ∧
    (E.iSCSIGetSessionIdForTarget s.kernel (E.iSCSITargetGetIQN target)
        ≠ E.kiSCSIInvalidSessionId → portal = none →
      iSCSIDLogout_core E target portal s =
        (((E.iSCSILogoutSession s.kernel
            (E.iSCSIGetSessionIdForTarget s.kernel (E.iSCSITargetGetIQN target))).error,
          (E.iSCSILogoutSession s.kernel
            (E.iSCSIGetSessionIdForTarget s.kernel (E.iSCSITargetGetIQN target))).statusCode),
         { s with
             kernel := (E.iSCSILogoutSession s.kernel
               (E.iSCSIGetSessionIdForTarget s.kernel (E.iSCSITargetGetIQN target))).kernel,
             trace := s.trace ++ [Event.logoutSession
               (E.iSCSIGetSessionIdForTarget s.kernel (E.iSCSITargetGetIQN target))
               (E.iSCSILogoutSession s.kernel
                 (E.iSCSIGetSessionIdForTarget s.kernel (E.iSCSITargetGetIQN target))).error
               (E.iSCSILogoutSession s.kernel
                 (E.iSCSIGetSessionIdForTarget s.kernel
                   (E.iSCSITargetGetIQN target))).statusCode] })) ∧
    (E.iSCSIGetSessionIdForTarget s.kernel (E.iSCSITargetGetIQN target)
        ≠ E.kiSCSIInvalidSessionId → portal ≠ none →
      E.iSCSIGetConnectionIdForPortal s.kernel
        (E.iSCSIGetSessionIdForTarget s.kernel (E.iSCSITargetGetIQN target)) portal
        ≠ E.kiSCSIInvalidConnectionId →
      iSCSIDLogout_core E target portal s =
        (((E.iSCSILogoutConnection s.kernel
            (E.iSCSIGetSessionIdForTarget s.kernel (E.iSCSITargetGetIQN target))
            (E.iSCSIGetConnectionIdForPortal s.kernel
              (E.iSCSIGetSessionIdForTarget s.kernel (E.iSCSITargetGetIQN target)) portal)).error,
          (E.iSCSILogoutConnection s.kernel
            (E.iSCSIGetSessionIdForTarget s.kernel (E.iSCSITargetGetIQN target))
            (E.iSCSIGetConnectionIdForPortal s.kernel
              (E.iSCSIGetSessionIdForTarget s.kernel (E.iSCSITargetGetIQN target))
              portal)).statusCode),
         { s with
             kernel := (E.iSCSILogoutConnection s.kernel
               (E.iSCSIGetSessionIdForTarget s.kernel (E.iSCSITargetGetIQN target))
               (E.iSCSIGetConnectionIdForPortal s.kernel
                 (E.iSCSIGetSessionIdForTarget s.kernel (E.iSCSITargetGetIQN target))
                 portal)).kernel,
             trace := s.trace ++ [Event.logoutConnection
               (E.iSCSIGetSessionIdForTarget s.kernel (E.iSCSITargetGetIQN target))
               (E.iSCSIGetConnectionIdForPortal s.kernel
                 (E.iSCSIGetSessionIdForTarget s.kernel (E.iSCSITargetGetIQN target)) portal)
               (E.iSCSILogoutConnection s.kernel
                 (E.iSCSIGetSessionIdForTarget s.kernel (E.iSCSITargetGetIQN target))
                 (E.iSCSIGetConnectionIdForPortal s.kernel
                   (E.iSCSIGetSessionIdForTarget s.kernel (E.iSCSITargetGetIQN target))
                   portal)).error
               (E.iSCSILogoutConnection s.kernel
                 (E.iSCSIGetSessionIdForTarget s.kernel (E.iSCSITargetGetIQN target))
                 (E.iSCSIGetConnectionIdForPortal s.kernel
                   (E.iSCSIGetSessionIdForTarget s.kernel (E.iSCSITargetGetIQN target))
                   portal)).statusCode] })) := by
  have hE : (EINVAL : errno_t) ≠ 0 := by decide
  refine ⟨?_, ?_, ?_, ?_⟩
  · intro h
    unfold iSCSIDLogout_core
    simp [h, hE]
  · intro h hp hc
    have hp' : portal.isSome = true := Option.isSome_iff_ne_none.mpr hp
    unfold iSCSIDLogout_core
    simp [h, hp', hc, hE]
  · intro h hp
    subst hp
    unfold iSCSIDLogout_core
    simp [h]
  · intro h hp hc
    have hp' : portal.isSome = true := Option.isSome_iff_ne_none.mpr hp
    have hp'' : portal.isNone = false := by
      cases portal with
      | none => exact absurd rfl hp
      | some _ => rfl
    unfold iSCSIDLogout_core
    simp [h, hp', hp'', hc]

/-- The run of `iSCSIDLogout`: two reads, the precondition checks with the
logout call (if any) on the state after the reads and the property-list
synchronization, then one `send` of the response header carrying what the
checks produced. -/
theorem logout_run (E : Env κ π χ) (fd : Int) (cmd : iSCSIDCmd) (s : State κ π χ) :
    ∃ (s1 : State κ π χ) (n1 n2 n3 : Int),
      s1.kernel = s.kernel ∧
      s1.trace = s.trace ++ [Event.recv fd cmd.targetLength n1, Event.recv fd cmd.portalLength n2] ∧
      (iSCSIDLogout E fd cmd s).2.kernel
        = (iSCSIDLogout_core E (requestTarget E fd cmd s) (requestPortal E fd cmd s) s1).2.kernel ∧
      (iSCSIDLogout E fd cmd s).2.trace
        = (iSCSIDLogout_core E (requestTarget E fd cmd s) (requestPortal E fd cmd s) s1).2.trace ++
          [Event.send fd (Msg.rsp (Rsp.logout
            { funcCode := E.kiSCSIDLogout
              errorCode := (iSCSIDLogout_core E (requestTarget E fd cmd s)
                (requestPortal E fd cmd s) s1).1.1
              statusCode := (iSCSIDLogout_core E (requestTarget E fd cmd s)
                (requestPortal E fd cmd s) s1).1.2 }))
            (E.sizeofRsp (Rsp.logout
            { funcCode := E.kiSCSIDLogout
              errorCode := (iSCSIDLogout_core E (requestTarget E fd cmd s)
                (requestPortal E fd cmd s) s1).1.1
              statusCode := (iSCSIDLogout_core E (requestTarget E fd cmd s)
                (requestPortal E fd cmd s) s1).1.2 })) n3] := by
  obtain ⟨a1, _, a3⟩ := createObject_state E fd cmd.targetLength E.iSCSITargetCreateWithData s
  obtain ⟨b1, _, b3⟩ := createObject_state E fd cmd.portalLength E.iSCSIPortalCreateWithData
    (iSCSIDCreateObjectFromSocket E fd cmd.targetLength E.iSCSITargetCreateWithData s).2
  generalize hs1 : iSCSIPLSynchronize E (iSCSIDCreateObjectFromSocket E fd cmd.portalLength
      E.iSCSIPortalCreateWithData
      (iSCSIDCreateObjectFromSocket E fd cmd.targetLength E.iSCSITargetCreateWithData s).2).2 = s1
  have h1 : s1.kernel = s.kernel := by
    rw [← hs1]; simp only [iSCSIPLSynchronize, b1, a1]
  have h2 : s1.trace = s.trace ++ [Event.recv fd cmd.targetLength
        (E.recv s.chan fd cmd.targetLength).1.1,
      Event.recv fd cmd.portalLength
        (E.recv (iSCSIDCreateObjectFromSocket E fd cmd.targetLength
          E.iSCSITargetCreateWithData s).2.chan fd cmd.portalLength).1.1] := by
    rw [← hs1]; simp only [iSCSIPLSynchronize, b3, a3, List.append_assoc, List.singleton_append]
  have h3 : (iSCSIDLogout E fd cmd s).2.kernel
      = (iSCSIDLogout_core E (requestTarget E fd cmd s) (requestPortal E fd cmd s) s1).2.kernel := by
    rw [← hs1]
    unfold iSCSIDLogout requestTarget requestPortal
    simp only []
    split <;> exact (sendRspShort_state E fd _ _).1
  have h4 := (sendRspShort_state E fd (Rsp.logout
      { funcCode := E.kiSCSIDLogout
        errorCode := (iSCSIDLogout_core E (requestTarget E fd cmd s)
          (requestPortal E fd cmd s) s1).1.1
        statusCode := (iSCSIDLogout_core E (requestTarget E fd cmd s)
          (requestPortal E fd cmd s) s1).1.2 })
      (iSCSIDLogout_core E (requestTarget E fd cmd s) (requestPortal E fd cmd s) s1).2).2.2
  have h5 : (iSCSIDLogout E fd cmd s).2.trace = (sendRspShort E fd (Rsp.logout
      { funcCode := E.kiSCSIDLogout
        errorCode := (iSCSIDLogout_core E (requestTarget E fd cmd s)
          (requestPortal E fd cmd s) s1).1.1
        statusCode := (iSCSIDLogout_core E (requestTarget E fd cmd s)
          (requestPortal E fd cmd s) s1).1.2 })
      (iSCSIDLogout_core E (requestTarget E fd cmd s) (requestPortal E fd cmd s) s1).2).2.trace := by
    rw [← hs1]
    unfold iSCSIDLogout requestTarget requestPortal
    simp only []
    split <;> rfl
  rw [h4] at h5
  exact ⟨s1, _, _, _, h1, h2, h3, h5⟩

/-- The calls of `iSCSIDLogout` in each outcome of its precondition checks:
two reads, then either nothing or the one logout call, then the one response
header. -/
theorem logout_calls (E : Env κ π χ) (fd : Int) (cmd : iSCSIDCmd) (s : State κ π χ) :
    ∃ (n1 n2 n3 : Int) (sz : Nat),
      ((E.iSCSIGetSessionIdForTarget s.kernel (E.iSCSITargetGetIQN (requestTarget E fd cmd s))
            = E.kiSCSIInvalidSessionId ∨
          (requestPortal E fd cmd s ≠ none ∧
            E.iSCSIGetConnectionIdForPortal s.kernel
              (E.iSCSIGetSessionIdForTarget s.kernel
                (E.iSCSITargetGetIQN (requestTarget E fd cmd s)))
              (requestPortal E fd cmd s) = E.kiSCSIInvalidConnectionId)) →
        (iSCSIDLogout E fd cmd s).2.kernel = s.kernel ∧
        callsMade s (iSCSIDLogout E fd cmd s).2 =
          [Event.recv fd cmd.targetLength n1, Event.recv fd cmd.portalLength n2,
           Event.send fd (Msg.rsp (Rsp.logout
             { funcCode := E.kiSCSIDLogout, errorCode := EINVAL,
               statusCode := E.kiSCSILogoutInvalidStatusCode })) sz n3]) ∧
      (E.iSCSIGetSessionIdForTarget s.kernel (E.iSCSITargetGetIQN (requestTarget E fd cmd s))
            ≠ E.kiSCSIInvalidSessionId →
        requestPortal E fd cmd s = none →
        callsMade s (iSCSIDLogout E fd cmd s).2 =
          [Event.recv fd cmd.targetLength n1, Event.recv fd cmd.portalLength n2,
           Event.logoutSession
             (E.iSCSIGetSessionIdForTarget s.kernel
               (E.iSCSITargetGetIQN (requestTarget E fd cmd s)))
             (E.iSCSILogoutSession s.kernel (E.iSCSIGetSessionIdForTarget s.kernel
               (E.iSCSITargetGetIQN (requestTarget E fd cmd s)))).error
             (E.iSCSILogoutSession s.kernel (E.iSCSIGetSessionIdForTarget s.kernel
               (E.iSCSITargetGetIQN (requestTarget E fd cmd s)))).statusCode,
           Event.send fd (Msg.rsp (Rsp.logout
             { funcCode := E.kiSCSIDLogout
               errorCode := (E.iSCSILogoutSession s.kernel (E.iSCSIGetSessionIdForTarget s.kernel
                 (E.iSCSITargetGetIQN (requestTarget E fd cmd s)))).error
               statusCode := (E.iSCSILogoutSession s.kernel
                 (E.iSCSIGetSessionIdForTarget s.kernel
                   (E.iSCSITargetGetIQN (requestTarget E fd cmd s)))).statusCode })) sz n3]) ∧
      (E.iSCSIGetSessionIdForTarget s.kernel (E.iSCSITargetGetIQN (requestTarget E fd cmd s))
            ≠ E.kiSCSIInvalidSessionId →
        requestPortal E fd cmd s ≠ none →
        E.iSCSIGetConnectionIdForPortal s.kernel
          (E.iSCSIGetSessionIdForTarget s.kernel
            (E.iSCSITargetGetIQN (requestTarget E fd cmd s)))
          (requestPortal E fd cmd s) ≠ E.kiSCSIInvalidConnectionId →
        callsMade s (iSCSIDLogout E fd cmd s).2 =
          [Event.recv fd cmd.targetLength n1, Event.recv fd cmd.portalLength n2,
           Event.logoutConnection
             (E.iSCSIGetSessionIdForTarget s.kernel
               (E.iSCSITargetGetIQN (requestTarget E fd cmd s)))
             (E.iSCSIGetConnectionIdForPortal s.kernel
               (E.iSCSIGetSessionIdForTarget s.kernel
                 (E.iSCSITargetGetIQN (requestTarget E fd cmd s)))
               (requestPortal E fd cmd s))
             (E.iSCSILogoutConnection s.kernel
               (E.iSCSIGetSessionIdForTarget s.kernel
                 (E.iSCSITargetGetIQN (requestTarget E fd cmd s)))
               (E.iSCSIGetConnectionIdForPortal s.kernel
                 (E.iSCSIGetSessionIdForTarget s.kernel
                   (E.iSCSITargetGetIQN (requestTarget E fd cmd s)))
                 (requestPortal E fd cmd s))).error
             (E.iSCSILogoutConnection s.kernel
               (E.iSCSIGetSessionIdForTarget s.kernel
                 (E.iSCSITargetGetIQN (requestTarget E fd cmd s)))
               (E.iSCSIGetConnectionIdForPortal s.kernel
                 (E.iSCSIGetSessionIdForTarget s.kernel
                   (E.iSCSITargetGetIQN (requestTarget E fd cmd s)))
                 (requestPortal E fd cmd s))).statusCode,
           Event.send fd (Msg.rsp (Rsp.logout
             { funcCode := E.kiSCSIDLogout
               errorCode := (E.iSCSILogoutConnection s.kernel
                 (E.iSCSIGetSessionIdForTarget s.kernel
                   (E.iSCSITargetGetIQN (requestTarget E fd cmd s)))
                 (E.iSCSIGetConnectionIdForPortal s.kernel
                   (E.iSCSIGetSessionIdForTarget s.kernel
                     (E.iSCSITargetGetIQN (requestTarget E fd cmd s)))
                   (requestPortal E fd cmd s))).error
               statusCode := (E.iSCSILogoutConnection s.kernel
                 (E.iSCSIGetSessionIdForTarget s.kernel
                   (E.iSCSITargetGetIQN (requestTarget E fd cmd s)))
                 (E.iSCSIGetConnectionIdForPortal s.kernel
                   (E.iSCSIGetSessionIdForTarget s.kernel
                     (E.iSCSITargetGetIQN (requestTarget E fd cmd s)))
                   (requestPortal E fd cmd s))).statusCode })) sz n3]) := by
  obtain ⟨s1, n1, n2, n3, hk, ht, hrk, hrt⟩ := logout_run E fd cmd s
  obtain ⟨cA, cB, cC, cD⟩ := logout_core_cases E (requestTarget E fd cmd s)
    (requestPortal E fd cmd s) s1
  rw [hk] at cA cB cC cD
  refine ⟨n1, n2, n3, E.sizeofRsp (Rsp.logout
      { funcCode := E.kiSCSIDLogout
        errorCode := (iSCSIDLogout_core E (requestTarget E fd cmd s)
          (requestPortal E fd cmd s) s1).1.1
        statusCode := (iSCSIDLogout_core E (requestTarget E fd cmd s)
          (requestPortal E fd cmd s) s1).1.2 }), ?_, ?_, ?_⟩
  · intro h
    have hcore : iSCSIDLogout_core E (requestTarget E fd cmd s) (requestPortal E fd cmd s) s1
        = ((EINVAL, E.kiSCSILogoutInvalidStatusCode), s1) := by
      rcases h with h | ⟨hp, hc⟩
      · exact cA h
      · by_cases hs : E.iSCSIGetSessionIdForTarget s.kernel
            (E.iSCSITargetGetIQN (requestTarget E fd cmd s)) = E.kiSCSIInvalidSessionId
        · exact cA hs
        · exact cB hs hp hc
    rw [hcore] at hrk hrt ⊢
    refine ⟨hrk.trans hk, ?_⟩
    apply callsMade_of_append
    rw [hrt, ht]
    simp only [List.append_assoc, List.cons_append, List.nil_append]
  · intro hs hp
    have hcore := cC hs hp
    rw [hcore] at hrt ⊢
    apply callsMade_of_append
    rw [hrt]
    simp only [ht, List.append_assoc, List.cons_append, List.nil_append]
  · intro hs hp hc
    have hcore := cD hs hp hc
    rw [hcore] at hrt ⊢
    apply callsMade_of_append
    rw [hrt]
    simp only [ht, List.append_assoc, List.cons_append, List.nil_append]

/-- C5: `iSCSIDLogout` calls the negotiator iff a session exists for the
target and (no portal was supplied or a connection exists for (session,
portal)).  In every other case it makes no negotiator call, leaves the kernel
state as it was, and the one response header it hands to `send` carries
`errorCode = EINVAL` and `statusCode = kiSCSILogoutInvalidStatusCode`; this is
so in particular for a supplied portal of a target that has no session. -/
theorem C5_logout_preconditions (E : Env κ π χ) (fd : Int) (cmd : iSCSIDCmd)
    (s : State κ π χ) :
    ((∃ e ∈ callsMade s (iSCSIDLogout E fd cmd s).2, e.isNegotiator = true) ↔
      (E.iSCSIGetSessionIdForTarget s.kernel (E.iSCSITargetGetIQN (requestTarget E fd cmd s))
          ≠ E.kiSCSIInvalidSessionId ∧
        (requestPortal E fd cmd s = none ∨
          E.iSCSIGetConnectionIdForPortal s.kernel
            (E.iSCSIGetSessionIdForTarget s.kernel
              (E.iSCSITargetGetIQN (requestTarget E fd cmd s)))
            (requestPortal E fd cmd s) ≠ E.kiSCSIInvalidConnectionId))) ∧
    (¬ (E.iSCSIGetSessionIdForTarget s.kernel (E.iSCSITargetGetIQN (requestTarget E fd cmd s))
          ≠ E.kiSCSIInvalidSessionId ∧
        (requestPortal E fd cmd s = none ∨
          E.iSCSIGetConnectionIdForPortal s.kernel
            (E.iSCSIGetSessionIdForTarget s.kernel
              (E.iSCSITargetGetIQN (requestTarget E fd cmd s)))
            (requestPortal E fd cmd s) ≠ E.kiSCSIInvalidConnectionId)) →
      (iSCSIDLogout E fd cmd s).2.kernel = s.kernel ∧
      rspsSent (callsMade s (iSCSIDLogout E fd cmd s).2) =
        [Rsp.logout { funcCode := E.kiSCSIDLogout, errorCode := EINVAL,
                      statusCode := E.kiSCSILogoutInvalidStatusCode }]) ∧
    (E.iSCSIGetSessionIdForTarget s.kernel (E.iSCSITargetGetIQN (requestTarget E fd cmd s))
        = E.kiSCSIInvalidSessionId →
      (∀ e ∈ callsMade s (iSCSIDLogout E fd cmd s).2, e.isNegotiator = false) ∧
      rspsSent (callsMade s (iSCSIDLogout E fd cmd s).2) =
        [Rsp.logout { funcCode := E.kiSCSIDLogout, errorCode := EINVAL,
                      statusCode := E.kiSCSILogoutInvalidStatusCode }]) := by
  obtain ⟨n1, n2, n3, sz, hfail, hsess, hconn⟩ := logout_calls E fd cmd s
  refine ⟨?_, ?_, ?_⟩
  · constructor
    · rintro ⟨e, he, hneg⟩
      by_contra hnot
      have hbad : E.iSCSIGetSessionIdForTarget s.kernel
            (E.iSCSITargetGetIQN (requestTarget E fd cmd s)) = E.kiSCSIInvalidSessionId ∨
          (requestPortal E fd cmd s ≠ none ∧
            E.iSCSIGetConnectionIdForPortal s.kernel
              (E.iSCSIGetSessionIdForTarget s.kernel
                (E.iSCSITargetGetIQN (requestTarget E fd cmd s)))
              (requestPortal E fd cmd s) = E.kiSCSIInvalidConnectionId) := by
        by_contra hb
        push_neg at hb hnot
        by_cases hs : E.iSCSIGetSessionIdForTarget s.kernel
            (E.iSCSITargetGetIQN (requestTarget E fd cmd s)) = E.kiSCSIInvalidSessionId
        · exact hb.1 hs
        · obtain ⟨hp, hc⟩ := hnot hs
          exact hb.2 hp hc
      rw [(hfail hbad).2] at he
      simp only [List.mem_cons, List.mem_singleton, List.not_mem_nil, or_false] at he
      rcases he with rfl | rfl | rfl <;> simp [Event.isNegotiator] at hneg
    · rintro ⟨hs, hp⟩
      by_cases hpn : requestPortal E fd cmd s = none
      · rw [hsess hs hpn]
        exact ⟨_, List.mem_cons_of_mem _ (List.mem_cons_of_mem _ (List.mem_cons_self _ _)), rfl⟩
      · have hc : E.iSCSIGetConnectionIdForPortal s.kernel
            (E.iSCSIGetSessionIdForTarget s.kernel
              (E.iSCSITargetGetIQN (requestTarget E fd cmd s)))
            (requestPortal E fd cmd s) ≠ E.kiSCSIInvalidConnectionId := by
          rcases hp with hp | hp
          · exact absurd hp hpn
          · exact hp
        rw [hconn hs hpn hc]
        exact ⟨_, List.mem_cons_of_mem _ (List.mem_cons_of_mem _ (List.mem_cons_self _ _)), rfl⟩
  · intro hnot
    have hbad : E.iSCSIGetSessionIdForTarget s.kernel
          (E.iSCSITargetGetIQN (requestTarget E fd cmd s)) = E.kiSCSIInvalidSessionId ∨
        (requestPortal E fd cmd s ≠ none ∧
          E.iSCSIGetConnectionIdForPortal s.kernel
            (E.iSCSIGetSessionIdForTarget s.kernel
              (E.iSCSITargetGetIQN (requestTarget E fd cmd s)))
            (requestPortal E fd cmd s) = E.kiSCSIInvalidConnectionId) := by
      by_contra hb
      push_neg at hb hnot
      by_cases hs : E.iSCSIGetSessionIdForTarget s.kernel
          (E.iSCSITargetGetIQN (requestTarget E fd cmd s)) = E.kiSCSIInvalidSessionId
      · exact hb.1 hs
      · obtain ⟨hp, hc⟩ := hnot hs
        exact hb.2 hp hc
    refine ⟨(hfail hbad).1, ?_⟩
    rw [(hfail hbad).2]
    rfl
  · intro hs
    rw [(hfail (Or.inl hs)).2]
    refine ⟨?_, rfl⟩
    intro e he
    simp only [List.mem_cons, List.mem_singleton, List.not_mem_nil, or_false] at he
    rcases he with rfl | rfl | rfl <;> rfl

/-- C6: when a session exists for the target and, if a portal was supplied, a
connection exists for (session, portal), `iSCSIDLogout` makes exactly one
negotiator call: `iSCSILogoutSession(session)` when no portal was supplied,
`iSCSILogoutConnection(session, connection id of that portal)` when one was;
the one response header carries as `errorCode` and `statusCode` exactly what
that call returned. -/
theorem C6_logout_routing (E : Env κ π χ) (fd : Int) (cmd : iSCSIDCmd) (s : State κ π χ)
    (hs : E.iSCSIGetSessionIdForTarget s.kernel (E.iSCSITargetGetIQN (requestTarget E fd cmd s))
      ≠ E.kiSCSIInvalidSessionId)
    (hc : requestPortal E fd cmd s ≠ none →
      E.iSCSIGetConnectionIdForPortal s.kernel
        (E.iSCSIGetSessionIdForTarget s.kernel (E.iSCSITargetGetIQN (requestTarget E fd cmd s)))
        (requestPortal E fd cmd s) ≠ E.kiSCSIInvalidConnectionId) :
    (requestPortal E fd cmd s = none →
      (callsMade s (iSCSIDLogout E fd cmd s).2).filter Event.isNegotiator =
        [Event.logoutSession
          (E.iSCSIGetSessionIdForTarget s.kernel
            (E.iSCSITargetGetIQN (requestTarget E fd cmd s)))
          (E.iSCSILogoutSession s.kernel (E.iSCSIGetSessionIdForTarget s.kernel
            (E.iSCSITargetGetIQN (requestTarget E fd cmd s)))).error
          (E.iSCSILogoutSession s.kernel (E.iSCSIGetSessionIdForTarget s.kernel
            (E.iSCSITargetGetIQN (requestTarget E fd cmd s)))).statusCode] ∧
      rspsSent (callsMade s (iSCSIDLogout E fd cmd s).2) =
        [Rsp.logout
          { funcCode := E.kiSCSIDLogout
            errorCode := (E.iSCSILogoutSession s.kernel (E.iSCSIGetSessionIdForTarget s.kernel
              (E.iSCSITargetGetIQN (requestTarget E fd cmd s)))).error
            statusCode := (E.iSCSILogoutSession s.kernel (E.iSCSIGetSessionIdForTarget s.kernel
              (E.iSCSITargetGetIQN (requestTarget E fd cmd s)))).statusCode }]) ∧
    (requestPortal E fd cmd s ≠ none →
      (callsMade s (iSCSIDLogout E fd cmd s).2).filter Event.isNegotiator =
        [Event.logoutConnection
          (E.iSCSIGetSessionIdForTarget s.kernel
            (E.iSCSITargetGetIQN (requestTarget E fd cmd s)))
          (E.iSCSIGetConnectionIdForPortal s.kernel
            (E.iSCSIGetSessionIdForTarget s.kernel
              (E.iSCSITargetGetIQN (requestTarget E fd cmd s)))
            (requestPortal E fd cmd s))
          (E.iSCSILogoutConnection s.kernel
            (E.iSCSIGetSessionIdForTarget s.kernel
              (E.iSCSITargetGetIQN (requestTarget E fd cmd s)))
            (E.iSCSIGetConnectionIdForPortal s.kernel
              (E.iSCSIGetSessionIdForTarget s.kernel
                (E.iSCSITargetGetIQN (requestTarget E fd cmd s)))
              (requestPortal E fd cmd s))).error
          (E.iSCSILogoutConnection s.kernel
            (E.iSCSIGetSessionIdForTarget s.kernel
              (E.iSCSITargetGetIQN (requestTarget E fd cmd s)))
            (E.iSCSIGetConnectionIdForPortal s.kernel
              (E.iSCSIGetSessionIdForTarget s.kernel
                (E.iSCSITargetGetIQN (requestTarget E fd cmd s)))
              (requestPortal E fd cmd s))).statusCode] ∧
      rspsSent (callsMade s (iSCSIDLogout E fd cmd s).2) =
        [Rsp.logout
          { funcCode := E.kiSCSIDLogout
            errorCode := (E.iSCSILogoutConnection s.kernel
              (E.iSCSIGetSessionIdForTarget s.kernel
                (E.iSCSITargetGetIQN (requestTarget E fd cmd s)))
              (E.iSCSIGetConnectionIdForPortal s.kernel
                (E.iSCSIGetSessionIdForTarget s.kernel
                  (E.iSCSITargetGetIQN (requestTarget E fd cmd s)))
                (requestPortal E fd cmd s))).error
            statusCode := (E.iSCSILogoutConnection s.kernel
              (E.iSCSIGetSessionIdForTarget s.kernel
                (E.iSCSITargetGetIQN (requestTarget E fd cmd s)))
              (E.iSCSIGetConnectionIdForPortal s.kernel
                (E.iSCSIGetSessionIdForTarget s.kernel
                  (E.iSCSITargetGetIQN (requestTarget E fd cmd s)))
                (requestPortal E fd cmd s))).statusCode }]) := by
  obtain ⟨n1, n2, n3, sz, _, hsess, hconn⟩ := logout_calls E fd cmd s
  constructor
  · intro hp
    rw [hsess hs hp]
    exact ⟨rfl, rfl⟩
  · intro hp
    rw [hconn hs hp (hc hp)]
    exact ⟨rfl, rfl⟩

/-- C5 at a concrete input: a logout request for `portal1` of `tgtA`, which
has no session: no negotiator call, response `EINVAL` with the logout invalid
status. -/
theorem C5_logout_preconditions_witness :
    requestPortal refEnv 3 (cmdTargetPortal 1)
      (withPending (state0 3) (bytesOf "iqn.A" ++ bytesOf "10.0.0.1")) = some portal1 ∧
    (∀ e ∈ callsMade (withPending (state0 3) (bytesOf "iqn.A" ++ bytesOf "10.0.0.1"))
        (iSCSIDLogout refEnv 3 (cmdTargetPortal 1)
          (withPending (state0 3) (bytesOf "iqn.A" ++ bytesOf "10.0.0.1"))).2,
      e.isNegotiator = false) ∧
    rspsSent (callsMade (withPending (state0 3) (bytesOf "iqn.A" ++ bytesOf "10.0.0.1"))
        (iSCSIDLogout refEnv 3 (cmdTargetPortal 1)
          (withPending (state0 3) (bytesOf "iqn.A" ++ bytesOf "10.0.0.1"))).2)
      = [Rsp.logout ⟨1, 22, 254⟩] :=
  ⟨by decide,
   (C5_logout_preconditions refEnv 3 (cmdTargetPortal 1)
      (withPending (state0 3) (bytesOf "iqn.A" ++ bytesOf "10.0.0.1"))).2.2 (by decide)⟩

/-- C6 at concrete inputs: `tgtA` has a session with connections over
`portal1` and `portal2`.  A logout request naming `portal2` makes the one call
`iSCSILogoutConnection(0, 1)`; a logout request without a portal makes the one
call `iSCSILogoutSession(0)`. -/
theorem C6_logout_routing_witness :
    ((callsMade (withPending state2 (bytesOf "iqn.A" ++ bytesOf "10.0.0.2"))
        (iSCSIDLogout refEnv 3 (cmdTargetPortal 1)
          (withPending state2 (bytesOf "iqn.A" ++ bytesOf "10.0.0.2"))).2).filter
        Event.isNegotiator = [Event.logoutConnection 0 1 0 0] ∧
      rspsSent (callsMade (withPending state2 (bytesOf "iqn.A" ++ bytesOf "10.0.0.2"))
        (iSCSIDLogout refEnv 3 (cmdTargetPortal 1)
          (withPending state2 (bytesOf "iqn.A" ++ bytesOf "10.0.0.2"))).2)
        = [Rsp.logout ⟨1, 0, 0⟩]) ∧
    ((callsMade (withPending state2 (bytesOf "iqn.A"))
        (iSCSIDLogout refEnv 3 (cmdTarget 1) (withPending state2 (bytesOf "iqn.A"))).2).filter
        Event.isNegotiator = [Event.logoutSession 0 0 0] ∧
      rspsSent (callsMade (withPending state2 (bytesOf "iqn.A"))
        (iSCSIDLogout refEnv 3 (cmdTarget 1) (withPending state2 (bytesOf "iqn.A"))).2)
        = [Rsp.logout ⟨1, 0, 0⟩]) :=
  ⟨(C6_logout_routing refEnv 3 (cmdTargetPortal 1)
      (withPending state2 (bytesOf "iqn.A" ++ bytesOf "10.0.0.2"))
      (by decide) (by intro _; decide)).2 (by decide),
   (C6_logout_routing refEnv 3 (cmdTarget 1) (withPending state2 (bytesOf "iqn.A"))
      (by decide) (by intro h; exact absurd (by decide) h)).1 (by decide)⟩

/-! ## Activity queries -/

@[simp] theorem createObject_kernel {α : Type} (E : Env κ π χ) (fd : Int) (length : Nat)
    (c : CFDataRef → Option α) (s : State κ π χ) :
    (iSCSIDCreateObjectFromSocket E fd length c s).2.kernel = s.kernel :=
  (createObject_state E fd length c s).1

@[simp] theorem createObject_trace {α : Type} (E : Env κ π χ) (fd : Int) (length : Nat)
    (c : CFDataRef → Option α) (s : State κ π χ) :
    (iSCSIDCreateObjectFromSocket E fd length c s).2.trace
      = s.trace ++ [recvEvent E fd length s] :=
  (createObject_state E fd length c s).2.2

@[simp] theorem sendRspShort_kernel (E : Env κ π χ) (fd : Int) (rsp : Rsp) (s : State κ π χ) :
    (sendRspShort E fd rsp s).2.kernel = s.kernel :=
  (sendRspShort_state E fd rsp s).1

@[simp] theorem sendRspShort_trace (E : Env κ π χ) (fd : Int) (rsp : Rsp) (s : State κ π χ) :
    (sendRspShort E fd rsp s).2.trace = s.trace ++ [sendRspEvent E fd rsp s] :=
  (sendRspShort_state E fd rsp s).2.2

@[simp] theorem send_kernel (E : Env κ π χ) (fd : Int) (msg : Msg) (length : Nat)
    (s : State κ π χ) : (send E fd msg length s).2.kernel = s.kernel :=
  (send_state E fd msg length s).1

@[simp] theorem send_trace (E : Env κ π χ) (fd : Int) (msg : Msg) (length : Nat)
    (s : State κ π χ) :
    (send E fd msg length s).2.trace
      = s.trace ++ [Event.send fd msg length (E.send s.chan fd msg length).1] :=
  (send_state E fd msg length s).2.2

@[simp] theorem rspsSent_sendRspEvent (E : Env κ π χ) (fd : Int) (rsp : Rsp) (s : State κ π χ)
    (evs : List Event) : rspsSent (sendRspEvent E fd rsp s :: evs) = rsp :: rspsSent evs := rfl

@[simp] theorem rspsSent_recvEvent (E : Env κ π χ) (fd : Int) (n : Nat) (s : State κ π χ)
    (evs : List Event) : rspsSent (recvEvent E fd n s :: evs) = rspsSent evs := rfl

@[simp] theorem rspsSent_nil : rspsSent [] = [] := rfl

@[simp] theorem isNegotiator_sendRspEvent (E : Env κ π χ) (fd : Int) (rsp : Rsp)
    (s : State κ π χ) : (sendRspEvent E fd rsp s).isNegotiator = false := rfl

@[simp] theorem isNegotiator_recvEvent (E : Env κ π χ) (fd : Int) (n : Nat)
    (s : State κ π χ) : (recvEvent E fd n s).isNegotiator = false := rfl

@[simp] theorem ite_pair_snd {α β : Type} (c : Bool) (a b : α) (x : β) :
    (if c = true then (a, x) else (b, x)).2 = x := by
  cases c <;> rfl

/-- The run of `iSCSIDIsTargetActive`: one read, one response header. -/
theorem isTargetActive_calls (E : Env κ π χ) (fd : Int) (cmd : iSCSIDCmd) (s : State κ π χ) :
    (iSCSIDIsTargetActive E fd cmd s).2.kernel = s.kernel ∧
    callsMade s (iSCSIDIsTargetActive E fd cmd s).2 =
      [recvEvent E fd cmd.targetLength s,
       sendRspEvent E fd (Rsp.isTargetActive
         { funcCode := E.kiSCSIDIsTargetActive
           active := decide (E.iSCSIGetSessionIdForTarget s.kernel
             (E.iSCSITargetGetIQN (requestTarget E fd cmd s)) ≠ E.kiSCSIInvalidSessionId) })
         (afterTarget E fd cmd s)] := by
  constructor
  · unfold iSCSIDIsTargetActive
    simp
  · apply callsMade_of_append
    unfold iSCSIDIsTargetActive requestTarget afterTarget
    simp

/-- The run of `iSCSIDIsPortalActive`: two reads, one response header. -/
theorem isPortalActive_calls (E : Env κ π χ) (fd : Int) (cmd : iSCSIDCmd) (s : State κ π χ) :
    (iSCSIDIsPortalActive E fd cmd s).2.kernel = s.kernel ∧
    callsMade s (iSCSIDIsPortalActive E fd cmd s).2 =
      [recvEvent E fd cmd.targetLength s,
       recvEvent E fd cmd.portalLength (afterTarget E fd cmd s),
       sendRspEvent E fd (Rsp.isPortalActive
         { funcCode := E.kiSCSIDIsPortalActive
           active :=
             if E.iSCSIGetSessionIdForTarget s.kernel
                 (E.iSCSITargetGetIQN (requestTarget E fd cmd s)) = E.kiSCSIInvalidSessionId
             then false
             else decide (E.iSCSIGetConnectionIdForPortal s.kernel
               (E.iSCSIGetSessionIdForTarget s.kernel
                 (E.iSCSITargetGetIQN (requestTarget E fd cmd s)))
               (requestPortal E fd cmd s) ≠ E.kiSCSIInvalidConnectionId) })
         (afterTargetPortal E fd cmd s)] := by
  constructor
  · unfold iSCSIDIsPortalActive
    simp
  · apply callsMade_of_append
    unfold iSCSIDIsPortalActive requestTarget requestPortal afterTarget afterTargetPortal
    simp

/-- C7: `iSCSIDIsTargetActive` hands to `send` one response header, with
`active = true` iff a session exists for the IQN of the target it read;
`iSCSIDIsPortalActive` (same request, same state) hands to `send` one response
header whose `active` is false whenever that of `iSCSIDIsTargetActive` is
false, and otherwise is true iff a connection exists for (session, portal).
Neither handler calls the negotiator, and neither changes the kernel state. -/
theorem C7_activity_queries (E : Env κ π χ) (fd : Int) (cmd : iSCSIDCmd) (s : State κ π χ) :
    ∃ (targetActive portalActive : Bool),
      rspsSent (callsMade s (iSCSIDIsTargetActive E fd cmd s).2)
        = [Rsp.isTargetActive
            { funcCode := E.kiSCSIDIsTargetActive, active := targetActive }] ∧
      rspsSent (callsMade s (iSCSIDIsPortalActive E fd cmd s).2)
        = [Rsp.isPortalActive
            { funcCode := E.kiSCSIDIsPortalActive, active := portalActive }] ∧
      (targetActive = true ↔
        E.iSCSIGetSessionIdForTarget s.kernel (E.iSCSITargetGetIQN (requestTarget E fd cmd s))
          ≠ E.kiSCSIInvalidSessionId) ∧
      (targetActive = false → portalActive = false) ∧
      (targetActive = true →
        (portalActive = true ↔
          E.iSCSIGetConnectionIdForPortal s.kernel
            (E.iSCSIGetSessionIdForTarget s.kernel
              (E.iSCSITargetGetIQN (requestTarget E fd cmd s)))
            (requestPortal E fd cmd s) ≠ E.kiSCSIInvalidConnectionId)) ∧
      (∀ e ∈ callsMade s (iSCSIDIsTargetActive E fd cmd s).2, e.isNegotiator = false) ∧
      (∀ e ∈ callsMade s (iSCSIDIsPortalActive E fd cmd s).2, e.isNegotiator = false) ∧
      (iSCSIDIsTargetActive E fd cmd s).2.kernel = s.kernel ∧
      (iSCSIDIsPortalActive E fd cmd s).2.kernel = s.kernel := by
  obtain ⟨tk, tc⟩ := isTargetActive_calls E fd cmd s
  obtain ⟨pk, pc⟩ := isPortalActive_calls E fd cmd s
  refine ⟨decide (E.iSCSIGetSessionIdForTarget s.kernel
        (E.iSCSITargetGetIQN (requestTarget E fd cmd s)) ≠ E.kiSCSIInvalidSessionId),
    (if E.iSCSIGetSessionIdForTarget s.kernel
        (E.iSCSITargetGetIQN (requestTarget E fd cmd s)) = E.kiSCSIInvalidSessionId
      then false
      else decide (E.iSCSIGetConnectionIdForPortal s.kernel
        (E.iSCSIGetSessionIdForTarget s.kernel
          (E.iSCSITargetGetIQN (requestTarget E fd cmd s)))
        (requestPortal E fd cmd s) ≠ E.kiSCSIInvalidConnectionId)),
    ?_, ?_, ?_, ?_, ?_, ?_, ?_, tk, pk⟩
  · rw [tc]; rfl
  · rw [pc]; rfl
  · simp
  · intro h
    simp only [ne_eq, decide_not, Bool.not_eq_false', decide_eq_true_eq] at h
    simp [h]
  · intro h
    simp only [ne_eq, decide_not, Bool.not_eq_true', decide_eq_false_iff_not] at h
    simp [h]
  · rw [tc]
    intro e he
    simp only [List.mem_cons, List.mem_singleton, List.not_mem_nil, or_false] at he
    rcases he with rfl | rfl <;> rfl
  · rw [pc]
    intro e he
    simp only [List.mem_cons, List.mem_singleton, List.not_mem_nil, or_false] at he
    rcases he with rfl | rfl | rfl <;> rfl

/-! ## Response headers of each handler -/

@[simp] theorem rspsSent_send_data (fd : Int) (b : List Nat) (n : Nat) (c : Int)
    (evs : List Event) : rspsSent (Event.send fd (Msg.data b) n c :: evs) = rspsSent evs := rfl

/-- Negotiator login calls are not response headers. -/
theorem rspsSent_of_login (evs : List Event) (h : ∀ e ∈ evs, e.isLogin = true) :
    rspsSent evs = [] := by
  induction evs with
  | nil => rfl
  | cons x xs ih =>
    have hx := h x (List.mem_cons_self _ _)
    have hxs := ih (fun e he => h e (List.mem_cons_of_mem _ he))
    cases x <;> simp_all [rspsSent, Event.isLogin]

/-- Negotiator login calls are not socket reads. -/
theorem not_recv_of_login (e : Event) (h : e.isLogin = true) : e.isRecv = false := by
  cases e <;> simp_all [Event.isLogin, Event.isRecv]

/-- `iSCSIDLoginWithPortal` only appends negotiator login calls to the trace. -/
theorem loginWithPortal_trace (E : Env κ π χ) (target : iSCSITargetRef)
    (portal : iSCSIPortalRef) (s : State κ π χ) :
    ∃ evs : List Event, (iSCSIDLoginWithPortal E target portal s).2.trace = s.trace ++ evs ∧
      ∀ e ∈ evs, e.isLogin = true := by
  have hcommon : ∀ sid, ∃ evs : List Event,
      (iSCSIDLoginCommon E sid target portal s).2.trace = s.trace ++ evs ∧
      ∀ e ∈ evs, e.isLogin = true := by
    intro sid
    obtain ⟨e, htr, hlog, _⟩ := loginCommon_trace E sid target portal s
    exact ⟨[e], htr, fun x hx => by rw [List.mem_singleton.mp hx]; exact hlog⟩
  have hnone : ∃ evs : List Event, s.trace = s.trace ++ evs ∧ ∀ e ∈ evs, e.isLogin = true :=
    ⟨[], by simp, by simp⟩
  unfold iSCSIDLoginWithPortal
  simp only []
  split
  · split
    · exact hnone
    · split
      · split
        · split
          · exact hnone
          · exact hcommon _
        · exact hnone
      · exact hnone
  · exact hcommon _

/-- `iSCSIDLoginAllPortals` only appends negotiator login calls to the trace. -/
theorem loginAllPortals_trace (E : Env κ π χ) (target : iSCSITargetRef) (s : State κ π χ) :
    ∃ evs : List Event, (iSCSIDLoginAllPortals E target s).2.trace = s.trace ++ evs ∧
      ∀ e ∈ evs, e.isLogin = true := by
  obtain ⟨evs, h1, h2, _, _⟩ := loop_trace E target (E.iSCSITargetGetIQN target)
    (E.iSCSIPLCreateArrayOfPortals s.plist (E.iSCSITargetGetIQN target))
    ((E.iSCSIPLCreateArrayOfPortals s.plist (E.iSCSITargetGetIQN target)).length + 1)
    (iSCSIDLoginAllPortals_init E target s)
  exact ⟨evs, h1, fun e he => (h2 e he).1⟩

@[simp] theorem PLSynchronize_trace (E : Env κ π χ) (s : State κ π χ) :
    (iSCSIPLSynchronize E s).trace = s.trace := rfl

@[simp] theorem PLSynchronize_kernel (E : Env κ π χ) (s : State κ π χ) :
    (iSCSIPLSynchronize E s).kernel = s.kernel := rfl

/-- The response headers of `iSCSIDLogin`: none when no target could be read
(the handler returns `EINVAL`), otherwise exactly one, with function code
`kiSCSIDLogin`. -/
theorem login_headers (E : Env κ π χ) (fd : Int) (cmd : iSCSIDCmd) (s : State κ π χ) :
    (requestTarget E fd cmd s = none →
      rspsSent (callsMade s (iSCSIDLogin E fd cmd s).2) = [] ∧
      (iSCSIDLogin E fd cmd s).1 = EINVAL) ∧
    (requestTarget E fd cmd s ≠ none →
      (rspsSent (callsMade s (iSCSIDLogin E fd cmd s).2)).map Rsp.funcCode
        = [E.kiSCSIDLogin]) := by
  constructor
  · intro hn
    unfold requestTarget at hn
    unfold iSCSIDLogin callsMade
    simp [hn]
  · intro hn
    unfold requestTarget at hn
    have hs : (iSCSIDCreateObjectFromSocket E fd cmd.targetLength
        E.iSCSITargetCreateWithData s).1.isSome = true := Option.isSome_iff_ne_none.mpr hn
    unfold iSCSIDLogin
    simp only [hs, Bool.true_and, if_true]
    split
    · obtain ⟨evs, h1, h2⟩ := loginWithPortal_trace E
        (iSCSIDCreateObjectFromSocket E fd cmd.targetLength E.iSCSITargetCreateWithData s).1
        (iSCSIDCreateObjectFromSocket E fd cmd.portalLength E.iSCSIPortalCreateWithData
          (iSCSIDCreateObjectFromSocket E fd cmd.targetLength
            E.iSCSITargetCreateWithData s).2).1
        (iSCSIPLSynchronize E
          (iSCSIDCreateObjectFromSocket E fd cmd.portalLength E.iSCSIPortalCreateWithData
            (iSCSIDCreateObjectFromSocket E fd cmd.targetLength
              E.iSCSITargetCreateWithData s).2).2)
      unfold callsMade
      simp only [ite_pair_snd, sendRspShort_trace, h1, PLSynchronize_trace, createObject_trace,
        List.append_assoc, List.drop_left]
      simp [rspsSent_append, rspsSent_of_login evs h2, Rsp.funcCode]
    · obtain ⟨evs, h1, h2⟩ := loginAllPortals_trace E
        (iSCSIDCreateObjectFromSocket E fd cmd.targetLength E.iSCSITargetCreateWithData s).1
        (iSCSIPLSynchronize E
          (iSCSIDCreateObjectFromSocket E fd cmd.portalLength E.iSCSIPortalCreateWithData
            (iSCSIDCreateObjectFromSocket E fd cmd.targetLength
              E.iSCSITargetCreateWithData s).2).2)
      unfold callsMade
      simp only [ite_pair_snd, sendRspShort_trace, h1, PLSynchronize_trace, createObject_trace,
        List.append_assoc, List.drop_left]
      simp [rspsSent_append, rspsSent_of_login evs h2, Rsp.funcCode]

/-- The response headers of `iSCSIDLogout`: exactly one, with function code
`kiSCSIDLogout`. -/
theorem logout_headers (E : Env κ π χ) (fd : Int) (cmd : iSCSIDCmd) (s : State κ π χ) :
    (rspsSent (callsMade s (iSCSIDLogout E fd cmd s).2)).map Rsp.funcCode
      = [E.kiSCSIDLogout] := by
  obtain ⟨n1, n2, n3, sz, hfail, hsess, hconn⟩ := logout_calls E fd cmd s
  by_cases hs : E.iSCSIGetSessionIdForTarget s.kernel
      (E.iSCSITargetGetIQN (requestTarget E fd cmd s)) = E.kiSCSIInvalidSessionId
  · rw [(hfail (Or.inl hs)).2]; rfl
  · by_cases hp : requestPortal E fd cmd s = none
    · rw [hsess hs hp]; rfl
    · by_cases hc : E.iSCSIGetConnectionIdForPortal s.kernel
          (E.iSCSIGetSessionIdForTarget s.kernel
            (E.iSCSITargetGetIQN (requestTarget E fd cmd s)))
          (requestPortal E fd cmd s) = E.kiSCSIInvalidConnectionId
      · rw [(hfail (Or.inr ⟨hp, hc⟩)).2]; rfl
      · rw [hconn hs hp hc]; rfl

/-- The response headers of `iSCSIDCreateArrayOfActiveTargets`: exactly one,
with function code `kiSCSIDCreateArrayOfActiveTargets`. -/
theorem activeTargets_headers (E : Env κ π χ) (fd : Int) (cmd : iSCSIDCmd) (s : State κ π χ) :
    (rspsSent (callsMade s (iSCSIDCreateArrayOfActiveTargets E fd cmd s).2)).map Rsp.funcCode
      = [E.kiSCSIDCreateArrayOfActiveTargets] := by
  unfold iSCSIDCreateArrayOfActiveTargets callsMade
  simp only []
  cases hd : E.CFPropertyListCreateData_targets
      (List.map (E.iSCSICreateTargetForSessionId s.kernel)
        (E.iSCSICreateArrayOfSessionIds s.kernel)) with
  | none =>
    simp only []
    split <;> simp [Rsp.funcCode]
  | some d =>
    simp only []
    split
    · simp [Rsp.funcCode]
    · split <;> simp [Rsp.funcCode]

/-- The response headers of `iSCSIDCreateArrayofActivePortalsForTarget`:
exactly one, and its function code is `kiSCSIDCreateArrayOfActiveTargets`. -/
theorem activePortals_headers (E : Env κ π χ) (fd : Int) (cmd : iSCSIDCmd) (s : State κ π χ) :
    (rspsSent (callsMade s
      (iSCSIDCreateArrayofActivePortalsForTarget E fd cmd s).2)).map Rsp.funcCode
      = [E.kiSCSIDCreateArrayOfActiveTargets] :=
  activeTargets_headers E fd cmd s

/-- The response headers of `iSCSIDIsTargetActive`: exactly one, with function
code `kiSCSIDIsTargetActive`. -/
theorem isTargetActive_headers (E : Env κ π χ) (fd : Int) (cmd : iSCSIDCmd) (s : State κ π χ) :
    (rspsSent (callsMade s (iSCSIDIsTargetActive E fd cmd s).2)).map Rsp.funcCode
      = [E.kiSCSIDIsTargetActive] := by
  rw [(isTargetActive_calls E fd cmd s).2]; rfl

/-- The response headers of `iSCSIDIsPortalActive`: exactly one, with function
code `kiSCSIDIsPortalActive`. -/
theorem isPortalActive_headers (E : Env κ π χ) (fd : Int) (cmd : iSCSIDCmd) (s : State κ π χ) :
    (rspsSent (callsMade s (iSCSIDIsPortalActive E fd cmd s).2)).map Rsp.funcCode
      = [E.kiSCSIDIsPortalActive] := by
  rw [(isPortalActive_calls E fd cmd s).2]; rfl

@[simp] theorem rspsSent_queryPortal (p : iSCSIPortalRef) (a : iSCSIAuthRef) (e : errno_t)
    (c : Nat) (evs : List Event) :
    rspsSent (Event.queryPortalForTargets p a e c :: evs) = rspsSent evs := rfl

@[simp] theorem rspsSent_queryAuth (p : iSCSIPortalRef) (q : CFStringRef) (e : errno_t)
    (c : Nat) (evs : List Event) :
    rspsSent (Event.queryTargetForAuthMethod p q e c :: evs) = rspsSent evs := rfl

/-- The response headers of `iSCSIDQueryPortalForTargets`: exactly one, with
function code `kiSCSIDQueryPortalForTargets`. -/
theorem queryPortal_headers (E : Env κ π χ) (fd : Int) (cmd : iSCSIDCmd) (s : State κ π χ) :
    (rspsSent (callsMade s (iSCSIDQueryPortalForTargets E fd cmd s).2)).map Rsp.funcCode
      = [E.kiSCSIDQueryPortalForTargets] := by
  unfold iSCSIDQueryPortalForTargets callsMade
  simp only []
  split
  · simp [Rsp.funcCode]
  · split
    · split <;> simp [Rsp.funcCode]
    · simp [Rsp.funcCode]

/-- The response headers of `iSCSIDQueryTargetForAuthMethod`: exactly one, with
function code `kiSCSIDQueryTargetForAuthMethod`. -/
theorem queryAuth_headers (E : Env κ π χ) (fd : Int) (cmd : iSCSIDCmd) (s : State κ π χ) :
    (rspsSent (callsMade s (iSCSIDQueryTargetForAuthMethod E fd cmd s).2)).map Rsp.funcCode
      = [E.kiSCSIDQueryTargetForAuthMethod] := by
  unfold iSCSIDQueryTargetForAuthMethod callsMade
  simp [Rsp.funcCode]

/-- The response headers of `iSCSIDCreateCFPropertiesForSession`: none when no
target could be read (the handler returns `EINVAL`), otherwise exactly one,
with function code `kiSCSIDCreateCFPropertiesForSession`. -/
theorem sessionProps_headers (E : Env κ π χ) (fd : Int) (cmd : iSCSIDCmd) (s : State κ π χ) :
    (requestTarget E fd cmd s = none →
      rspsSent (callsMade s (iSCSIDCreateCFPropertiesForSession E fd cmd s).2) = [] ∧
      (iSCSIDCreateCFPropertiesForSession E fd cmd s).1 = EINVAL) ∧
    (requestTarget E fd cmd s ≠ none →
      (rspsSent (callsMade s
        (iSCSIDCreateCFPropertiesForSession E fd cmd s).2)).map Rsp.funcCode
        = [E.kiSCSIDCreateCFPropertiesForSession]) := by
  constructor
  · intro hn
    unfold requestTarget at hn
    unfold iSCSIDCreateCFPropertiesForSession callsMade
    simp [hn]
  · intro hn
    unfold requestTarget at hn
    have hs : (iSCSIDCreateObjectFromSocket E fd cmd.targetLength
        E.iSCSITargetCreateWithData s).1.isNone = false := by
      cases h : (iSCSIDCreateObjectFromSocket E fd cmd.targetLength
        E.iSCSITargetCreateWithData s).1 with
      | none => exact absurd h hn
      | some _ => rfl
    unfold iSCSIDCreateCFPropertiesForSession callsMade
    simp only [hs, Bool.false_eq_true, if_false]
    split <;> (try split) <;> (try split) <;> (try split) <;> simp [Rsp.funcCode, EAGAIN]

/-- The response headers of `iSCSIDCreateCFPropertiesForConnection`: none when
the target or the portal could not be read (the handler returns `EINVAL`),
otherwise exactly one, with function code
`kiSCSIDCreateCFPropertiesForConnection`. -/
theorem connectionProps_headers (E : Env κ π χ) (fd : Int) (cmd : iSCSIDCmd)
    (s : State κ π χ) :
    (requestTarget E fd cmd s = none ∨ requestPortal E fd cmd s = none →
      rspsSent (callsMade s (iSCSIDCreateCFPropertiesForConnection E fd cmd s).2) = [] ∧
      (iSCSIDCreateCFPropertiesForConnection E fd cmd s).1 = EINVAL) ∧
    (requestTarget E fd cmd s ≠ none ∧ requestPortal E fd cmd s ≠ none →
      (rspsSent (callsMade s
        (iSCSIDCreateCFPropertiesForConnection E fd cmd s).2)).map Rsp.funcCode
        = [E.kiSCSIDCreateCFPropertiesForConnection]) := by
  constructor
  · intro hn
    unfold requestTarget requestPortal at hn
    have hc : ((iSCSIDCreateObjectFromSocket E fd cmd.targetLength
          E.iSCSITargetCreateWithData s).1.isNone ||
        (iSCSIDCreateObjectFromSocket E fd cmd.portalLength E.iSCSIPortalCreateWithData
          (iSCSIDCreateObjectFromSocket E fd cmd.targetLength
            E.iSCSITargetCreateWithData s).2).1.isNone) = true := by
      rcases hn with h | h <;> simp [h]
    unfold iSCSIDCreateCFPropertiesForConnection callsMade
    simp only [hc, if_true]
    simp
  · rintro ⟨ht, hp⟩
    unfold requestTarget requestPortal at *
    have hc : ((iSCSIDCreateObjectFromSocket E fd cmd.targetLength
          E.iSCSITargetCreateWithData s).1.isNone ||
        (iSCSIDCreateObjectFromSocket E fd cmd.portalLength E.iSCSIPortalCreateWithData
          (iSCSIDCreateObjectFromSocket E fd cmd.targetLength
            E.iSCSITargetCreateWithData s).2).1.isNone) = false := by
      cases h1 : (iSCSIDCreateObjectFromSocket E fd cmd.targetLength
        E.iSCSITargetCreateWithData s).1 with
      | none => exact absurd h1 ht
      | some _ =>
        cases h2 : (iSCSIDCreateObjectFromSocket E fd cmd.portalLength
          E.iSCSIPortalCreateWithData
          (iSCSIDCreateObjectFromSocket E fd cmd.targetLength
            E.iSCSITargetCreateWithData s).2).1 with
        | none => exact absurd h2 hp
        | some _ => rfl
    unfold iSCSIDCreateCFPropertiesForConnection callsMade
    simp only [hc, Bool.false_eq_true, if_false]
    split <;> (try split) <;> (try split) <;> (try split) <;> simp [Rsp.funcCode, EAGAIN]

/-! ## Claims on the handlers -/

/-- C8 as stated fails for a login request whose target segment is absent
(declared length 0, nothing to deserialize): `iSCSIDLogin` returns without
handing any response header to `send`. -/
theorem C8_one_response_header_counterexample :
    ¬ ((rspsSent (callsMade (state0 3)
        (iSCSIDLogin refEnv 3 ⟨0, 0, 0, 0⟩ (state0 3)).2)).length = 1) := by
  decide

/-- C8 (amended): every handler hands exactly one response header to `send`
before it returns, on every request and whatever the negotiator and the socket
do, provided the handler obtained the segments it insists on: `iSCSIDLogin`
and `iSCSIDCreateCFPropertiesForSession` a target,
`iSCSIDCreateCFPropertiesForConnection` a target and a portal.  When such a
segment is absent or fails to deserialize, these three handlers return `EINVAL`
and hand no response header to `send`.  The other seven handlers have no such
condition. -/
theorem C8_one_response_header (E : Env κ π χ) (fd : Int) (cmd : iSCSIDCmd)
    (s : State κ π χ) :
    (requestTarget E fd cmd s ≠ none →
      (rspsSent (callsMade s (iSCSIDLogin E fd cmd s).2)).length = 1) ∧
    (requestTarget E fd cmd s = none →
      rspsSent (callsMade s (iSCSIDLogin E fd cmd s).2) = [] ∧
      (iSCSIDLogin E fd cmd s).1 = EINVAL) ∧
    (rspsSent (callsMade s (iSCSIDLogout E fd cmd s).2)).length = 1 ∧
    (rspsSent (callsMade s (iSCSIDCreateArrayOfActiveTargets E fd cmd s).2)).length = 1 ∧
    (rspsSent (callsMade s
      (iSCSIDCreateArrayofActivePortalsForTarget E fd cmd s).2)).length = 1 ∧
    (rspsSent (callsMade s (iSCSIDIsTargetActive E fd cmd s).2)).length = 1 ∧
    (rspsSent (callsMade s (iSCSIDIsPortalActive E fd cmd s).2)).length = 1 ∧
    (rspsSent (callsMade s (iSCSIDQueryPortalForTargets E fd cmd s).2)).length = 1 ∧
    (rspsSent (callsMade s (iSCSIDQueryTargetForAuthMethod E fd cmd s).2)).length = 1 ∧
    (requestTarget E fd cmd s ≠ none →
      (rspsSent (callsMade s (iSCSIDCreateCFPropertiesForSession E fd cmd s).2)).length = 1) ∧
    (requestTarget E fd cmd s = none →
      rspsSent (callsMade s (iSCSIDCreateCFPropertiesForSession E fd cmd s).2) = [] ∧
      (iSCSIDCreateCFPropertiesForSession E fd cmd s).1 = EINVAL) ∧
    (requestTarget E fd cmd s ≠ none ∧ requestPortal E fd cmd s ≠ none →
      (rspsSent (callsMade s
        (iSCSIDCreateCFPropertiesForConnection E fd cmd s).2)).length = 1) ∧
    (requestTarget E fd cmd s = none ∨ requestPortal E fd cmd s = none →
      rspsSent (callsMade s (iSCSIDCreateCFPropertiesForConnection E fd cmd s).2) = [] ∧
      (iSCSIDCreateCFPropertiesForConnection E fd cmd s).1 = EINVAL) := by
  have len1 : ∀ (l : List Rsp) (c : Nat), l.map Rsp.funcCode = [c] → l.length = 1 := by
    intro l c h
    have := congrArg List.length h
    simpa using this
  exact ⟨fun h => len1 _ _ ((login_headers E fd cmd s).2 h),
    (login_headers E fd cmd s).1,
    len1 _ _ (logout_headers E fd cmd s),
    len1 _ _ (activeTargets_headers E fd cmd s),
    len1 _ _ (activePortals_headers E fd cmd s),
    len1 _ _ (isTargetActive_headers E fd cmd s),
    len1 _ _ (isPortalActive_headers E fd cmd s),
    len1 _ _ (queryPortal_headers E fd cmd s),
    len1 _ _ (queryAuth_headers E fd cmd s),
    fun h => len1 _ _ ((sessionProps_headers E fd cmd s).2 h),
    (sessionProps_headers E fd cmd s).1,
    fun h => len1 _ _ ((connectionProps_headers E fd cmd s).2 h),
    (connectionProps_headers E fd cmd s).1⟩

/-- C8 (amended) at concrete inputs: a login request for `tgtA` over `portal1`
gets exactly one response header; a login request without a target segment
gets none and `EINVAL` is returned. -/
theorem C8_one_response_header_witness :
    (rspsSent (callsMade (withPending (state0 3) (bytesOf "iqn.A" ++ bytesOf "10.0.0.1"))
      (iSCSIDLogin refEnv 3 (cmdTargetPortal 0)
        (withPending (state0 3) (bytesOf "iqn.A" ++ bytesOf "10.0.0.1"))).2)).length = 1 ∧
    (rspsSent (callsMade (state0 3) (iSCSIDLogin refEnv 3 ⟨0, 0, 0, 0⟩ (state0 3)).2) = [] ∧
      (iSCSIDLogin refEnv 3 ⟨0, 0, 0, 0⟩ (state0 3)).1 = EINVAL) :=
  ⟨(C8_one_response_header refEnv 3 (cmdTargetPortal 0)
      (withPending (state0 3) (bytesOf "iqn.A" ++ bytesOf "10.0.0.1"))).1 (by decide),
   (C8_one_response_header refEnv 3 ⟨0, 0, 0, 0⟩ (state0 3)).2.1 (by decide)⟩

/-- C9, the code at the failing input: a request whose function code is
`kiSCSIDCreateArrayOfActivePortalsForTarget` is routed to
`iSCSIDCreateArrayofActivePortalsForTarget`, and the one response header that
handler hands to `send` carries the function code
`kiSCSIDCreateArrayOfActiveTargets`, which is not the request's code (case
labels of one `switch` are pairwise distinct). -/
theorem C9_funcCode_not_echoed (E : Env κ π χ) (fd : Int) (cmd : iSCSIDCmd)
    (s : State κ π χ) (hnd : (caseLabels E).Nodup)
    (hc : cmd.funcCode = E.kiSCSIDCreateArrayOfActivePortalsForTarget) :
    (iSCSIDProcessIncomingRequest_switch E fd cmd s).2
      = (iSCSIDCreateArrayofActivePortalsForTarget E fd cmd s).2 ∧
    (rspsSent (callsMade s (iSCSIDProcessIncomingRequest_switch E fd cmd s).2)).map
      Rsp.funcCode = [E.kiSCSIDCreateArrayOfActiveTargets] ∧
    E.kiSCSIDCreateArrayOfActiveTargets ≠ cmd.funcCode := by
  simp only [caseLabels, List.nodup_cons, List.mem_cons, List.mem_singleton, not_or,
    List.not_mem_nil, not_false_eq_true, List.nodup_nil, and_true] at hnd
  obtain ⟨⟨_, _, h03, _⟩, ⟨_, h13, _⟩, ⟨h23, _⟩, _⟩ := hnd
  have hroute : (iSCSIDProcessIncomingRequest_switch E fd cmd s).2
      = (iSCSIDCreateArrayofActivePortalsForTarget E fd cmd s).2 := by
    unfold iSCSIDProcessIncomingRequest_switch
    simp [hc, Ne.symm h03, Ne.symm h13, Ne.symm h23]
  refine ⟨hroute, ?_, ?_⟩
  · rw [hroute]; exact activePortals_headers E fd cmd s
  · rw [hc]; exact h23

/-- C9 at a concrete input: with the function codes 0..9, a
list-active-portals-for-target request (code 3) for `tgtA` is answered with a
header whose function code is 2. -/
theorem C9_funcCode_not_echoed_witness :
    (rspsSent (callsMade (withPending state3 (bytesOf "iqn.A"))
      (iSCSIDProcessIncomingRequest_switch refEnv 3 (cmdTarget 3)
        (withPending state3 (bytesOf "iqn.A"))).2)).map Rsp.funcCode = [2] ∧
    (2 : Nat) ≠ (cmdTarget 3).funcCode :=
  (C9_funcCode_not_echoed refEnv 3 (cmdTarget 3) (withPending state3 (bytesOf "iqn.A"))
    (by decide) rfl).2

/-- C10, the code as written: `iSCSIDCreateArrayofActivePortalsForTarget` does
exactly what `iSCSIDCreateArrayOfActiveTargets` does.  It never reads from the
socket, so the declared target segment is left unread, and its result is the
same for every request header: the payload is the serialized array of the
targets of all active sessions, whatever target was supplied. -/
theorem C10_activePortals_ignores_target (E : Env κ π χ) (fd : Int) (cmd : iSCSIDCmd)
    (s : State κ π χ) :
    iSCSIDCreateArrayofActivePortalsForTarget E fd cmd s
      = iSCSIDCreateArrayOfActiveTargets E fd cmd s ∧
    (∀ e ∈ callsMade s (iSCSIDCreateArrayofActivePortalsForTarget E fd cmd s).2,
      e.isRecv = false) ∧
    (iSCSIDCreateArrayofActivePortalsForTarget E fd cmd s).2.kernel = s.kernel ∧
    (∀ cmd' : iSCSIDCmd, iSCSIDCreateArrayofActivePortalsForTarget E fd cmd' s
      = iSCSIDCreateArrayofActivePortalsForTarget E fd cmd s) ∧
    (∀ d, E.CFPropertyListCreateData_targets
        ((E.iSCSICreateArrayOfSessionIds s.kernel).map
          (E.iSCSICreateTargetForSessionId s.kernel)) = some d →
      (iSCSIDCreateArrayofActivePortalsForTarget E fd cmd s).1 = 0 →
      dataSent (callsMade s (iSCSIDCreateArrayofActivePortalsForTarget E fd cmd s).2)
        = [(d.bytes.take (dataLength32 d), dataLength32 d)]) := by
  have hE : (EAGAIN : errno_t) ≠ 0 := by decide
  refine ⟨rfl, ?_, ?_, fun _ => rfl, ?_⟩
  · unfold iSCSIDCreateArrayofActivePortalsForTarget callsMade
    simp only []
    split <;> (try split) <;> (try split) <;> simp [sendRspEvent, Event.isRecv]
  · unfold iSCSIDCreateArrayofActivePortalsForTarget
    simp only []
    split <;> (try split) <;> (try split) <;> simp
  · intro d hd
    unfold iSCSIDCreateArrayofActivePortalsForTarget callsMade
    simp only [hd]
    split
    · intro h; exact absurd h hE
    · split
      · intro h; exact absurd h hE
      · intro _
        simp [sendRspEvent, dataSent]

/-- The handler run on a concrete request: sessions exist for `tgtA` and
`tgtB`, the request names `tgtA`.  The five bytes of the target segment are
still waiting on the socket afterwards, and the payload is the serialization
of the array of both active targets. -/
theorem activePortals_example :
    (iSCSIDCreateArrayofActivePortalsForTarget refEnv 3 (cmdTarget 3)
      (withPending state3 (bytesOf "iqn.A"))).2.chan = ⟨bytesOf "iqn.A"⟩ ∧
    dataSent (callsMade (withPending state3 (bytesOf "iqn.A"))
      (iSCSIDCreateArrayofActivePortalsForTarget refEnv 3 (cmdTarget 3)
        (withPending state3 (bytesOf "iqn.A"))).2)
      = [(((refEnv.CFPropertyListCreateData_targets [some tgtA, some tgtB]).map
            (fun d => d.bytes)).getD [], 2)] := by
  decide

/-- The nine other function codes are echoed: the response headers of the
handler the switch routes to carry the request's function code. -/
theorem funcCode_echo_other_codes (E : Env κ π χ) (fd : Int) (cmd : iSCSIDCmd)
    (s : State κ π χ) (hnd : (caseLabels E).Nodup)
    (hc : cmd.funcCode ∈ caseLabels E)
    (hne : cmd.funcCode ≠ E.kiSCSIDCreateArrayOfActivePortalsForTarget) :
    ∀ r ∈ rspsSent (callsMade s (iSCSIDProcessIncomingRequest_switch E fd cmd s).2),
      r.funcCode = cmd.funcCode := by
  have hone : ∀ (l : List Rsp) (c : Nat), l.map Rsp.funcCode = [c] →
      ∀ r ∈ l, r.funcCode = c := by
    intro l c h r hr
    have : r.funcCode ∈ l.map Rsp.funcCode := List.mem_map_of_mem _ hr
    rw [h] at this
    exact List.mem_singleton.mp this
  simp only [caseLabels, List.nodup_cons, List.mem_cons, List.mem_singleton, not_or,
    List.not_mem_nil, not_false_eq_true, List.nodup_nil, and_true] at hnd
  obtain ⟨⟨h01, h02, h03, h04, h05, h06, h07, h08, h09⟩,
    ⟨h12, h13, h14, h15, h16, h17, h18, h19⟩, ⟨h23, h24, h25, h26, h27, h28, h29⟩,
    ⟨h34, h35, h36, h37, h38, h39⟩, ⟨h45, h46, h47, h48, h49⟩, ⟨h56, h57, h58, h59⟩,
    ⟨h67, h68, h69⟩, ⟨h78, h79⟩, h89⟩ := hnd
  simp only [caseLabels, List.mem_cons, List.mem_singleton, List.not_mem_nil, or_false] at hc
  unfold iSCSIDProcessIncomingRequest_switch
  rcases hc with hc | hc | hc | hc | hc | hc | hc | hc | hc | hc
  · simp only [hc, if_true]
    by_cases ht : requestTarget E fd cmd s = none
    · rw [((login_headers E fd cmd s).1 ht).1]; simp
    · exact hone _ _ ((login_headers E fd cmd s).2 ht)
  · simp only [hc, Ne.symm h01, if_false, if_true]
    exact hone _ _ (logout_headers E fd cmd s)
  · simp only [hc, Ne.symm h02, Ne.symm h12, if_false, if_true]
    exact hone _ _ (activeTargets_headers E fd cmd s)
  · exact absurd hc hne
  · simp only [hc, Ne.symm h04, Ne.symm h14, Ne.symm h24, Ne.symm h34, if_false, if_true]
    exact hone _ _ (isTargetActive_headers E fd cmd s)
  · simp only [hc, Ne.symm h05, Ne.symm h15, Ne.symm h25, Ne.symm h35, Ne.symm h45,
      if_false, if_true]
    exact hone _ _ (isPortalActive_headers E fd cmd s)
  · simp only [hc, Ne.symm h06, Ne.symm h16, Ne.symm h26, Ne.symm h36, Ne.symm h46,
      Ne.symm h56, if_false, if_true]
    exact hone _ _ (queryPortal_headers E fd cmd s)
  · simp only [hc, Ne.symm h07, Ne.symm h17, Ne.symm h27, Ne.symm h37, Ne.symm h47,
      Ne.symm h57, Ne.symm h67, if_false, if_true]
    exact hone _ _ (queryAuth_headers E fd cmd s)
  · simp only [hc, Ne.symm h08, Ne.symm h18, Ne.symm h28, Ne.symm h38, Ne.symm h48,
      Ne.symm h58, Ne.symm h68, Ne.symm h78, if_false, if_true]
    by_cases ht : requestTarget E fd cmd s = none
    · rw [((sessionProps_headers E fd cmd s).1 ht).1]; simp
    · exact hone _ _ ((sessionProps_headers E fd cmd s).2 ht)
  · simp only [hc, Ne.symm h09, Ne.symm h19, Ne.symm h29, Ne.symm h39, Ne.symm h49,
      Ne.symm h59, Ne.symm h69, Ne.symm h79, Ne.symm h89, if_false, if_true]
    by_cases ht : requestTarget E fd cmd s = none ∨ requestPortal E fd cmd s = none
    · rw [((connectionProps_headers E fd cmd s).1 ht).1]; simp
    · push_neg at ht
      exact hone _ _ ((connectionProps_headers E fd cmd s).2 ht)

/-! ## Declared length and payload length -/

@[simp] theorem bytesWritten_sendRspEvent (E : Env κ π χ) (fd : Int) (rsp : Rsp)
    (s : State κ π χ) (evs : List Event) :
    bytesWritten (sendRspEvent E fd rsp s :: evs) = bytesWritten evs := rfl

@[simp] theorem bytesWritten_recvEvent (E : Env κ π χ) (fd : Int) (n : Nat) (s : State κ π χ)
    (evs : List Event) : bytesWritten (recvEvent E fd n s :: evs) = bytesWritten evs := rfl

@[simp] theorem bytesWritten_send_data (fd : Int) (b : List Nat) (n : Nat) (c : Int)
    (evs : List Event) :
    bytesWritten (Event.send fd (Msg.data b) n c :: evs) = c + bytesWritten evs := rfl

@[simp] theorem bytesWritten_nil : bytesWritten [] = 0 := rfl

@[simp] theorem dataSent_sendRspEvent (E : Env κ π χ) (fd : Int) (rsp : Rsp)
    (s : State κ π χ) (evs : List Event) :
    dataSent (sendRspEvent E fd rsp s :: evs) = dataSent evs := rfl

@[simp] theorem dataSent_recvEvent (E : Env κ π χ) (fd : Int) (n : Nat) (s : State κ π χ)
    (evs : List Event) : dataSent (recvEvent E fd n s :: evs) = dataSent evs := rfl

@[simp] theorem dataSent_send_data (fd : Int) (b : List Nat) (n : Nat) (c : Int)
    (evs : List Event) :
    dataSent (Event.send fd (Msg.data b) n c :: evs) = (b, n) :: dataSent evs := rfl

@[simp] theorem dataSent_nil : dataSent [] = [] := rfl

/-- The header and the payload of `iSCSIDCreateCFPropertiesForSession` when it
has read a target, has a serialized blob `d` and returns 0. -/
theorem sessionProps_payload (E : Env κ π χ) (fd : Int) (cmd : iSCSIDCmd)
    (s : State κ π χ) (d : CFData)
    (ht : requestTarget E fd cmd s ≠ none)
    (hd : sessionPropsData E fd cmd s = some d)
    (hret : (iSCSIDCreateCFPropertiesForSession E fd cmd s).1 = 0) :
    rspsSent (callsMade s (iSCSIDCreateCFPropertiesForSession E fd cmd s).2)
      = [Rsp.createCFPropertiesForSession
          { funcCode := E.kiSCSIDCreateCFPropertiesForSession, errorCode := 0,
            dataLength := CFDataGetLength d % 2 ^ 32 }] ∧
    dataSent (callsMade s (iSCSIDCreateCFPropertiesForSession E fd cmd s).2)
      = [(d.bytes, CFDataGetLength d)] ∧
    bytesWritten (callsMade s (iSCSIDCreateCFPropertiesForSession E fd cmd s).2)
      = (CFDataGetLength d : Int) := by
  have hE : (EAGAIN : errno_t) ≠ 0 := by decide
  unfold requestTarget at ht
  unfold sessionPropsData requestTarget at hd
  have hs : (iSCSIDCreateObjectFromSocket E fd cmd.targetLength
      E.iSCSITargetCreateWithData s).1.isNone = false := by
    cases h : (iSCSIDCreateObjectFromSocket E fd cmd.targetLength
      E.iSCSITargetCreateWithData s).1 with
    | none => exact absurd h ht
    | some _ => rfl
  revert hret
  unfold iSCSIDCreateCFPropertiesForSession callsMade
  simp only [hs, Bool.false_eq_true, if_false, createObject_kernel, hd]
  split
  · simp [hE]
  · simp only [if_true]
    split
    · simp [hE]
    · rename_i hw hcount
      simp only [ne_eq, Decidable.not_not] at hcount
      simp [send, dataLength32] at hcount
      intro _
      simp [dataLength32, hcount]

/-- For a blob shorter than 2^32 bytes the declared length and the number of
payload bytes written by `iSCSIDCreateCFPropertiesForSession` agree. -/
theorem sessionProps_lengths_agree (E : Env κ π χ) (fd : Int) (cmd : iSCSIDCmd)
    (s : State κ π χ) (d : CFData)
    (ht : requestTarget E fd cmd s ≠ none)
    (hd : sessionPropsData E fd cmd s = some d)
    (hret : (iSCSIDCreateCFPropertiesForSession E fd cmd s).1 = 0)
    (hsmall : CFDataGetLength d < 2 ^ 32) :
    rspsSent (callsMade s (iSCSIDCreateCFPropertiesForSession E fd cmd s).2)
      = [Rsp.createCFPropertiesForSession
          { funcCode := E.kiSCSIDCreateCFPropertiesForSession, errorCode := 0,
            dataLength := CFDataGetLength d }] ∧
    bytesWritten (callsMade s (iSCSIDCreateCFPropertiesForSession E fd cmd s).2)
      = (CFDataGetLength d : Int) := by
  obtain ⟨h1, _, h3⟩ := sessionProps_payload E fd cmd s d ht hd hret
  rw [Nat.mod_eq_of_lt hsmall] at h1
  exact ⟨h1, h3⟩

/-- The list-active-targets handler writes exactly the declared number of
payload bytes whenever it returns 0, for a blob of any length. -/
theorem activeTargets_lengths_agree (E : Env κ π χ) (fd : Int) (cmd : iSCSIDCmd)
    (s : State κ π χ) (d : CFData)
    (hd : E.CFPropertyListCreateData_targets
      ((E.iSCSICreateArrayOfSessionIds s.kernel).map
        (E.iSCSICreateTargetForSessionId s.kernel)) = some d)
    (hret : (iSCSIDCreateArrayOfActiveTargets E fd cmd s).1 = 0) :
    rspsSent (callsMade s (iSCSIDCreateArrayOfActiveTargets E fd cmd s).2)
      = [Rsp.createArrayOfActiveTargets
          { funcCode := E.kiSCSIDCreateArrayOfActiveTargets, errorCode := 0,
            dataLength := dataLength32 d }] ∧
    bytesWritten (callsMade s (iSCSIDCreateArrayOfActiveTargets E fd cmd s).2)
      = (dataLength32 d : Int) := by
  have hE : (EAGAIN : errno_t) ≠ 0 := by decide
  revert hret
  unfold iSCSIDCreateArrayOfActiveTargets callsMade
  simp only [hd]
  split
  · simp [hE]
  · split
    · simp [hE]
    · rename_i hw hcount
      simp only [ne_eq, Decidable.not_not] at hcount
      simp [send] at hcount
      intro _
      simp [hcount]

/-- `iSCSIDCreateCFPropertiesForSession` returns 0 when it has read a target,
the header `send` is not short and the payload `send` reports the full
length of the blob. -/
theorem sessionProps_returns_zero (E : Env κ π χ) (fd : Int) (cmd : iSCSIDCmd)
    (s : State κ π χ) (d : CFData)
    (ht : requestTarget E fd cmd s ≠ none)
    (hd : sessionPropsData E fd cmd s = some d)
    (hw : (sendRspShort E fd (Rsp.createCFPropertiesForSession
        { funcCode := E.kiSCSIDCreateCFPropertiesForSession, errorCode := 0,
          dataLength := dataLength32 d }) (afterTarget E fd cmd s)).1 = false)
    (hc : (send E fd (Msg.data d.bytes) (CFDataGetLength d)
        (sendRspShort E fd (Rsp.createCFPropertiesForSession
          { funcCode := E.kiSCSIDCreateCFPropertiesForSession, errorCode := 0,
            dataLength := dataLength32 d }) (afterTarget E fd cmd s)).2).1
        = (CFDataGetLength d : Int)) :
    (iSCSIDCreateCFPropertiesForSession E fd cmd s).1 = 0 := by
  unfold requestTarget at ht
  unfold sessionPropsData requestTarget at hd
  unfold afterTarget at hw hc
  have hs : (iSCSIDCreateObjectFromSocket E fd cmd.targetLength
      E.iSCSITargetCreateWithData s).1.isNone = false := by
    cases h : (iSCSIDCreateObjectFromSocket E fd cmd.targetLength
      E.iSCSITargetCreateWithData s).1 with
    | none => exact absurd h ht
    | some _ => rfl
  unfold iSCSIDCreateCFPropertiesForSession
  simp only [hs, Bool.false_eq_true, if_false, createObject_kernel, hd, hw, if_true, hc,
    ne_eq, not_true_eq_false]

@[simp] theorem bytesWritten_queryPortal (p : iSCSIPortalRef) (a : iSCSIAuthRef) (e : errno_t)
    (c : Nat) (evs : List Event) :
    bytesWritten (Event.queryPortalForTargets p a e c :: evs) = bytesWritten evs := rfl

/-- The header and the payload of `iSCSIDQueryPortalForTargets` when it has a
serialized discovery record `d` and returns 0. -/
theorem discovery_payload (E : Env κ π χ) (fd : Int) (cmd : iSCSIDCmd)
    (s : State κ π χ) (d : CFData)
    (hd : discoveryData E fd cmd s = some d)
    (hret : (iSCSIDQueryPortalForTargets E fd cmd s).1 = 0) :
    rspsSent (callsMade s (iSCSIDQueryPortalForTargets E fd cmd s).2)
      = [Rsp.queryPortalForTargets
          { funcCode := E.kiSCSIDQueryPortalForTargets
            errorCode := (discoveryResult E fd cmd s).error
            statusCode := (discoveryResult E fd cmd s).statusCode
            discoveryLength := CFDataGetLength d % 2 ^ 32 }] ∧
    bytesWritten (callsMade s (iSCSIDQueryPortalForTargets E fd cmd s).2)
      = (CFDataGetLength d : Int) := by
  have hE : (EAGAIN : errno_t) ≠ 0 := by decide
  unfold discoveryData discoveryResult at hd
  revert hret
  unfold iSCSIDQueryPortalForTargets callsMade discoveryResult
  simp only [createObject_kernel, hd]
  split
  · simp [hE]
  · split
    · simp [hE]
    · rename_i hw hcount
      simp only [ne_eq, Decidable.not_not] at hcount
      simp [send, dataLength32] at hcount
      intro _
      simp [dataLength32, hcount]

/-- `iSCSIDQueryPortalForTargets` returns 0 when the header `send` is not short
and the payload `send` reports the full length of the blob. -/
theorem discovery_returns_zero (E : Env κ π χ) (fd : Int) (cmd : iSCSIDCmd)
    (s : State κ π χ) (d : CFData)
    (hd : discoveryData E fd cmd s = some d)
    (hw : (sendRspShort E fd (Rsp.queryPortalForTargets
        { funcCode := E.kiSCSIDQueryPortalForTargets
          errorCode := (discoveryResult E fd cmd s).error
          statusCode := (discoveryResult E fd cmd s).statusCode
          discoveryLength := dataLength32 d }) (afterDiscovery E fd cmd s)).1 = false)
    (hc : (send E fd (Msg.data d.bytes) (CFDataGetLength d)
        (sendRspShort E fd (Rsp.queryPortalForTargets
          { funcCode := E.kiSCSIDQueryPortalForTargets
            errorCode := (discoveryResult E fd cmd s).error
            statusCode := (discoveryResult E fd cmd s).statusCode
            discoveryLength := dataLength32 d }) (afterDiscovery E fd cmd s)).2).1
        = (CFDataGetLength d : Int)) :
    (iSCSIDQueryPortalForTargets E fd cmd s).1 = 0 := by
  unfold discoveryData discoveryResult at hd
  unfold afterDiscovery discoveryResult at hw hc
  simp only [createObject_kernel] at hw hc
  unfold iSCSIDQueryPortalForTargets
  simp only [createObject_kernel, hd, hw, hc, ne_eq, not_true_eq_false, if_false,
    Bool.false_eq_true]

theorem activeTargets_lengths (E : Env κ π χ) (fd : Int) (cmd : iSCSIDCmd)
    (s : State κ π χ) (hret : (iSCSIDCreateArrayOfActiveTargets E fd cmd s).1 = 0) :
    (∀ d, activeTargetsData E s = some d →
      rspsSent (callsMade s (iSCSIDCreateArrayOfActiveTargets E fd cmd s).2)
        = [Rsp.createArrayOfActiveTargets
            { funcCode := E.kiSCSIDCreateArrayOfActiveTargets, errorCode := 0,
              dataLength := dataLength32 d }] ∧
      bytesWritten (callsMade s (iSCSIDCreateArrayOfActiveTargets E fd cmd s).2)
        = (dataLength32 d : Int)) ∧
    (activeTargetsData E s = none →
      rspsSent (callsMade s (iSCSIDCreateArrayOfActiveTargets E fd cmd s).2)
        = [Rsp.createArrayOfActiveTargets
            { funcCode := E.kiSCSIDCreateArrayOfActiveTargets, errorCode := 0,
              dataLength := 0 }] ∧
      dataSent (callsMade s (iSCSIDCreateArrayOfActiveTargets E fd cmd s).2) = [] ∧
      bytesWritten (callsMade s (iSCSIDCreateArrayOfActiveTargets E fd cmd s).2) = 0) := by
  have hE : (EAGAIN : errno_t) ≠ 0 := by decide
  constructor
  · intro d hd
    exact activeTargets_lengths_agree E fd cmd s d hd hret
  · intro hd
    unfold activeTargetsData at hd
    revert hret
    unfold iSCSIDCreateArrayOfActiveTargets callsMade
    simp only [hd]
    split
    · simp [hE]
    · intro _
      simp

theorem activePortals_lengths (E : Env κ π χ) (fd : Int) (cmd : iSCSIDCmd)
    (s : State κ π χ)
    (hret : (iSCSIDCreateArrayofActivePortalsForTarget E fd cmd s).1 = 0) :
    (∀ d, activeTargetsData E s = some d →
      rspsSent (callsMade s (iSCSIDCreateArrayofActivePortalsForTarget E fd cmd s).2)
        = [Rsp.createArrayOfActiveTargets
            { funcCode := E.kiSCSIDCreateArrayOfActiveTargets, errorCode := 0,
              dataLength := dataLength32 d }] ∧
      bytesWritten (callsMade s (iSCSIDCreateArrayofActivePortalsForTarget E fd cmd s).2)
        = (dataLength32 d : Int)) ∧
    (activeTargetsData E s = none →
      rspsSent (callsMade s (iSCSIDCreateArrayofActivePortalsForTarget E fd cmd s).2)
        = [Rsp.createArrayOfActiveTargets
            { funcCode := E.kiSCSIDCreateArrayOfActiveTargets, errorCode := 0,
              dataLength := 0 }] ∧
      dataSent (callsMade s (iSCSIDCreateArrayofActivePortalsForTarget E fd cmd s).2) = [] ∧
      bytesWritten (callsMade s (iSCSIDCreateArrayofActivePortalsForTarget E fd cmd s).2)
        = 0) := by
  have hE : (EAGAIN : errno_t) ≠ 0 := by decide
  constructor
  · intro d hd
    unfold activeTargetsData at hd
    revert hret
    unfold iSCSIDCreateArrayofActivePortalsForTarget callsMade
    simp only [hd]
    split
    · simp [hE]
    · split
      · simp [hE]
      · rename_i hw hcount
        simp only [ne_eq, Decidable.not_not] at hcount
        simp [send] at hcount
        intro _
        simp [hcount]
  · intro hd
    unfold activeTargetsData at hd
    revert hret
    unfold iSCSIDCreateArrayofActivePortalsForTarget callsMade
    simp only [hd]
    split
    · simp [hE]
    · intro _
      simp

/-- On a socket whose `send` reports fewer than 2^32 bytes for one call,
`iSCSIDQueryPortalForTargets` returns 0 only for a blob shorter than 2^32
bytes: the payload `send` must report the whole length of the blob. -/
theorem discovery_blob_small (E : Env κ π χ) (fd : Int) (cmd : iSCSIDCmd)
    (s : State κ π χ) (d : CFData)
    (hsend : ∀ c fd' msg n, (E.send c fd' msg n).1 < 2 ^ 32)
    (hd : discoveryData E fd cmd s = some d)
    (hret : (iSCSIDQueryPortalForTargets E fd cmd s).1 = 0) :
    CFDataGetLength d < 2 ^ 32 := by
  have hE : (EAGAIN : errno_t) ≠ 0 := by decide
  unfold discoveryData discoveryResult at hd
  revert hret
  unfold iSCSIDQueryPortalForTargets
  simp only [createObject_kernel, hd]
  split
  · simp [hE]
  · split
    · simp [hE]
    · rename_i hw hcount
      simp only [ne_eq, Decidable.not_not] at hcount
      simp only [send] at hcount
      intro _
      have hb : ((CFDataGetLength d : Nat) : Int) < 2 ^ 32 := by
        rw [← hcount]
        exact hsend _ _ _ _
      exact_mod_cast hb

@[simp] theorem dataSent_queryPortal (p : iSCSIPortalRef) (a : iSCSIAuthRef) (e : errno_t)
    (c : Nat) (evs : List Event) :
    dataSent (Event.queryPortalForTargets p a e c :: evs) = dataSent evs := rfl

/-- The header of `iSCSIDQueryPortalForTargets` when it has no serialized
discovery record and returns 0: it declares 0 and no payload is sent. -/
theorem discovery_absent (E : Env κ π χ) (fd : Int) (cmd : iSCSIDCmd)
    (s : State κ π χ)
    (hd : discoveryData E fd cmd s = none)
    (hret : (iSCSIDQueryPortalForTargets E fd cmd s).1 = 0) :
    rspsSent (callsMade s (iSCSIDQueryPortalForTargets E fd cmd s).2)
      = [Rsp.queryPortalForTargets
          { funcCode := E.kiSCSIDQueryPortalForTargets
            errorCode := (discoveryResult E fd cmd s).error
            statusCode := (discoveryResult E fd cmd s).statusCode
            discoveryLength := 0 }] ∧
    dataSent (callsMade s (iSCSIDQueryPortalForTargets E fd cmd s).2) = [] ∧
    bytesWritten (callsMade s (iSCSIDQueryPortalForTargets E fd cmd s).2) = 0 := by
  have hE : (EAGAIN : errno_t) ≠ 0 := by decide
  unfold discoveryData discoveryResult at hd
  revert hret
  unfold iSCSIDQueryPortalForTargets callsMade discoveryResult
  simp only [createObject_kernel, hd]
  split
  · simp [hE]
  · intro _
    simp

/-- `iSCSIDCreateCFPropertiesForSession` returns 0 only when it has read a
target. -/
theorem sessionProps_target (E : Env κ π χ) (fd : Int) (cmd : iSCSIDCmd)
    (s : State κ π χ)
    (hret : (iSCSIDCreateCFPropertiesForSession E fd cmd s).1 = 0) :
    requestTarget E fd cmd s ≠ none := by
  have hE : (EINVAL : errno_t) ≠ 0 := by decide
  intro hn
  unfold requestTarget at hn
  unfold iSCSIDCreateCFPropertiesForSession at hret
  simp only [hn, Option.isNone_none, if_true] at hret
  exact hE hret

/-- On a socket whose `send` reports fewer than 2^32 bytes for one call,
`iSCSIDCreateCFPropertiesForSession` returns 0 only for a blob shorter than
2^32 bytes. -/
theorem sessionProps_blob_small (E : Env κ π χ) (fd : Int) (cmd : iSCSIDCmd)
    (s : State κ π χ) (d : CFData)
    (hsend : ∀ c fd' msg n, (E.send c fd' msg n).1 < 2 ^ 32)
    (hd : sessionPropsData E fd cmd s = some d)
    (hret : (iSCSIDCreateCFPropertiesForSession E fd cmd s).1 = 0) :
    CFDataGetLength d < 2 ^ 32 := by
  have hE : (EAGAIN : errno_t) ≠ 0 := by decide
  have ht := sessionProps_target E fd cmd s hret
  unfold requestTarget at ht
  unfold sessionPropsData requestTarget at hd
  have hs : (iSCSIDCreateObjectFromSocket E fd cmd.targetLength
      E.iSCSITargetCreateWithData s).1.isNone = false := by
    cases h : (iSCSIDCreateObjectFromSocket E fd cmd.targetLength
      E.iSCSITargetCreateWithData s).1 with
    | none => exact absurd h ht
    | some _ => rfl
  revert hret
  unfold iSCSIDCreateCFPropertiesForSession
  simp only [hs, Bool.false_eq_true, if_false, createObject_kernel, hd]
  split
  · simp [hE]
  · simp only [if_true]
    split
    · simp [hE]
    · rename_i hw hcount
      simp only [ne_eq, Decidable.not_not] at hcount
      simp only [send] at hcount
      intro _
      have hb : ((CFDataGetLength d : Nat) : Int) < 2 ^ 32 := by
        rw [← hcount]
        exact hsend _ _ _ _
      exact_mod_cast hb

/-- The header of `iSCSIDCreateCFPropertiesForSession` when it has no
serialized blob and returns 0: it declares 0 and no payload is sent. -/
theorem sessionProps_absent (E : Env κ π χ) (fd : Int) (cmd : iSCSIDCmd)
    (s : State κ π χ)
    (hd : sessionPropsData E fd cmd s = none)
    (hret : (iSCSIDCreateCFPropertiesForSession E fd cmd s).1 = 0) :
    rspsSent (callsMade s (iSCSIDCreateCFPropertiesForSession E fd cmd s).2)
      = [Rsp.createCFPropertiesForSession
          { funcCode := E.kiSCSIDCreateCFPropertiesForSession, errorCode := 0,
            dataLength := 0 }] ∧
    dataSent (callsMade s (iSCSIDCreateCFPropertiesForSession E fd cmd s).2) = [] ∧
    bytesWritten (callsMade s (iSCSIDCreateCFPropertiesForSession E fd cmd s).2) = 0 := by
  have hE : (EAGAIN : errno_t) ≠ 0 := by decide
  have ht := sessionProps_target E fd cmd s hret
  unfold requestTarget at ht
  unfold sessionPropsData requestTarget at hd
  have hs : (iSCSIDCreateObjectFromSocket E fd cmd.targetLength
      E.iSCSITargetCreateWithData s).1.isNone = false := by
    cases h : (iSCSIDCreateObjectFromSocket E fd cmd.targetLength
      E.iSCSITargetCreateWithData s).1 with
    | none => exact absurd h ht
    | some _ => rfl
  revert hret
  unfold iSCSIDCreateCFPropertiesForSession callsMade
  simp only [hs, Bool.false_eq_true, if_false, createObject_kernel, hd]
  split
  · simp [hE]
  · intro _
    simp

/-- `iSCSIDCreateCFPropertiesForConnection` returns 0 only when it has read a
target and a portal. -/
theorem connectionProps_objects (E : Env κ π χ) (fd : Int) (cmd : iSCSIDCmd)
    (s : State κ π χ)
    (hret : (iSCSIDCreateCFPropertiesForConnection E fd cmd s).1 = 0) :
    ((iSCSIDCreateObjectFromSocket E fd cmd.targetLength
        E.iSCSITargetCreateWithData s).1.isNone ||
      (iSCSIDCreateObjectFromSocket E fd cmd.portalLength E.iSCSIPortalCreateWithData
        (iSCSIDCreateObjectFromSocket E fd cmd.targetLength
          E.iSCSITargetCreateWithData s).2).1.isNone) = false := by
  have hE : (EINVAL : errno_t) ≠ 0 := by decide
  cases h : ((iSCSIDCreateObjectFromSocket E fd cmd.targetLength
        E.iSCSITargetCreateWithData s).1.isNone ||
      (iSCSIDCreateObjectFromSocket E fd cmd.portalLength E.iSCSIPortalCreateWithData
        (iSCSIDCreateObjectFromSocket E fd cmd.targetLength
          E.iSCSITargetCreateWithData s).2).1.isNone) with
  | false => rfl
  | true =>
    unfold iSCSIDCreateCFPropertiesForConnection at hret
    simp only [h, if_true] at hret
    exact absurd hret hE

/-- The header and the payload of `iSCSIDCreateCFPropertiesForConnection` when
it has a serialized blob `d` and returns 0. -/
theorem connectionProps_payload (E : Env κ π χ) (fd : Int) (cmd : iSCSIDCmd)
    (s : State κ π χ) (d : CFData)
    (hd : connectionPropsData E fd cmd s = some d)
    (hret : (iSCSIDCreateCFPropertiesForConnection E fd cmd s).1 = 0) :
    rspsSent (callsMade s (iSCSIDCreateCFPropertiesForConnection E fd cmd s).2)
      = [Rsp.createCFPropertiesForConnection
          { funcCode := E.kiSCSIDCreateCFPropertiesForConnection, errorCode := 0,
            dataLength := CFDataGetLength d % 2 ^ 32 }] ∧
    bytesWritten (callsMade s (iSCSIDCreateCFPropertiesForConnection E fd cmd s).2)
      = (CFDataGetLength d : Int) := by
  have hE : (EAGAIN : errno_t) ≠ 0 := by decide
  have hs := connectionProps_objects E fd cmd s hret
  unfold connectionPropsData requestTarget requestPortal at hd
  revert hret
  unfold iSCSIDCreateCFPropertiesForConnection callsMade
  simp only [hs, Bool.false_eq_true, if_false, createObject_kernel, hd]
  split
  · simp [hE]
  · simp only [if_true]
    split
    · simp [hE]
    · rename_i hw hcount
      simp only [ne_eq, Decidable.not_not] at hcount
      simp [send, dataLength32] at hcount
      intro _
      simp [dataLength32, hcount]

/-- On a socket whose `send` reports fewer than 2^32 bytes for one call,
`iSCSIDCreateCFPropertiesForConnection` returns 0 only for a blob shorter than
2^32 bytes. -/
theorem connectionProps_blob_small (E : Env κ π χ) (fd : Int) (cmd : iSCSIDCmd)
    (s : State κ π χ) (d : CFData)
    (hsend : ∀ c fd' msg n, (E.send c fd' msg n).1 < 2 ^ 32)
    (hd : connectionPropsData E fd cmd s = some d)
    (hret : (iSCSIDCreateCFPropertiesForConnection E fd cmd s).1 = 0) :
    CFDataGetLength d < 2 ^ 32 := by
  have hE : (EAGAIN : errno_t) ≠ 0 := by decide
  have hs := connectionProps_objects E fd cmd s hret
  unfold connectionPropsData requestTarget requestPortal at hd
  revert hret
  unfold iSCSIDCreateCFPropertiesForConnection
  simp only [hs, Bool.false_eq_true, if_false, createObject_kernel, hd]
  split
  · simp [hE]
  · simp only [if_true]
    split
    · simp [hE]
    · rename_i hw hcount
      simp only [ne_eq, Decidable.not_not] at hcount
      simp only [send] at hcount
      intro _
      have hb : ((CFDataGetLength d : Nat) : Int) < 2 ^ 32 := by
        rw [← hcount]
        exact hsend _ _ _ _
      exact_mod_cast hb

/-- The header of `iSCSIDCreateCFPropertiesForConnection` when it has no
serialized blob and returns 0: it declares 0 and no payload is sent. -/
theorem connectionProps_absent (E : Env κ π χ) (fd : Int) (cmd : iSCSIDCmd)
    (s : State κ π χ)
    (hd : connectionPropsData E fd cmd s = none)
    (hret : (iSCSIDCreateCFPropertiesForConnection E fd cmd s).1 = 0) :
    rspsSent (callsMade s (iSCSIDCreateCFPropertiesForConnection E fd cmd s).2)
      = [Rsp.createCFPropertiesForConnection
          { funcCode := E.kiSCSIDCreateCFPropertiesForConnection, errorCode := 0,
            dataLength := 0 }] ∧
    dataSent (callsMade s (iSCSIDCreateCFPropertiesForConnection E fd cmd s).2) = [] ∧
    bytesWritten (callsMade s (iSCSIDCreateCFPropertiesForConnection E fd cmd s).2) = 0 := by
  have hE : (EAGAIN : errno_t) ≠ 0 := by decide
  have hs := connectionProps_objects E fd cmd s hret
  unfold connectionPropsData requestTarget requestPortal at hd
  revert hret
  unfold iSCSIDCreateCFPropertiesForConnection callsMade
  simp only [hs, Bool.false_eq_true, if_false, createObject_kernel, hd]
  split
  · simp [hE]
  · intro _
    simp

/-- C11: on a control socket whose `send` reports fewer than 2^32 bytes for
one call (one `send` transfers at most `0x7ffff000` bytes on Linux and at most
`INT_MAX` bytes on XNU), each of the five payload-returning handlers, whenever
it returns 0, has sent exactly one response header, and the payload bytes
written after it number exactly the 32-bit `dataLength` (for the discovery
query: `discoveryLength`) of that header, for a blob of every length; for an
absent blob the header declares 0 and no payload `send` is made.  The two list
handlers send `rsp.dataLength` bytes; the other three send
`CFDataGetLength(data)` bytes, and return 0 only when that is the declared
length. -/
theorem C11_declared_length_is_payload_length (E : Env κ π χ) (fd : Int) (cmd : iSCSIDCmd)
    (s : State κ π χ)
    (hsend : ∀ c fd' msg n, (E.send c fd' msg n).1 < 2 ^ 32) :
    ((iSCSIDCreateArrayOfActiveTargets E fd cmd s).1 = 0 →
      (∀ d, activeTargetsData E s = some d →
        rspsSent (callsMade s (iSCSIDCreateArrayOfActiveTargets E fd cmd s).2)
          = [Rsp.createArrayOfActiveTargets
            { funcCode := E.kiSCSIDCreateArrayOfActiveTargets, errorCode := 0,
              dataLength := dataLength32 d }] ∧
        bytesWritten (callsMade s (iSCSIDCreateArrayOfActiveTargets E fd cmd s).2)
          = (dataLength32 d : Int)) ∧
      (activeTargetsData E s = none →
        rspsSent (callsMade s (iSCSIDCreateArrayOfActiveTargets E fd cmd s).2)
          = [Rsp.createArrayOfActiveTargets
            { funcCode := E.kiSCSIDCreateArrayOfActiveTargets, errorCode := 0,
              dataLength := 0 }] ∧
        dataSent (callsMade s (iSCSIDCreateArrayOfActiveTargets E fd cmd s).2) = [] ∧
        bytesWritten (callsMade s (iSCSIDCreateArrayOfActiveTargets E fd cmd s).2) = 0)) ∧
    ((iSCSIDCreateArrayofActivePortalsForTarget E fd cmd s).1 = 0 →
      (∀ d, activeTargetsData E s = some d →
        rspsSent (callsMade s (iSCSIDCreateArrayofActivePortalsForTarget E fd cmd s).2)
          = [Rsp.createArrayOfActiveTargets
            { funcCode := E.kiSCSIDCreateArrayOfActiveTargets, errorCode := 0,
              dataLength := dataLength32 d }] ∧
        bytesWritten (callsMade s (iSCSIDCreateArrayofActivePortalsForTarget E fd cmd s).2)
          = (dataLength32 d : Int)) ∧
      (activeTargetsData E s = none →
        rspsSent (callsMade s (iSCSIDCreateArrayofActivePortalsForTarget E fd cmd s).2)
          = [Rsp.createArrayOfActiveTargets
            { funcCode := E.kiSCSIDCreateArrayOfActiveTargets, errorCode := 0,
              dataLength := 0 }] ∧
        dataSent (callsMade s (iSCSIDCreateArrayofActivePortalsForTarget E fd cmd s).2) = [] ∧
        bytesWritten (callsMade s (iSCSIDCreateArrayofActivePortalsForTarget E fd cmd s).2) = 0)) ∧
    ((iSCSIDQueryPortalForTargets E fd cmd s).1 = 0 →
      (∀ d, discoveryData E fd cmd s = some d →
        rspsSent (callsMade s (iSCSIDQueryPortalForTargets E fd cmd s).2)
          = [Rsp.queryPortalForTargets
            { funcCode := E.kiSCSIDQueryPortalForTargets
              errorCode := (discoveryResult E fd cmd s).error
              statusCode := (discoveryResult E fd cmd s).statusCode
              discoveryLength := dataLength32 d }] ∧
        bytesWritten (callsMade s (iSCSIDQueryPortalForTargets E fd cmd s).2)
          = (dataLength32 d : Int) ∧
        dataLength32 d = CFDataGetLength d) ∧
      (discoveryData E fd cmd s = none →
        rspsSent (callsMade s (iSCSIDQueryPortalForTargets E fd cmd s).2)
          = [Rsp.queryPortalForTargets
            { funcCode := E.kiSCSIDQueryPortalForTargets
              errorCode := (discoveryResult E fd cmd s).error
              statusCode := (discoveryResult E fd cmd s).statusCode
              discoveryLength := 0 }] ∧
        dataSent (callsMade s (iSCSIDQueryPortalForTargets E fd cmd s).2) = [] ∧
        bytesWritten (callsMade s (iSCSIDQueryPortalForTargets E fd cmd s).2) = 0)) ∧
    ((iSCSIDCreateCFPropertiesForSession E fd cmd s).1 = 0 →
      (∀ d, sessionPropsData E fd cmd s = some d →
        rspsSent (callsMade s (iSCSIDCreateCFPropertiesForSession E fd cmd s).2)
          = [Rsp.createCFPropertiesForSession
            { funcCode := E.kiSCSIDCreateCFPropertiesForSession, errorCode := 0,
              dataLength := dataLength32 d }] ∧
        bytesWritten (callsMade s (iSCSIDCreateCFPropertiesForSession E fd cmd s).2)
          = (dataLength32 d : Int) ∧
        dataLength32 d = CFDataGetLength d) ∧
      (sessionPropsData E fd cmd s = none →
        rspsSent (callsMade s (iSCSIDCreateCFPropertiesForSession E fd cmd s).2)
          = [Rsp.createCFPropertiesForSession
            { funcCode := E.kiSCSIDCreateCFPropertiesForSession, errorCode := 0,
              dataLength := 0 }] ∧
        dataSent (callsMade s (iSCSIDCreateCFPropertiesForSession E fd cmd s).2) = [] ∧
        bytesWritten (callsMade s (iSCSIDCreateCFPropertiesForSession E fd cmd s).2) = 0)) ∧
    ((iSCSIDCreateCFPropertiesForConnection E fd cmd s).1 = 0 →
      (∀ d, connectionPropsData E fd cmd s = some d →
        rspsSent (callsMade s (iSCSIDCreateCFPropertiesForConnection E fd cmd s).2)
          = [Rsp.createCFPropertiesForConnection
            { funcCode := E.kiSCSIDCreateCFPropertiesForConnection, errorCode := 0,
              dataLength := dataLength32 d }] ∧
        bytesWritten (callsMade s (iSCSIDCreateCFPropertiesForConnection E fd cmd s).2)
          = (dataLength32 d : Int) ∧
        dataLength32 d = CFDataGetLength d) ∧
      (connectionPropsData E fd cmd s = none →
        rspsSent (callsMade s (iSCSIDCreateCFPropertiesForConnection E fd cmd s).2)
          = [Rsp.createCFPropertiesForConnection
            { funcCode := E.kiSCSIDCreateCFPropertiesForConnection, errorCode := 0,
              dataLength := 0 }] ∧
        dataSent (callsMade s (iSCSIDCreateCFPropertiesForConnection E fd cmd s).2) = [] ∧
        bytesWritten (callsMade s (iSCSIDCreateCFPropertiesForConnection E fd cmd s).2) = 0)) := by
  refine ⟨activeTargets_lengths E fd cmd s, activePortals_lengths E fd cmd s, ?_, ?_, ?_⟩
  · intro hret
    refine ⟨fun d hd => ?_, fun hd => discovery_absent E fd cmd s hd hret⟩
    have hsmall := discovery_blob_small E fd cmd s d hsend hd hret
    have hmod : dataLength32 d = CFDataGetLength d := Nat.mod_eq_of_lt hsmall
    obtain ⟨h1, h2⟩ := discovery_payload E fd cmd s d hd hret
    refine ⟨h1, ?_, hmod⟩
    rw [h2, hmod]
  · intro hret
    refine ⟨fun d hd => ?_, fun hd => sessionProps_absent E fd cmd s hd hret⟩
    have hsmall := sessionProps_blob_small E fd cmd s d hsend hd hret
    have hmod : dataLength32 d = CFDataGetLength d := Nat.mod_eq_of_lt hsmall
    obtain ⟨h1, _, h2⟩ := sessionProps_payload E fd cmd s d
      (sessionProps_target E fd cmd s hret) hd hret
    refine ⟨h1, ?_, hmod⟩
    rw [h2, hmod]
  · intro hret
    refine ⟨fun d hd => ?_, fun hd => connectionProps_absent E fd cmd s hd hret⟩
    have hsmall := connectionProps_blob_small E fd cmd s d hsend hd hret
    have hmod : dataLength32 d = CFDataGetLength d := Nat.mod_eq_of_lt hsmall
    obtain ⟨h1, h2⟩ := connectionProps_payload E fd cmd s d hd hret
    refine ⟨h1, ?_, hmod⟩
    rw [h2, hmod]

/-- C11 at concrete requests on a socket whose `send` transfers at most
`0x7ffff000` bytes.  Session properties of `tgtA` with a session
(`MaxConnections = 3`): the handler returns 0, the blob has one byte, the
header declares 1 and 1 payload byte is written.  Without a session the blob
is absent: the handler returns 0, the header declares 0 and no payload is
sent. -/
theorem C11_declared_length_is_payload_length_witness :
    (iSCSIDCreateCFPropertiesForSession refEnvBounded 3 (cmdTarget 8)
      (withPending (state1 3) (bytesOf "iqn.A"))).1 = 0 ∧
    sessionPropsData refEnvBounded 3 (cmdTarget 8)
      (withPending (state1 3) (bytesOf "iqn.A")) = some ⟨[3]⟩ ∧
    rspsSent (callsMade (withPending (state1 3) (bytesOf "iqn.A"))
      (iSCSIDCreateCFPropertiesForSession refEnvBounded 3 (cmdTarget 8)
        (withPending (state1 3) (bytesOf "iqn.A"))).2)
      = [Rsp.createCFPropertiesForSession { funcCode := 8, errorCode := 0, dataLength := 1 }] ∧
    bytesWritten (callsMade (withPending (state1 3) (bytesOf "iqn.A"))
      (iSCSIDCreateCFPropertiesForSession refEnvBounded 3 (cmdTarget 8)
        (withPending (state1 3) (bytesOf "iqn.A"))).2) = 1 ∧
    (iSCSIDCreateCFPropertiesForSession refEnvBounded 3 (cmdTarget 8)
      (withPending (state0 3) (bytesOf "iqn.A"))).1 = 0 ∧
    sessionPropsData refEnvBounded 3 (cmdTarget 8)
      (withPending (state0 3) (bytesOf "iqn.A")) = none ∧
    rspsSent (callsMade (withPending (state0 3) (bytesOf "iqn.A"))
      (iSCSIDCreateCFPropertiesForSession refEnvBounded 3 (cmdTarget 8)
        (withPending (state0 3) (bytesOf "iqn.A"))).2)
      = [Rsp.createCFPropertiesForSession { funcCode := 8, errorCode := 0, dataLength := 0 }] ∧
    dataSent (callsMade (withPending (state0 3) (bytesOf "iqn.A"))
      (iSCSIDCreateCFPropertiesForSession refEnvBounded 3 (cmdTarget 8)
        (withPending (state0 3) (bytesOf "iqn.A"))).2) = [] := by
  have hsend : ∀ (c : RefChan) (fd' : Int) (msg : Msg) (n : Nat),
      (refEnvBounded.send c fd' msg n).1 < 2 ^ 32 := by
    intro c fd' msg n
    show ((min n 2147479552 : Nat) : Int) < 2 ^ 32
    have hle : min n 2147479552 ≤ 2147479552 := Nat.min_le_right n 2147479552
    omega
  have h1 := (C11_declared_length_is_payload_length refEnvBounded 3 (cmdTarget 8)
    (withPending (state1 3) (bytesOf "iqn.A")) hsend).2.2.2.1 (by decide)
  have h0 := (C11_declared_length_is_payload_length refEnvBounded 3 (cmdTarget 8)
    (withPending (state0 3) (bytesOf "iqn.A")) hsend).2.2.2.1 (by decide)
  have ha := h1.1 ⟨[3]⟩ (by decide)
  have hb := h0.2 (by decide)
  exact ⟨by decide, by decide, ha.1, ha.2.1, by decide, by decide, hb.1, hb.2.1⟩

/-! ## Short writes and the kernel state -/

/-- `iSCSIDLoginWithPortal` either appends negotiator login calls to the trace
or leaves the state as it was. -/
theorem loginWithPortal_calls (E : Env κ π χ) (target : iSCSITargetRef)
    (portal : iSCSIPortalRef) (s : State κ π χ) :
    ∃ evs : List Event, (iSCSIDLoginWithPortal E target portal s).2.trace = s.trace ++ evs ∧
      (∀ e ∈ evs, e.isLogin = true) ∧
      (evs = [] → (iSCSIDLoginWithPortal E target portal s).2 = s) := by
  have hcommon : ∀ sid, ∃ evs : List Event,
      (iSCSIDLoginCommon E sid target portal s).2.trace = s.trace ++ evs ∧
      (∀ e ∈ evs, e.isLogin = true) ∧
      (evs = [] → (iSCSIDLoginCommon E sid target portal s).2 = s) := by
    intro sid
    obtain ⟨e, htr, hlog, _⟩ := loginCommon_trace E sid target portal s
    exact ⟨[e], htr, fun x hx => by rw [List.mem_singleton.mp hx]; exact hlog, by simp⟩
  have hnone : ∃ evs : List Event, s.trace = s.trace ++ evs ∧ (∀ e ∈ evs, e.isLogin = true) ∧
      (evs = [] → s = s) :=
    ⟨[], by simp, by simp, fun _ => rfl⟩
  unfold iSCSIDLoginWithPortal
  simp only []
  split
  · split
    · exact hnone
    · split
      · split
        · split
          · exact hnone
          · exact hcommon _
        · exact hnone
      · exact hnone
  · exact hcommon _

/-- `iSCSIDLoginAllPortals` either appends negotiator login calls to the trace
or leaves the state as it was. -/
theorem loginAllPortals_calls (E : Env κ π χ) (target : iSCSITargetRef) (s : State κ π χ) :
    ∃ evs : List Event, (iSCSIDLoginAllPortals E target s).2.trace = s.trace ++ evs ∧
      (∀ e ∈ evs, e.isLogin = true) ∧
      (evs = [] → (iSCSIDLoginAllPortals E target s).2 = s) := by
  obtain ⟨evs, h1, h2, _, h4⟩ := loop_trace E target (E.iSCSITargetGetIQN target)
    (E.iSCSIPLCreateArrayOfPortals s.plist (E.iSCSITargetGetIQN target))
    ((E.iSCSIPLCreateArrayOfPortals s.plist (E.iSCSITargetGetIQN target)).length + 1)
    (iSCSIDLoginAllPortals_init E target s)
  refine ⟨evs, h1, fun e he => (h2 e he).1, ?_⟩
  intro he
  unfold iSCSIDLoginAllPortals
  simp only []
  rw [h4 he]
  rfl

/-- The login step appends negotiator login calls to the trace or leaves the
state as it was. -/
theorem loginStep_calls (E : Env κ π χ) (target : iSCSITargetRef) (portal : iSCSIPortalRef)
    (s : State κ π χ) :
    ∃ evs : List Event, (loginStep E target portal s).2.trace = s.trace ++ evs ∧
      (∀ e ∈ evs, e.isLogin = true) ∧
      (evs = [] → (loginStep E target portal s).2 = s) := by
  unfold loginStep
  split
  · exact loginWithPortal_calls E target portal s
  · exact loginAllPortals_calls E target s

/-- The run of `iSCSIDLogin`: two reads, the property-list synchronization,
then, when a target was read, the login step and one response header. -/
theorem login_run (E : Env κ π χ) (fd : Int) (cmd : iSCSIDCmd) (s : State κ π χ) :
    (requestTarget E fd cmd s = none →
      (iSCSIDLogin E fd cmd s).2.kernel = s.kernel ∧
      (iSCSIDLogin E fd cmd s).2.trace
        = (iSCSIPLSynchronize E (afterTargetPortal E fd cmd s)).trace) ∧
    (requestTarget E fd cmd s ≠ none →
      (iSCSIDLogin E fd cmd s).2.kernel
        = (loginStep E (requestTarget E fd cmd s) (requestPortal E fd cmd s)
            (iSCSIPLSynchronize E (afterTargetPortal E fd cmd s))).2.kernel ∧
      ∃ ev : Event, ev.isNegotiator = false ∧ ev.isTeardown = false ∧
        (iSCSIDLogin E fd cmd s).2.trace
          = (loginStep E (requestTarget E fd cmd s) (requestPortal E fd cmd s)
              (iSCSIPLSynchronize E (afterTargetPortal E fd cmd s))).2.trace ++ [ev]) := by
  constructor
  · intro hn
    unfold requestTarget at hn
    unfold iSCSIDLogin afterTargetPortal
    simp [hn]
  · intro hn
    unfold requestTarget at hn
    have hs : (iSCSIDCreateObjectFromSocket E fd cmd.targetLength
        E.iSCSITargetCreateWithData s).1.isSome = true := Option.isSome_iff_ne_none.mpr hn
    unfold iSCSIDLogin loginStep requestTarget requestPortal afterTargetPortal
    simp only [hs, Bool.true_and, if_true]
    split
    · simp only [ite_pair_snd, sendRspShort_kernel, sendRspShort_trace, true_and]
      exact ⟨_, isNegotiator_sendRspEvent _ _ _ _, rfl, rfl⟩
    · simp only [ite_pair_snd, sendRspShort_kernel, sendRspShort_trace, true_and]
      exact ⟨_, isNegotiator_sendRspEvent _ _ _ _, rfl, rfl⟩

theorem isNegotiator_of_isLogin (e : Event) (h : e.isLogin = true) : e.isNegotiator = true := by
  cases e <;> simp_all [Event.isLogin, Event.isNegotiator]

@[simp] theorem ite_snd_same {α β : Type} (c : Prop) [Decidable c] (a b : α) (x : β) :
    (if c then (a, x) else (b, x)).2 = x := by
  split <;> rfl

/-- The handlers that never call the negotiator leave the kernel state as it
was, whatever the socket does. -/
theorem query_handlers_kernel (E : Env κ π χ) (fd : Int) (cmd : iSCSIDCmd) (s : State κ π χ) :
    (iSCSIDCreateArrayOfActiveTargets E fd cmd s).2.kernel = s.kernel ∧
    (iSCSIDCreateArrayofActivePortalsForTarget E fd cmd s).2.kernel = s.kernel ∧
    (iSCSIDIsTargetActive E fd cmd s).2.kernel = s.kernel ∧
    (iSCSIDIsPortalActive E fd cmd s).2.kernel = s.kernel ∧
    (iSCSIDCreateCFPropertiesForSession E fd cmd s).2.kernel = s.kernel ∧
    (iSCSIDCreateCFPropertiesForConnection E fd cmd s).2.kernel = s.kernel := by
  have h1 : (iSCSIDCreateArrayOfActiveTargets E fd cmd s).2.kernel = s.kernel := by
    unfold iSCSIDCreateArrayOfActiveTargets
    simp only []
    split <;> (try split) <;> (try split) <;> simp
  refine ⟨h1, h1, (isTargetActive_calls E fd cmd s).1, (isPortalActive_calls E fd cmd s).1,
    ?_, ?_⟩
  · unfold iSCSIDCreateCFPropertiesForSession
    simp only []
    split <;> (try split) <;> (try split) <;> (try split) <;> simp
  · unfold iSCSIDCreateCFPropertiesForConnection
    simp only []
    split <;> (try split) <;> (try split) <;> (try split) <;> simp

/-- The kernel state after `iSCSIDLogout` is the one its precondition checks
and logout call left, whatever the `send` of the response does. -/
theorem logout_kernel (E : Env κ π χ) (fd : Int) (cmd : iSCSIDCmd) (s : State κ π χ) :
    (iSCSIDLogout E fd cmd s).2.kernel
      = (iSCSIDLogout_core E (requestTarget E fd cmd s) (requestPortal E fd cmd s)
          (iSCSIPLSynchronize E (afterTargetPortal E fd cmd s))).2.kernel := by
  unfold iSCSIDLogout requestTarget requestPortal afterTargetPortal
  simp

/-- The kernel state after the discovery and authentication-method queries is
the one the negotiator's query left, whatever the sends do. -/
theorem negotiator_queries_kernel (E : Env κ π χ) (fd : Int) (cmd : iSCSIDCmd)
    (s : State κ π χ) :
    (iSCSIDQueryPortalForTargets E fd cmd s).2.kernel = (discoveryResult E fd cmd s).kernel ∧
    (iSCSIDQueryTargetForAuthMethod E fd cmd s).2.kernel
      = (E.iSCSIQueryTargetForAuthMethod s.kernel (requestPortal E fd cmd s)
          (E.iSCSITargetGetIQN (requestTarget E fd cmd s))).kernel := by
  constructor
  · unfold iSCSIDQueryPortalForTargets discoveryResult
    simp only []
    split <;> (try split) <;> (try split) <;> simp
  · unfold iSCSIDQueryTargetForAuthMethod requestPortal requestTarget
    simp

/-- `iSCSIDLogin` without a negotiator call leaves the kernel state as it was. -/
theorem login_no_call_kernel (E : Env κ π χ) (fd : Int) (cmd : iSCSIDCmd) (s : State κ π χ)
    (hno : ∀ e ∈ callsMade s (iSCSIDLogin E fd cmd s).2, e.isNegotiator = false) :
    (iSCSIDLogin E fd cmd s).2.kernel = s.kernel := by
  obtain ⟨hnone, hsome⟩ := login_run E fd cmd s
  by_cases ht : requestTarget E fd cmd s = none
  · exact (hnone ht).1
  · obtain ⟨hk, ev, _, _, htr⟩ := hsome ht
    obtain ⟨evs, h1, h2, h3⟩ := loginStep_calls E (requestTarget E fd cmd s)
      (requestPortal E fd cmd s) (iSCSIPLSynchronize E (afterTargetPortal E fd cmd s))
    have hpre : (iSCSIPLSynchronize E (afterTargetPortal E fd cmd s)).trace
        = s.trace ++ [recvEvent E fd cmd.targetLength s,
            recvEvent E fd cmd.portalLength (afterTarget E fd cmd s)] := by
      unfold afterTargetPortal afterTarget
      simp
    have hcm : callsMade s (iSCSIDLogin E fd cmd s).2
        = [recvEvent E fd cmd.targetLength s,
            recvEvent E fd cmd.portalLength (afterTarget E fd cmd s)] ++ evs ++ [ev] := by
      apply callsMade_of_append
      rw [htr, h1, hpre]
      simp
    have hnil : evs = [] := by
      cases evs with
      | nil => rfl
      | cons x xs =>
        exfalso
        have hx : x ∈ callsMade s (iSCSIDLogin E fd cmd s).2 := by
          rw [hcm]; simp
        have := hno x hx
        rw [isNegotiator_of_isLogin x (h2 x (List.mem_cons_self _ _))] at this
        exact Bool.noConfusion this
    rw [hk, h3 hnil]
    unfold afterTargetPortal
    simp

/-- `iSCSIDLogout` without a negotiator call leaves the kernel state as it
was. -/
theorem logout_no_call_kernel (E : Env κ π χ) (fd : Int) (cmd : iSCSIDCmd) (s : State κ π χ)
    (hno : ∀ e ∈ callsMade s (iSCSIDLogout E fd cmd s).2, e.isNegotiator = false) :
    (iSCSIDLogout E fd cmd s).2.kernel = s.kernel := by
  obtain ⟨n1, n2, n3, sz, hfail, hsess, hconn⟩ := logout_calls E fd cmd s
  by_cases hs : E.iSCSIGetSessionIdForTarget s.kernel
      (E.iSCSITargetGetIQN (requestTarget E fd cmd s)) = E.kiSCSIInvalidSessionId
  · exact (hfail (Or.inl hs)).1
  · by_cases hp : requestPortal E fd cmd s = none
    · exfalso
      have hmem : Event.logoutSession
          (E.iSCSIGetSessionIdForTarget s.kernel
            (E.iSCSITargetGetIQN (requestTarget E fd cmd s)))
          (E.iSCSILogoutSession s.kernel (E.iSCSIGetSessionIdForTarget s.kernel
            (E.iSCSITargetGetIQN (requestTarget E fd cmd s)))).error
          (E.iSCSILogoutSession s.kernel (E.iSCSIGetSessionIdForTarget s.kernel
            (E.iSCSITargetGetIQN (requestTarget E fd cmd s)))).statusCode
          ∈ callsMade s (iSCSIDLogout E fd cmd s).2 := by
        rw [hsess hs hp]; simp
      exact Bool.noConfusion (hno _ hmem)
    · by_cases hc : E.iSCSIGetConnectionIdForPortal s.kernel
          (E.iSCSIGetSessionIdForTarget s.kernel
            (E.iSCSITargetGetIQN (requestTarget E fd cmd s)))
          (requestPortal E fd cmd s) = E.kiSCSIInvalidConnectionId
      · exact (hfail (Or.inr ⟨hp, hc⟩)).1
      · exfalso
        have hmem : Event.logoutConnection
            (E.iSCSIGetSessionIdForTarget s.kernel
              (E.iSCSITargetGetIQN (requestTarget E fd cmd s)))
            (E.iSCSIGetConnectionIdForPortal s.kernel
              (E.iSCSIGetSessionIdForTarget s.kernel
                (E.iSCSITargetGetIQN (requestTarget E fd cmd s)))
              (requestPortal E fd cmd s))
            (E.iSCSILogoutConnection s.kernel
              (E.iSCSIGetSessionIdForTarget s.kernel
                (E.iSCSITargetGetIQN (requestTarget E fd cmd s)))
              (E.iSCSIGetConnectionIdForPortal s.kernel
                (E.iSCSIGetSessionIdForTarget s.kernel
                  (E.iSCSITargetGetIQN (requestTarget E fd cmd s)))
                (requestPortal E fd cmd s))).error
            (E.iSCSILogoutConnection s.kernel
              (E.iSCSIGetSessionIdForTarget s.kernel
                (E.iSCSITargetGetIQN (requestTarget E fd cmd s)))
              (E.iSCSIGetConnectionIdForPortal s.kernel
                (E.iSCSIGetSessionIdForTarget s.kernel
                  (E.iSCSITargetGetIQN (requestTarget E fd cmd s)))
                (requestPortal E fd cmd s))).statusCode
            ∈ callsMade s (iSCSIDLogout E fd cmd s).2 := by
          rw [hconn hs hp hc]; simp
        exact Bool.noConfusion (hno _ hmem)

/-- C12 as stated fails for a login request for `tgtA` over `portal1` on a
socket whose `send` transfers nothing: `iSCSIDLogin` returns `EAGAIN`, and the
kernel holds a session that did not exist before the request. -/
theorem C12_short_write_state_counterexample :
    ¬ ((iSCSIDLogin refEnvShortWrite 3 (cmdTargetPortal 0)
          (withPending (state0 3) (bytesOf "iqn.A" ++ bytesOf "10.0.0.1"))).1 = EAGAIN →
        (iSCSIDLogin refEnvShortWrite 3 (cmdTargetPortal 0)
          (withPending (state0 3) (bytesOf "iqn.A" ++ bytesOf "10.0.0.1"))).2.kernel
          = (withPending (state0 3) (bytesOf "iqn.A" ++ bytesOf "10.0.0.1")).kernel) := by
  decide

/-- C12 (amended): whatever the sends on the control socket transfer, and so
in particular when a handler returns `EAGAIN` after a short write, the kernel
state after the handler is the state the negotiator calls of that request
left.  For the six handlers that never call the negotiator it is the state
before the request.  For `iSCSIDLogin` it is the state after the login step
(the state before the request when no target was read), for `iSCSIDLogout` the
state after the precondition checks and the logout call, for the two query
handlers the state the negotiator's query returned; for login and logout it
is the state before the request whenever the request led to no negotiator
call. -/
theorem C12_short_write_state (E : Env κ π χ) (fd : Int) (cmd : iSCSIDCmd)
    (s : State κ π χ) :
    ((iSCSIDCreateArrayOfActiveTargets E fd cmd s).2.kernel = s.kernel ∧
      (iSCSIDCreateArrayofActivePortalsForTarget E fd cmd s).2.kernel = s.kernel ∧
      (iSCSIDIsTargetActive E fd cmd s).2.kernel = s.kernel ∧
      (iSCSIDIsPortalActive E fd cmd s).2.kernel = s.kernel ∧
      (iSCSIDCreateCFPropertiesForSession E fd cmd s).2.kernel = s.kernel ∧
      (iSCSIDCreateCFPropertiesForConnection E fd cmd s).2.kernel = s.kernel) ∧
    (requestTarget E fd cmd s = none → (iSCSIDLogin E fd cmd s).2.kernel = s.kernel) ∧
    (requestTarget E fd cmd s ≠ none →
      (iSCSIDLogin E fd cmd s).2.kernel
        = (loginStep E (requestTarget E fd cmd s) (requestPortal E fd cmd s)
            (iSCSIPLSynchronize E (afterTargetPortal E fd cmd s))).2.kernel) ∧
    ((∀ e ∈ callsMade s (iSCSIDLogin E fd cmd s).2, e.isNegotiator = false) →
      (iSCSIDLogin E fd cmd s).2.kernel = s.kernel) ∧
    (iSCSIDLogout E fd cmd s).2.kernel
      = (iSCSIDLogout_core E (requestTarget E fd cmd s) (requestPortal E fd cmd s)
          (iSCSIPLSynchronize E (afterTargetPortal E fd cmd s))).2.kernel ∧
    ((∀ e ∈ callsMade s (iSCSIDLogout E fd cmd s).2, e.isNegotiator = false) →
      (iSCSIDLogout E fd cmd s).2.kernel = s.kernel) ∧
    (iSCSIDQueryPortalForTargets E fd cmd s).2.kernel = (discoveryResult E fd cmd s).kernel ∧
    (iSCSIDQueryTargetForAuthMethod E fd cmd s).2.kernel
      = (E.iSCSIQueryTargetForAuthMethod s.kernel (requestPortal E fd cmd s)
          (E.iSCSITargetGetIQN (requestTarget E fd cmd s))).kernel :=
  ⟨query_handlers_kernel E fd cmd s,
   fun h => ((login_run E fd cmd s).1 h).1,
   fun h => ((login_run E fd cmd s).2 h).1,
   login_no_call_kernel E fd cmd s,
   logout_kernel E fd cmd s,
   logout_no_call_kernel E fd cmd s,
   (negotiator_queries_kernel E fd cmd s).1,
   (negotiator_queries_kernel E fd cmd s).2⟩

/-- C12 (amended) at concrete inputs, on a socket whose `send` transfers
nothing.  A login request for `portal1` of `tgtA`, which already has a
connection over `portal1`, returns `EAGAIN` with the kernel state unchanged;
so does an is-target-active request. -/
theorem C12_short_write_state_witness :
    ((iSCSIDLogin refEnvShortWrite 3 (cmdTargetPortal 0)
        (withPending (state1 3) (bytesOf "iqn.A" ++ bytesOf "10.0.0.1"))).1 = EAGAIN ∧
      (iSCSIDLogin refEnvShortWrite 3 (cmdTargetPortal 0)
        (withPending (state1 3) (bytesOf "iqn.A" ++ bytesOf "10.0.0.1"))).2.kernel
        = (state1 3).kernel) ∧
    ((iSCSIDIsTargetActive refEnvShortWrite 3 (cmdTarget 4)
        (withPending (state1 3) (bytesOf "iqn.A"))).1 = EAGAIN ∧
      (iSCSIDIsTargetActive refEnvShortWrite 3 (cmdTarget 4)
        (withPending (state1 3) (bytesOf "iqn.A"))).2.kernel = (state1 3).kernel) :=
  ⟨⟨by decide,
    (C12_short_write_state refEnvShortWrite 3 (cmdTargetPortal 0)
      (withPending (state1 3) (bytesOf "iqn.A" ++ bytesOf "10.0.0.1"))).2.2.2.1 (by decide)⟩,
   ⟨by decide,
    (C12_short_write_state refEnvShortWrite 3 (cmdTarget 4)
      (withPending (state1 3) (bytesOf "iqn.A"))).1.2.2.1⟩⟩

/-! ## Dispatch -/

theorem not_teardown_of_isLogin (e : Event) (h : e.isLogin = true) : e.isTeardown = false := by
  cases e <;> simp_all [Event.isLogin, Event.isTeardown]

@[simp] theorem isTeardown_sendRspEvent (E : Env κ π χ) (fd : Int) (rsp : Rsp)
    (s : State κ π χ) : (sendRspEvent E fd rsp s).isTeardown = false := rfl

@[simp] theorem isTeardown_recvEvent (E : Env κ π χ) (fd : Int) (n : Nat)
    (s : State κ π χ) : (recvEvent E fd n s).isTeardown = false := rfl

@[simp] theorem isTeardown_send (fd : Int) (msg : Msg) (n : Nat) (c : Int) :
    (Event.send fd msg n c).isTeardown = false := rfl

@[simp] theorem isTeardown_recv (fd : Int) (n : Nat) (c : Int) :
    (Event.recv fd n c).isTeardown = false := rfl

@[simp] theorem isTeardown_queryPortal (p : iSCSIPortalRef) (a : iSCSIAuthRef) (e : errno_t)
    (c : Nat) : (Event.queryPortalForTargets p a e c).isTeardown = false := rfl

@[simp] theorem isTeardown_queryAuth (p : iSCSIPortalRef) (q : CFStringRef) (e : errno_t)
    (c : Nat) : (Event.queryTargetForAuthMethod p q e c).isTeardown = false := rfl

@[simp] theorem isTeardown_logoutSession (sid : SID) (e : errno_t) (c : Nat) :
    (Event.logoutSession sid e c).isTeardown = false := rfl

@[simp] theorem isTeardown_logoutConnection (sid : SID) (cid : CID) (e : errno_t) (c : Nat) :
    (Event.logoutConnection sid cid e c).isTeardown = false := rfl

/-- No handler tears the channel down: none of the calls of any of the ten
handlers is `iSCSICleanup` or `close`. -/
theorem handlers_no_teardown (E : Env κ π χ) (fd : Int) (cmd : iSCSIDCmd) (s : State κ π χ) :
    (∀ e ∈ callsMade s (iSCSIDLogin E fd cmd s).2, e.isTeardown = false) ∧
    (∀ e ∈ callsMade s (iSCSIDLogout E fd cmd s).2, e.isTeardown = false) ∧
    (∀ e ∈ callsMade s (iSCSIDCreateArrayOfActiveTargets E fd cmd s).2, e.isTeardown = false) ∧
    (∀ e ∈ callsMade s (iSCSIDCreateArrayofActivePortalsForTarget E fd cmd s).2,
      e.isTeardown = false) ∧
    (∀ e ∈ callsMade s (iSCSIDIsTargetActive E fd cmd s).2, e.isTeardown = false) ∧
    (∀ e ∈ callsMade s (iSCSIDIsPortalActive E fd cmd s).2, e.isTeardown = false) ∧
    (∀ e ∈ callsMade s (iSCSIDQueryPortalForTargets E fd cmd s).2, e.isTeardown = false) ∧
    (∀ e ∈ callsMade s (iSCSIDQueryTargetForAuthMethod E fd cmd s).2, e.isTeardown = false) ∧
    (∀ e ∈ callsMade s (iSCSIDCreateCFPropertiesForSession E fd cmd s).2,
      e.isTeardown = false) ∧
    (∀ e ∈ callsMade s (iSCSIDCreateCFPropertiesForConnection E fd cmd s).2,
      e.isTeardown = false) := by
  have htargets : ∀ e ∈ callsMade s (iSCSIDCreateArrayOfActiveTargets E fd cmd s).2,
      e.isTeardown = false := by
    unfold iSCSIDCreateArrayOfActiveTargets callsMade
    simp only []
    split <;> (try split) <;> (try split) <;> simp
  refine ⟨?_, ?_, htargets, htargets, ?_, ?_, ?_, ?_, ?_, ?_⟩
  · -- login
    obtain ⟨hnone, hsome⟩ := login_run E fd cmd s
    have hpre : (iSCSIPLSynchronize E (afterTargetPortal E fd cmd s)).trace
        = s.trace ++ [recvEvent E fd cmd.targetLength s,
            recvEvent E fd cmd.portalLength (afterTarget E fd cmd s)] := by
      unfold afterTargetPortal afterTarget
      simp
    by_cases ht : requestTarget E fd cmd s = none
    · have hcm := callsMade_of_append s _ _ (((hnone ht).2).trans hpre)
      rw [hcm]
      simp
    · obtain ⟨_, ev, _, hev, htr⟩ := hsome ht
      obtain ⟨evs, h1, h2, _⟩ := loginStep_calls E (requestTarget E fd cmd s)
        (requestPortal E fd cmd s) (iSCSIPLSynchronize E (afterTargetPortal E fd cmd s))
      have hcm : callsMade s (iSCSIDLogin E fd cmd s).2
          = [recvEvent E fd cmd.targetLength s,
              recvEvent E fd cmd.portalLength (afterTarget E fd cmd s)] ++ evs ++ [ev] := by
        apply callsMade_of_append
        rw [htr, h1, hpre]
        simp
      rw [hcm]
      intro e he
      simp only [List.append_assoc, List.cons_append, List.nil_append, List.mem_cons,
        List.mem_append, List.mem_singleton, List.not_mem_nil, or_false] at he
      rcases he with rfl | rfl | he | rfl
      · rfl
      · rfl
      · exact not_teardown_of_isLogin e (h2 e he)
      · exact hev
  · -- logout
    obtain ⟨n1, n2, n3, sz, hfail, hsess, hconn⟩ := logout_calls E fd cmd s
    by_cases hs : E.iSCSIGetSessionIdForTarget s.kernel
        (E.iSCSITargetGetIQN (requestTarget E fd cmd s)) = E.kiSCSIInvalidSessionId
    · rw [(hfail (Or.inl hs)).2]; simp
    · by_cases hp : requestPortal E fd cmd s = none
      · rw [hsess hs hp]; simp
      · by_cases hc : E.iSCSIGetConnectionIdForPortal s.kernel
            (E.iSCSIGetSessionIdForTarget s.kernel
              (E.iSCSITargetGetIQN (requestTarget E fd cmd s)))
            (requestPortal E fd cmd s) = E.kiSCSIInvalidConnectionId
        · rw [(hfail (Or.inr ⟨hp, hc⟩)).2]; simp
        · rw [hconn hs hp hc]; simp
  · rw [(isTargetActive_calls E fd cmd s).2]; simp
  · rw [(isPortalActive_calls E fd cmd s).2]; simp
  · unfold iSCSIDQueryPortalForTargets callsMade
    simp only []
    split <;> (try split) <;> (try split) <;> simp
  · unfold iSCSIDQueryTargetForAuthMethod callsMade
    simp
  · unfold iSCSIDCreateCFPropertiesForSession callsMade
    simp only []
    split <;> (try split) <;> (try split) <;> (try split) <;> simp
  · unfold iSCSIDCreateCFPropertiesForConnection callsMade
    simp only []
    split <;> (try split) <;> (try split) <;> (try split) <;> simp

/-- With pairwise distinct case labels, the switch runs the handler written
under the label that equals the function code, and leaves the descriptor as
it was. -/
theorem switch_routing (E : Env κ π χ) (fd : Int) (cmd : iSCSIDCmd) (s : State κ π χ)
    (hnd : (caseLabels E).Nodup) :
    (cmd.funcCode = E.kiSCSIDLogin →
      iSCSIDProcessIncomingRequest_switch E fd cmd s = (fd, (iSCSIDLogin E fd cmd s).2)) ∧
    (cmd.funcCode = E.kiSCSIDLogout →
      iSCSIDProcessIncomingRequest_switch E fd cmd s = (fd, (iSCSIDLogout E fd cmd s).2)) ∧
    (cmd.funcCode = E.kiSCSIDCreateArrayOfActiveTargets →
      iSCSIDProcessIncomingRequest_switch E fd cmd s
        = (fd, (iSCSIDCreateArrayOfActiveTargets E fd cmd s).2)) ∧
    (cmd.funcCode = E.kiSCSIDCreateArrayOfActivePortalsForTarget →
      iSCSIDProcessIncomingRequest_switch E fd cmd s
        = (fd, (iSCSIDCreateArrayofActivePortalsForTarget E fd cmd s).2)) ∧
    (cmd.funcCode = E.kiSCSIDIsTargetActive →
      iSCSIDProcessIncomingRequest_switch E fd cmd s
        = (fd, (iSCSIDIsTargetActive E fd cmd s).2)) ∧
    (cmd.funcCode = E.kiSCSIDIsPortalActive →
      iSCSIDProcessIncomingRequest_switch E fd cmd s
        = (fd, (iSCSIDIsPortalActive E fd cmd s).2)) ∧
    (cmd.funcCode = E.kiSCSIDQueryPortalForTargets →
      iSCSIDProcessIncomingRequest_switch E fd cmd s
        = (fd, (iSCSIDQueryPortalForTargets E fd cmd s).2)) ∧
    (cmd.funcCode = E.kiSCSIDQueryTargetForAuthMethod →
      iSCSIDProcessIncomingRequest_switch E fd cmd s
        = (fd, (iSCSIDQueryTargetForAuthMethod E fd cmd s).2)) ∧
    (cmd.funcCode = E.kiSCSIDCreateCFPropertiesForSession →
      iSCSIDProcessIncomingRequest_switch E fd cmd s
        = (fd, (iSCSIDCreateCFPropertiesForSession E fd cmd s).2)) ∧
    (cmd.funcCode = E.kiSCSIDCreateCFPropertiesForConnection →
      iSCSIDProcessIncomingRequest_switch E fd cmd s
        = (fd, (iSCSIDCreateCFPropertiesForConnection E fd cmd s).2)) := by
  simp only [caseLabels, List.nodup_cons, List.mem_cons, List.mem_singleton, not_or,
    List.not_mem_nil, not_false_eq_true, List.nodup_nil, and_true] at hnd
  obtain ⟨⟨h01, h02, h03, h04, h05, h06, h07, h08, h09⟩,
    ⟨h12, h13, h14, h15, h16, h17, h18, h19⟩, ⟨h23, h24, h25, h26, h27, h28, h29⟩,
    ⟨h34, h35, h36, h37, h38, h39⟩, ⟨h45, h46, h47, h48, h49⟩, ⟨h56, h57, h58, h59⟩,
    ⟨h67, h68, h69⟩, ⟨h78, h79⟩, h89⟩ := hnd
  unfold iSCSIDProcessIncomingRequest_switch
  refine ⟨?_, ?_, ?_, ?_, ?_, ?_, ?_, ?_, ?_, ?_⟩ <;> intro hc
  · simp only [hc, if_true]
  · simp only [hc, Ne.symm h01, if_false, if_true]
  · simp only [hc, Ne.symm h02, Ne.symm h12, if_false, if_true]
  · simp only [hc, Ne.symm h03, Ne.symm h13, Ne.symm h23, if_false, if_true]
  · simp only [hc, Ne.symm h04, Ne.symm h14, Ne.symm h24, Ne.symm h34, if_false, if_true]
  · simp only [hc, Ne.symm h05, Ne.symm h15, Ne.symm h25, Ne.symm h35, Ne.symm h45,
      if_false, if_true]
  · simp only [hc, Ne.symm h06, Ne.symm h16, Ne.symm h26, Ne.symm h36, Ne.symm h46,
      Ne.symm h56, if_false, if_true]
  · simp only [hc, Ne.symm h07, Ne.symm h17, Ne.symm h27, Ne.symm h37, Ne.symm h47,
      Ne.symm h57, Ne.symm h67, if_false, if_true]
  · simp only [hc, Ne.symm h08, Ne.symm h18, Ne.symm h28, Ne.symm h38, Ne.symm h48,
      Ne.symm h58, Ne.symm h68, Ne.symm h78, if_false, if_true]
  · simp only [hc, Ne.symm h09, Ne.symm h19, Ne.symm h29, Ne.symm h39, Ne.symm h49,
      Ne.symm h59, Ne.symm h69, Ne.symm h79, Ne.symm h89, if_false, if_true]

/-- C13: on a function code outside the ten case labels the switch of
`iSCSIDProcessIncomingRequest` runs no handler and hands nothing to `send`:
its only calls are `iSCSICleanup()` and `close(fd)`, and the stored descriptor
becomes 0, the value that stands for "not connected".  On each of the ten
labels (pairwise distinct, as case labels are) it runs exactly the handler
written under that label, keeps the descriptor, and makes no `iSCSICleanup` or
`close` call. -/
theorem C13_dispatch (E : Env κ π χ) (fd : Int) (cmd : iSCSIDCmd) (s : State κ π χ)
    (hnd : (caseLabels E).Nodup) :
    (cmd.funcCode ∉ caseLabels E →
      iSCSIDProcessIncomingRequest_switch E fd cmd s
        = (0, { s with kernel := E.iSCSICleanup s.kernel,
                       chan := E.close s.chan fd,
                       trace := s.trace ++ [Event.cleanup, Event.close fd] }) ∧
      callsMade s (iSCSIDProcessIncomingRequest_switch E fd cmd s).2
        = [Event.cleanup, Event.close fd] ∧
      rspsSent (callsMade s (iSCSIDProcessIncomingRequest_switch E fd cmd s).2) = [] ∧
      dataSent (callsMade s (iSCSIDProcessIncomingRequest_switch E fd cmd s).2) = []) ∧
    ((cmd.funcCode = E.kiSCSIDLogin →
        iSCSIDProcessIncomingRequest_switch E fd cmd s = (fd, (iSCSIDLogin E fd cmd s).2)) ∧
      (cmd.funcCode = E.kiSCSIDLogout →
        iSCSIDProcessIncomingRequest_switch E fd cmd s = (fd, (iSCSIDLogout E fd cmd s).2)) ∧
      (cmd.funcCode = E.kiSCSIDCreateArrayOfActiveTargets →
        iSCSIDProcessIncomingRequest_switch E fd cmd s
          = (fd, (iSCSIDCreateArrayOfActiveTargets E fd cmd s).2)) ∧
      (cmd.funcCode = E.kiSCSIDCreateArrayOfActivePortalsForTarget →
        iSCSIDProcessIncomingRequest_switch E fd cmd s
          = (fd, (iSCSIDCreateArrayofActivePortalsForTarget E fd cmd s).2)) ∧
      (cmd.funcCode = E.kiSCSIDIsTargetActive →
        iSCSIDProcessIncomingRequest_switch E fd cmd s
          = (fd, (iSCSIDIsTargetActive E fd cmd s).2)) ∧
      (cmd.funcCode = E.kiSCSIDIsPortalActive →
        iSCSIDProcessIncomingRequest_switch E fd cmd s
          = (fd, (iSCSIDIsPortalActive E fd cmd s).2)) ∧
      (cmd.funcCode = E.kiSCSIDQueryPortalForTargets →
        iSCSIDProcessIncomingRequest_switch E fd cmd s
          = (fd, (iSCSIDQueryPortalForTargets E fd cmd s).2)) ∧
      (cmd.funcCode = E.kiSCSIDQueryTargetForAuthMethod →
        iSCSIDProcessIncomingRequest_switch E fd cmd s
          = (fd, (iSCSIDQueryTargetForAuthMethod E fd cmd s).2)) ∧
      (cmd.funcCode = E.kiSCSIDCreateCFPropertiesForSession →
        iSCSIDProcessIncomingRequest_switch E fd cmd s
          = (fd, (iSCSIDCreateCFPropertiesForSession E fd cmd s).2)) ∧
      (cmd.funcCode = E.kiSCSIDCreateCFPropertiesForConnection →
        iSCSIDProcessIncomingRequest_switch E fd cmd s
          = (fd, (iSCSIDCreateCFPropertiesForConnection E fd cmd s).2))) ∧
    (cmd.funcCode ∈ caseLabels E →
      (iSCSIDProcessIncomingRequest_switch E fd cmd s).1 = fd ∧
      ∀ e ∈ callsMade s (iSCSIDProcessIncomingRequest_switch E fd cmd s).2,
        e.isTeardown = false) := by
  have hroute := switch_routing E fd cmd s hnd
  refine ⟨?_, hroute, ?_⟩
  · intro hout
    simp only [caseLabels, List.mem_cons, List.mem_singleton, List.not_mem_nil, or_false,
      not_or] at hout
    obtain ⟨g0, g1, g2, g3, g4, g5, g6, g7, g8, g9⟩ := hout
    have hsw : iSCSIDProcessIncomingRequest_switch E fd cmd s
        = (0, { s with kernel := E.iSCSICleanup s.kernel,
                       chan := E.close s.chan fd,
                       trace := s.trace ++ [Event.cleanup, Event.close fd] }) := by
      unfold iSCSIDProcessIncomingRequest_switch
      simp only [g0, g1, g2, g3, g4, g5, g6, g7, g8, g9, if_false]
    have hcm : callsMade s (iSCSIDProcessIncomingRequest_switch E fd cmd s).2
        = [Event.cleanup, Event.close fd] := by
      apply callsMade_of_append
      rw [hsw]
    refine ⟨hsw, hcm, ?_, ?_⟩
    · rw [hcm]; rfl
    · rw [hcm]; rfl
  · intro hin
    obtain ⟨t0, t1, t2, t3, t4, t5, t6, t7, t8, t9⟩ := handlers_no_teardown E fd cmd s
    obtain ⟨r0, r1, r2, r3, r4, r5, r6, r7, r8, r9⟩ := hroute
    simp only [caseLabels, List.mem_cons, List.mem_singleton, List.not_mem_nil, or_false] at hin
    rcases hin with h | h | h | h | h | h | h | h | h | h
    · rw [r0 h]; exact ⟨rfl, t0⟩
    · rw [r1 h]; exact ⟨rfl, t1⟩
    · rw [r2 h]; exact ⟨rfl, t2⟩
    · rw [r3 h]; exact ⟨rfl, t3⟩
    · rw [r4 h]; exact ⟨rfl, t4⟩
    · rw [r5 h]; exact ⟨rfl, t5⟩
    · rw [r6 h]; exact ⟨rfl, t6⟩
    · rw [r7 h]; exact ⟨rfl, t7⟩
    · rw [r8 h]; exact ⟨rfl, t8⟩
    · rw [r9 h]; exact ⟨rfl, t9⟩

/-- C13 at concrete inputs, with the function codes 0..9 and descriptor 3: a
header with function code 42 leads to `iSCSICleanup()` and `close(3)` only,
the sessions are gone and the stored descriptor is 0; a header with function
code 4 runs `iSCSIDIsTargetActive` and keeps descriptor 3. -/
theorem C13_dispatch_witness :
    (iSCSIDProcessIncomingRequest_switch refEnv 3 ⟨42, 0, 0, 0⟩ state3).1 = 0 ∧
    callsMade state3 (iSCSIDProcessIncomingRequest_switch refEnv 3 ⟨42, 0, 0, 0⟩ state3).2
      = [Event.cleanup, Event.close 3] ∧
    iSCSIDProcessIncomingRequest_switch refEnv 3 (cmdTarget 4)
        (withPending state3 (bytesOf "iqn.A"))
      = (3, (iSCSIDIsTargetActive refEnv 3 (cmdTarget 4)
          (withPending state3 (bytesOf "iqn.A"))).2) := by
  have h := (C13_dispatch refEnv 3 ⟨42, 0, 0, 0⟩ state3 (by decide)).1 (by decide)
  have g := (C13_dispatch refEnv 3 (cmdTarget 4) (withPending state3 (bytesOf "iqn.A"))
    (by decide)).2.1.2.2.2.2.1 rfl
  exact ⟨by rw [h.1], h.2.1, g⟩

/-! ## Invariants of the login requests -/

/-- The locals of `iSCSIDLoginAllPortals` at loop entry when the target has a
session whose properties and connection ids the directory supplies. -/
theorem init_session (E : Env κ π χ) (target : iSCSITargetRef) (s : State κ π χ)
    (props : SessionProperties) (conns : List CID)
    (hs : E.iSCSIGetSessionIdForTarget s.kernel (E.iSCSITargetGetIQN target)
      ≠ E.kiSCSIInvalidSessionId)
    (hp : E.iSCSICreateCFPropertiesForSession s.kernel target = some props)
    (hc : E.iSCSICreateArrayOfConnectionsIds s.kernel
      (E.iSCSIGetSessionIdForTarget s.kernel (E.iSCSITargetGetIQN target)) = some conns) :
    iSCSIDLoginAllPortals_init E target s =
      { activeConnections := conns.length, maxConnections := props.MaxConnections,
        portalIdx := 0,
        sessionId := E.iSCSIGetSessionIdForTarget s.kernel (E.iSCSITargetGetIQN target),
        errorCode := 0, statusCode := E.kiSCSILoginInvalidStatusCode, st := s } := by
  unfold iSCSIDLoginAllPortals_init
  simp [hs, hp, hc]

/-- C14, the code at the failing input: when the target has a session with
room for another connection, `iSCSIDLoginAllPortals` starts at the first
configured portal and issues a connection-level login for it, also when that
portal already has a connection in the session. -/
theorem C14_loginAllPortals_logs_in_again (E : Env κ π χ) (target : iSCSITargetRef)
    (s : State κ π χ) (props : SessionProperties) (conns : List CID) (a : String)
    (rest : List String)
    (hs : E.iSCSIGetSessionIdForTarget s.kernel (E.iSCSITargetGetIQN target)
      ≠ E.kiSCSIInvalidSessionId)
    (hp : E.iSCSICreateCFPropertiesForSession s.kernel target = some props)
    (hc : E.iSCSICreateArrayOfConnectionsIds s.kernel
      (E.iSCSIGetSessionIdForTarget s.kernel (E.iSCSITargetGetIQN target)) = some conns)
    (hroom : conns.length < props.MaxConnections)
    (hportals : configuredPortals E target s = a :: rest)
    (_hdup : E.iSCSIGetConnectionIdForPortal s.kernel
      (E.iSCSIGetSessionIdForTarget s.kernel (E.iSCSITargetGetIQN target))
      (portalAt E target s a) ≠ E.kiSCSIInvalidConnectionId) :
    ∃ (e : errno_t) (st : Nat),
      (callsMade s (iSCSIDLoginAllPortals E target s).2)[0]?
        = some (Event.loginConnection
            (E.iSCSIGetSessionIdForTarget s.kernel (E.iSCSITargetGetIQN target))
            (portalAt E target s a) e st) := by
  unfold configuredPortals at hportals
  obtain ⟨ev, htr, _, _, _, _, _, hform⟩ := loginCommon_trace E
    (E.iSCSIGetSessionIdForTarget s.kernel (E.iSCSITargetGetIQN target)) target
    (E.iSCSIPLCopyPortalForTarget s.plist (E.iSCSITargetGetIQN target) (some a)) s
  have hev : ev = Event.loginConnection
      (E.iSCSIGetSessionIdForTarget s.kernel (E.iSCSITargetGetIQN target))
      (portalAt E target s a) ev.error ev.statusCode := by
    rcases hform with ⟨_, h⟩ | ⟨h, _⟩
    · exact absurd h hs
    · exact h
  refine ⟨ev.error, ev.statusCode, ?_⟩
  rw [← hev]
  suffices h : ∃ evs, (iSCSIDLoginAllPortals E target s).2.trace = s.trace ++ ev :: evs by
    obtain ⟨evs, h⟩ := h
    rw [callsMade_of_append s _ _ h]
    simp
  unfold iSCSIDLoginAllPortals
  simp only []
  rw [init_session E target s props conns hs hp hc, hportals, iSCSIDLoginAllPortals_loop]
  simp only [hroom, if_true, List.get?_cons_zero]
  by_cases he : (iSCSIDLoginCommon E
      (E.iSCSIGetSessionIdForTarget s.kernel (E.iSCSITargetGetIQN target)) target
      (E.iSCSIPLCopyPortalForTarget s.plist (E.iSCSITargetGetIQN target) (some a)) s).1.1 = 0
  · simp only [he, ne_eq, not_true_eq_false, if_false]
    obtain ⟨evs, h1, _⟩ := loop_trace E target (E.iSCSITargetGetIQN target) (a :: rest)
      (a :: rest).length
      (iSCSIDLoginAllPortals_advance E target
        { activeConnections := conns.length, maxConnections := props.MaxConnections,
          portalIdx := 0,
          sessionId := E.iSCSIGetSessionIdForTarget s.kernel (E.iSCSITargetGetIQN target),
          errorCode := 0, statusCode := E.kiSCSILoginInvalidStatusCode, st := s }
        (iSCSIDLoginCommon E
          (E.iSCSIGetSessionIdForTarget s.kernel (E.iSCSITargetGetIQN target)) target
          (E.iSCSIPLCopyPortalForTarget s.plist (E.iSCSITargetGetIQN target) (some a)) s))
    refine ⟨evs, ?_⟩
    rw [h1]
    simp only [iSCSIDLoginAllPortals_advance]
    rw [htr]
    simp
  · simp only [he, ne_eq, not_false_eq_true, if_true]
    exact ⟨[], htr⟩

/-- C14 at the failing input: `tgtA` has a session (id 0, `MaxConnections = 3`)
with one connection, over `portal1`.  A login over all portals issues a
connection-level login for `portal1` again, then one for `portal2`; with the
reference negotiator the session ends up with two connections over
`portal1`. -/
theorem C14_loginAllPortals_logs_in_again_witness :
    refEnv.iSCSIGetConnectionIdForPortal (state1 3).kernel 0 (some portal1) = 0 ∧
    (∃ (e : errno_t) (st : Nat),
      (callsMade (state1 3) (iSCSIDLoginAllPortals refEnv (some tgtA) (state1 3)).2)[0]?
        = some (Event.loginConnection 0 (some portal1) e st)) ∧
    callsMade (state1 3) (iSCSIDLoginAllPortals refEnv (some tgtA) (state1 3)).2
      = [Event.loginConnection 0 (some portal1) 0 0,
         Event.loginConnection 0 (some portal2) 0 0] ∧
    (iSCSIDLoginAllPortals refEnv (some tgtA) (state1 3)).2.kernel.sessions
      = [⟨0, "iqn.A", 3, [(0, portal1), (1, portal1), (2, portal2)]⟩] :=
  ⟨by decide,
   C14_loginAllPortals_logs_in_again refEnv (some tgtA) (state1 3) ⟨3, []⟩ [0]
     "10.0.0.1" ["10.0.0.2", "10.0.0.3"] (by decide) rfl rfl (by decide) rfl (by decide),
   by decide, by decide⟩

/-- One negotiator login through `iSCSIDLoginCommon`, called with the session
the directory has for the target, under the negotiator's contract: a failed
login leaves the kernel as it was; a successful one leaves a session with one
connection (when there was none) or with one connection more and the same
maximum (when there was one). -/
theorem loginCommon_step (E : Env κ π χ) (target : iSCSITargetRef) (portal : iSCSIPortalRef)
    (s : State κ π χ)
    (hS : ∀ (k : κ) p a sc cc, sessionOf E target k = E.kiSCSIInvalidSessionId →
      ((E.iSCSILoginSession k target p a sc cc).error = 0 →
        sessionOf E target (E.iSCSILoginSession k target p a sc cc).kernel
          ≠ E.kiSCSIInvalidSessionId ∧
        activeConnections E target (E.iSCSILoginSession k target p a sc cc).kernel = 1 ∧
        ∀ m, maxConnections E target (E.iSCSILoginSession k target p a sc cc).kernel = some m →
          1 ≤ m) ∧
      ((E.iSCSILoginSession k target p a sc cc).error ≠ 0 →
        (E.iSCSILoginSession k target p a sc cc).kernel = k))
    (hC : ∀ (k : κ) p a cc, sessionOf E target k ≠ E.kiSCSIInvalidSessionId →
      ((E.iSCSILoginConnection k (sessionOf E target k) p a cc).error = 0 →
        sessionOf E target (E.iSCSILoginConnection k (sessionOf E target k) p a cc).kernel
          ≠ E.kiSCSIInvalidSessionId ∧
        activeConnections E target
            (E.iSCSILoginConnection k (sessionOf E target k) p a cc).kernel
          = activeConnections E target k + 1 ∧
        maxConnections E target (E.iSCSILoginConnection k (sessionOf E target k) p a cc).kernel
          = maxConnections E target k) ∧
      ((E.iSCSILoginConnection k (sessionOf E target k) p a cc).error ≠ 0 →
        (E.iSCSILoginConnection k (sessionOf E target k) p a cc).kernel = k)) :
    ((iSCSIDLoginCommon E (sessionOf E target s.kernel) target portal s).1.1 ≠ 0 →
      (iSCSIDLoginCommon E (sessionOf E target s.kernel) target portal s).2.kernel = s.kernel) ∧
    ((iSCSIDLoginCommon E (sessionOf E target s.kernel) target portal s).1.1 = 0 →
      sessionOf E target
          (iSCSIDLoginCommon E (sessionOf E target s.kernel) target portal s).2.kernel
        ≠ E.kiSCSIInvalidSessionId ∧
      (sessionOf E target s.kernel = E.kiSCSIInvalidSessionId →
        activeConnections E target
            (iSCSIDLoginCommon E (sessionOf E target s.kernel) target portal s).2.kernel = 1 ∧
        ∀ m, maxConnections E target
            (iSCSIDLoginCommon E (sessionOf E target s.kernel) target portal s).2.kernel
            = some m → 1 ≤ m) ∧
      (sessionOf E target s.kernel ≠ E.kiSCSIInvalidSessionId →
        activeConnections E target
            (iSCSIDLoginCommon E (sessionOf E target s.kernel) target portal s).2.kernel
          = activeConnections E target s.kernel + 1 ∧
        maxConnections E target
            (iSCSIDLoginCommon E (sessionOf E target s.kernel) target portal s).2.kernel
          = maxConnections E target s.kernel)) := by
  by_cases h : sessionOf E target s.kernel = E.kiSCSIInvalidSessionId
  · unfold iSCSIDLoginCommon
    simp only [h, if_true]
    obtain ⟨h1, h2⟩ := hS s.kernel portal
      (match E.iSCSIPLCopyAuthenticationForTarget s.plist (E.iSCSITargetGetIQN target) with
        | some a => some a
        | none => E.iSCSIAuthCreateNone)
      (match E.iSCSIPLCopySessionConfig s.plist (E.iSCSITargetGetIQN target) with
        | some c => some c
        | none => E.iSCSISessionConfigCreateMutable)
      (match E.iSCSIPLCopyConnectionConfig s.plist (E.iSCSITargetGetIQN target)
          (E.iSCSIPortalGetAddress portal) with
        | some c => some c
        | none => E.iSCSIConnectionConfigCreateMutable) h
    refine ⟨h2, fun he => ?_⟩
    obtain ⟨a1, a2, a3⟩ := h1 he
    exact ⟨a1, fun _ => ⟨a2, a3⟩, fun hne => absurd rfl hne⟩
  · unfold iSCSIDLoginCommon
    simp only [h, if_false]
    obtain ⟨h1, h2⟩ := hC s.kernel portal
      (match E.iSCSIPLCopyAuthenticationForTarget s.plist (E.iSCSITargetGetIQN target) with
        | some a => some a
        | none => E.iSCSIAuthCreateNone)
      (match E.iSCSIPLCopyConnectionConfig s.plist (E.iSCSITargetGetIQN target)
          (E.iSCSIPortalGetAddress portal) with
        | some c => some c
        | none => E.iSCSIConnectionConfigCreateMutable) h
    refine ⟨h2, fun he => ?_⟩
    obtain ⟨a1, a2, a3⟩ := h1 he
    exact ⟨a1, fun hne => False.elim hne, fun _ => ⟨a2, a3⟩⟩

/-- Under the negotiator's contract, `iSCSIDLoginWithPortal` keeps the
connection limit. -/
theorem loginWithPortal_keeps_limit (E : Env κ π χ) (target : iSCSITargetRef)
    (portal : iSCSIPortalRef) (s : State κ π χ)
    (hS : ∀ (k : κ) p a sc cc, sessionOf E target k = E.kiSCSIInvalidSessionId →
      ((E.iSCSILoginSession k target p a sc cc).error = 0 →
        sessionOf E target (E.iSCSILoginSession k target p a sc cc).kernel
          ≠ E.kiSCSIInvalidSessionId ∧
        activeConnections E target (E.iSCSILoginSession k target p a sc cc).kernel = 1 ∧
        ∀ m, maxConnections E target (E.iSCSILoginSession k target p a sc cc).kernel = some m →
          1 ≤ m) ∧
      ((E.iSCSILoginSession k target p a sc cc).error ≠ 0 →
        (E.iSCSILoginSession k target p a sc cc).kernel = k))
    (hC : ∀ (k : κ) p a cc, sessionOf E target k ≠ E.kiSCSIInvalidSessionId →
      ((E.iSCSILoginConnection k (sessionOf E target k) p a cc).error = 0 →
        sessionOf E target (E.iSCSILoginConnection k (sessionOf E target k) p a cc).kernel
          ≠ E.kiSCSIInvalidSessionId ∧
        activeConnections E target
            (E.iSCSILoginConnection k (sessionOf E target k) p a cc).kernel
          = activeConnections E target k + 1 ∧
        maxConnections E target (E.iSCSILoginConnection k (sessionOf E target k) p a cc).kernel
          = maxConnections E target k) ∧
      ((E.iSCSILoginConnection k (sessionOf E target k) p a cc).error ≠ 0 →
        (E.iSCSILoginConnection k (sessionOf E target k) p a cc).kernel = k))
    (hinv : withinLimit E target s.kernel) :
    withinLimit E target (iSCSIDLoginWithPortal E target portal s).2.kernel := by
  obtain ⟨hfail, hok⟩ := loginCommon_step E target portal s hS hC
  -- the outcome of a login through `iSCSIDLoginCommon`, given room for it
  have hstep : (sessionOf E target s.kernel ≠ E.kiSCSIInvalidSessionId →
        ∀ m, maxConnections E target s.kernel = some m →
          activeConnections E target s.kernel + 1 ≤ m) →
      withinLimit E target
        (iSCSIDLoginCommon E (sessionOf E target s.kernel) target portal s).2.kernel := by
    intro hroom
    by_cases he : (iSCSIDLoginCommon E (sessionOf E target s.kernel) target portal s).1.1 = 0
    · obtain ⟨_, hnew, hold⟩ := hok he
      intro _ m hm
      by_cases hsess : sessionOf E target s.kernel = E.kiSCSIInvalidSessionId
      · rw [(hnew hsess).1]
        exact (hnew hsess).2 m hm
      · rw [(hold hsess).1]
        rw [(hold hsess).2] at hm
        exact hroom hsess m hm
    · rw [hfail he]
      exact hinv
  unfold iSCSIDLoginWithPortal
  simp only []
  split
  · rename_i hsess
    split
    · exact hinv
    · cases hp : E.iSCSICreateCFPropertiesForSession s.kernel target with
      | none => exact hinv
      | some props =>
        simp only []
        cases hc : E.iSCSICreateArrayOfConnectionsIds s.kernel
            (E.iSCSIGetSessionIdForTarget s.kernel (E.iSCSITargetGetIQN target)) with
        | none => exact hinv
        | some conns =>
          simp only []
          split
          · exact hinv
          · rename_i hne
            apply hstep
            intro hs m hm
            have hact : activeConnections E target s.kernel = conns.length := by
              unfold activeConnections sessionOf
              rw [hc]
            have hmax : maxConnections E target s.kernel = some props.MaxConnections := by
              unfold maxConnections
              rw [hp]
              rfl
            have hle := hinv hs props.MaxConnections hmax
            rw [hmax] at hm
            have hm' : props.MaxConnections = m := Option.some.inj hm
            rw [hact] at hle ⊢
            omega
  · rename_i hsess
    apply hstep
    intro hs
    exact absurd hs hsess

/-- Under the negotiator's contract, the loop of `iSCSIDLoginAllPortals` keeps
the connection limit, provided that its locals agree with the directory
whenever the loop condition holds: `sessionId` is the target's session,
`activeConnections` is the session's connection count (0 without a session),
and `maxConnections` does not exceed the session's maximum when that is
known. -/
theorem loop_keeps_limit (E : Env κ π χ) (target : iSCSITargetRef) (portals : List String)
    (hS : ∀ (k : κ) p a sc cc, sessionOf E target k = E.kiSCSIInvalidSessionId →
      ((E.iSCSILoginSession k target p a sc cc).error = 0 →
        sessionOf E target (E.iSCSILoginSession k target p a sc cc).kernel
          ≠ E.kiSCSIInvalidSessionId ∧
        activeConnections E target (E.iSCSILoginSession k target p a sc cc).kernel = 1 ∧
        ∀ m, maxConnections E target (E.iSCSILoginSession k target p a sc cc).kernel = some m →
          1 ≤ m) ∧
      ((E.iSCSILoginSession k target p a sc cc).error ≠ 0 →
        (E.iSCSILoginSession k target p a sc cc).kernel = k))
    (hC : ∀ (k : κ) p a cc, sessionOf E target k ≠ E.kiSCSIInvalidSessionId →
      ((E.iSCSILoginConnection k (sessionOf E target k) p a cc).error = 0 →
        sessionOf E target (E.iSCSILoginConnection k (sessionOf E target k) p a cc).kernel
          ≠ E.kiSCSIInvalidSessionId ∧
        activeConnections E target
            (E.iSCSILoginConnection k (sessionOf E target k) p a cc).kernel
          = activeConnections E target k + 1 ∧
        maxConnections E target (E.iSCSILoginConnection k (sessionOf E target k) p a cc).kernel
          = maxConnections E target k) ∧
      ((E.iSCSILoginConnection k (sessionOf E target k) p a cc).error ≠ 0 →
        (E.iSCSILoginConnection k (sessionOf E target k) p a cc).kernel = k)) :
    ∀ (fuel : Nat) (l : LoginLoop κ π χ), withinLimit E target l.st.kernel →
      (l.activeConnections < l.maxConnections →
        l.sessionId = sessionOf E target l.st.kernel ∧
        (sessionOf E target l.st.kernel = E.kiSCSIInvalidSessionId →
          l.activeConnections = 0) ∧
        (sessionOf E target l.st.kernel ≠ E.kiSCSIInvalidSessionId →
          l.activeConnections = activeConnections E target l.st.kernel ∧
          ∀ m, maxConnections E target l.st.kernel = some m → l.maxConnections ≤ m)) →
      withinLimit E target
        (iSCSIDLoginAllPortals_loop E target (E.iSCSITargetGetIQN target) portals
          fuel l).st.kernel := by
  intro fuel
  induction fuel with
  | zero => intro l hinv _; exact hinv
  | succ n ih =>
    intro l hinv hloc
    rw [iSCSIDLoginAllPortals_loop]
    by_cases hlt : l.activeConnections < l.maxConnections
    · simp only [hlt, if_true]
      obtain ⟨hsid, hnone, hsome⟩ := hloc hlt
      cases hg : portals.get? l.portalIdx with
      | none => exact hinv
      | some a =>
        simp only []
        rw [hsid]
        obtain ⟨hfail, hok⟩ := loginCommon_step E target
          (E.iSCSIPLCopyPortalForTarget l.st.plist (E.iSCSITargetGetIQN target) (some a))
          l.st hS hC
        generalize hr : iSCSIDLoginCommon E (sessionOf E target l.st.kernel) target
          (E.iSCSIPLCopyPortalForTarget l.st.plist (E.iSCSITargetGetIQN target) (some a))
          l.st = r at hfail hok ⊢
        by_cases he : r.1.1 = 0
        · simp only [he, ne_eq, not_true_eq_false, if_false]
          obtain ⟨hexists, hnew, hold⟩ := hok he
          -- the limit holds after the login
          have hinv' : withinLimit E target r.2.kernel := by
            intro _ m hm
            by_cases hsess : sessionOf E target l.st.kernel = E.kiSCSIInvalidSessionId
            · rw [(hnew hsess).1]
              exact (hnew hsess).2 m hm
            · rw [(hold hsess).1]
              rw [(hold hsess).2] at hm
              have := (hsome hsess).2 m hm
              have := (hsome hsess).1
              omega
          apply ih _ hinv'
          intro _
          refine ⟨rfl, fun hno => absurd hno hexists, fun _ => ⟨?_, ?_⟩⟩
          · -- the local count follows the directory
            show l.activeConnections + 1 = activeConnections E target r.2.kernel
            by_cases hsess : sessionOf E target l.st.kernel = E.kiSCSIInvalidSessionId
            · rw [(hnew hsess).1, hnone hsess]
            · rw [(hold hsess).1, (hsome hsess).1]
          · -- the local maximum does not exceed the directory's
            intro m hm
            change maxConnections E target r.2.kernel = some m at hm
            show (if l.activeConnections + 1 = 1 then
                match E.iSCSICreateCFPropertiesForSession r.2.kernel target with
                | some properties => properties.MaxConnections
                | none => l.maxConnections
              else l.maxConnections) ≤ m
            by_cases h1 : l.activeConnections + 1 = 1
            · simp only [h1, if_true]
              unfold maxConnections at hm
              cases hp : E.iSCSICreateCFPropertiesForSession r.2.kernel target with
              | none => rw [hp] at hm; exact Option.noConfusion hm
              | some props =>
                rw [hp] at hm
                simp only [Option.map_some', Option.some.injEq] at hm
                simp only [hm, le_refl]
            · simp only [h1, if_false]
              have hsess : sessionOf E target l.st.kernel ≠ E.kiSCSIInvalidSessionId := by
                intro hno
                have := hnone hno
                omega
              rw [(hold hsess).2] at hm
              exact (hsome hsess).2 m hm
        · simp only [he, ne_eq, not_false_eq_true, if_true]
          rw [hfail he]
          exact hinv
    · simp only [hlt, if_false]
      exact hinv


/-! ## The connection limit (C15) -/

/-- C15: take a negotiator for which a successful leading login leaves the
target with a session of exactly one connection whose maximum, when known, is
at least 1, a successful connection login adds exactly one connection and
leaves the session's maximum as it was, and a failed login leaves the
directory unchanged.  Then from every state in which the target's session, if
any, has `activeConnections ≤ maxConnections`, the state after
`iSCSIDLoginWithPortal` and the state after `iSCSIDLoginAllPortals` satisfy
the same limit; and with no session beforehand, `iSCSIDLoginAllPortals` enters
its loop with the limit taken as 1 and the count as 0. -/
theorem C15_connection_limit (E : Env κ π χ) (target : iSCSITargetRef)
    (portal : iSCSIPortalRef) (s : State κ π χ)
    (hS : ∀ (k : κ) p a sc cc, sessionOf E target k = E.kiSCSIInvalidSessionId →
      ((E.iSCSILoginSession k target p a sc cc).error = 0 →
        sessionOf E target (E.iSCSILoginSession k target p a sc cc).kernel
          ≠ E.kiSCSIInvalidSessionId ∧
        activeConnections E target (E.iSCSILoginSession k target p a sc cc).kernel = 1 ∧
        ∀ m, maxConnections E target (E.iSCSILoginSession k target p a sc cc).kernel = some m →
          1 ≤ m) ∧
      ((E.iSCSILoginSession k target p a sc cc).error ≠ 0 →
        (E.iSCSILoginSession k target p a sc cc).kernel = k))
    (hC : ∀ (k : κ) p a cc, sessionOf E target k ≠ E.kiSCSIInvalidSessionId →
      ((E.iSCSILoginConnection k (sessionOf E target k) p a cc).error = 0 →
        sessionOf E target (E.iSCSILoginConnection k (sessionOf E target k) p a cc).kernel
          ≠ E.kiSCSIInvalidSessionId ∧
        activeConnections E target
            (E.iSCSILoginConnection k (sessionOf E target k) p a cc).kernel
          = activeConnections E target k + 1 ∧
        maxConnections E target (E.iSCSILoginConnection k (sessionOf E target k) p a cc).kernel
          = maxConnections E target k) ∧
      ((E.iSCSILoginConnection k (sessionOf E target k) p a cc).error ≠ 0 →
        (E.iSCSILoginConnection k (sessionOf E target k) p a cc).kernel = k))
    (hinv : withinLimit E target s.kernel) :
    withinLimit E target (iSCSIDLoginWithPortal E target portal s).2.kernel ∧
    withinLimit E target (iSCSIDLoginAllPortals E target s).2.kernel ∧
    (sessionOf E target s.kernel = E.kiSCSIInvalidSessionId →
      (iSCSIDLoginAllPortals_init E target s).maxConnections = 1 ∧
      (iSCSIDLoginAllPortals_init E target s).activeConnections = 0) := by
  refine ⟨loginWithPortal_keeps_limit E target portal s hS hC hinv, ?_, ?_⟩
  · show withinLimit E target
      (iSCSIDLoginAllPortals_loop E target (E.iSCSITargetGetIQN target)
        (E.iSCSIPLCreateArrayOfPortals s.plist (E.iSCSITargetGetIQN target))
        ((E.iSCSIPLCreateArrayOfPortals s.plist (E.iSCSITargetGetIQN target)).length + 1)
        (iSCSIDLoginAllPortals_init E target s)).st.kernel
    apply loop_keeps_limit E target _ hS hC
    · exact hinv
    · intro hlt
      by_cases hsess : sessionOf E target s.kernel = E.kiSCSIInvalidSessionId
      · refine ⟨rfl, fun _ => ?_, fun h => absurd hsess h⟩
        rw [init_no_session E target s hsess]
      · refine ⟨rfl, fun h => absurd h hsess, fun _ => ?_⟩
        cases hp : E.iSCSICreateCFPropertiesForSession s.kernel target with
        | none =>
          have h0 : (iSCSIDLoginAllPortals_init E target s).maxConnections = 0 := by
            unfold iSCSIDLoginAllPortals_init
            unfold sessionOf at hsess
            simp [hsess, hp]
          rw [h0] at hlt
          exact absurd hlt (Nat.not_lt_zero _)
        | some props =>
          have ha : (iSCSIDLoginAllPortals_init E target s).activeConnections
              = activeConnections E target s.kernel := by
            unfold iSCSIDLoginAllPortals_init activeConnections
            unfold sessionOf at hsess ⊢
            simp only [hsess, if_false, hp]
          have hm : (iSCSIDLoginAllPortals_init E target s).maxConnections
              = props.MaxConnections := by
            unfold iSCSIDLoginAllPortals_init
            unfold sessionOf at hsess
            simp only [hsess, if_false, hp]
          refine ⟨ha, fun m hmax => ?_⟩
          change maxConnections E target s.kernel = some m at hmax
          unfold maxConnections at hmax
          rw [hp] at hmax
          simp only [Option.map_some', Option.some.injEq] at hmax
          rw [hm, hmax]
  · intro hsess
    rw [init_no_session E target s hsess]
    exact ⟨rfl, rfl⟩

/-- C15 on the minimal environment (every session negotiates
`MaxConnections = 2`, three portals configured): starting without a session,
`iSCSIDLoginAllPortals` ends with two connections and
`iSCSIDLoginWithPortal` with one, both within the limit. -/
theorem C15_connection_limit_witness :
    withinLimit tinyEnv (some tgtA) (tinyState none).kernel ∧
    (iSCSIDLoginWithPortal tinyEnv (some tgtA) (some portal1) (tinyState none)).2.kernel
      = some 1 ∧
    (iSCSIDLoginAllPortals tinyEnv (some tgtA) (tinyState none)).2.kernel = some 2 ∧
    withinLimit tinyEnv (some tgtA)
      (iSCSIDLoginWithPortal tinyEnv (some tgtA) (some portal1) (tinyState none)).2.kernel ∧
    withinLimit tinyEnv (some tgtA)
      (iSCSIDLoginAllPortals tinyEnv (some tgtA) (tinyState none)).2.kernel ∧
    (sessionOf tinyEnv (some tgtA) (tinyState none).kernel = tinyEnv.kiSCSIInvalidSessionId →
      (iSCSIDLoginAllPortals_init tinyEnv (some tgtA) (tinyState none)).maxConnections = 1 ∧
      (iSCSIDLoginAllPortals_init tinyEnv (some tgtA) (tinyState none)).activeConnections
        = 0) :=
  have hinv : withinLimit tinyEnv (some tgtA) (tinyState none).kernel :=
    fun h => absurd rfl h
  ⟨hinv, by decide, by decide,
    C15_connection_limit tinyEnv (some tgtA) (some portal1) (tinyState none)
      (fun k p a sc cc hk => by
        cases k with
        | none => exact ⟨fun _ => ⟨by simp [sessionOf, tinyEnv], rfl, fun m hm => by
            have h2 : m = 2 := (Option.some.inj hm).symm
            omega⟩, fun h => absurd rfl h⟩
        | some c => simp [sessionOf, tinyEnv] at hk)
      (fun k p a cc hk => by
        cases k with
        | none => exact absurd rfl hk
        | some c =>
          refine ⟨fun _ => ⟨by simp [sessionOf, tinyEnv], ?_, rfl⟩, fun h => absurd rfl h⟩
          show (List.range (c + 1)).length = (List.range c).length + 1
          simp)
      hinv⟩


/-- C15 as stated fails: `leakyEnv` meets the stated conditions (every
successful login adds exactly one connection, and the maximum of every session
is 2), the state with one connection is within the limit, and
`iSCSIDLoginWithPortal` for `portal1` returns the negotiator's error with
three connections in a session whose maximum is 2. -/
theorem C15_connection_limit_counterexample :
    (∀ (k : Option Nat) p a sc cc,
      sessionOf leakyEnv (some tgtA) k = leakyEnv.kiSCSIInvalidSessionId →
      (leakyEnv.iSCSILoginSession k (some tgtA) p a sc cc).error = 0 →
      activeConnections leakyEnv (some tgtA)
        (leakyEnv.iSCSILoginSession k (some tgtA) p a sc cc).kernel = 1 ∧
      maxConnections leakyEnv (some tgtA)
        (leakyEnv.iSCSILoginSession k (some tgtA) p a sc cc).kernel = some 2) ∧
    (∀ (k : Option Nat) p a cc,
      sessionOf leakyEnv (some tgtA) k ≠ leakyEnv.kiSCSIInvalidSessionId →
      (leakyEnv.iSCSILoginConnection k (sessionOf leakyEnv (some tgtA) k) p a cc).error = 0 →
      activeConnections leakyEnv (some tgtA)
          (leakyEnv.iSCSILoginConnection k (sessionOf leakyEnv (some tgtA) k) p a cc).kernel
        = activeConnections leakyEnv (some tgtA) k + 1 ∧
      maxConnections leakyEnv (some tgtA)
          (leakyEnv.iSCSILoginConnection k (sessionOf leakyEnv (some tgtA) k) p a cc).kernel
        = some 2 ∧
      maxConnections leakyEnv (some tgtA) k = some 2) ∧
    withinLimit leakyEnv (some tgtA) (tinyState (some 1)).kernel ∧
    (iSCSIDLoginWithPortal leakyEnv (some tgtA) (some portal1) (tinyState (some 1))).1
      = (61, 3) ∧
    sessionOf leakyEnv (some tgtA)
      (iSCSIDLoginWithPortal leakyEnv (some tgtA) (some portal1) (tinyState (some 1))).2.kernel
      ≠ leakyEnv.kiSCSIInvalidSessionId ∧
    activeConnections leakyEnv (some tgtA)
      (iSCSIDLoginWithPortal leakyEnv (some tgtA) (some portal1) (tinyState (some 1))).2.kernel
      = 3 ∧
    maxConnections leakyEnv (some tgtA)
      (iSCSIDLoginWithPortal leakyEnv (some tgtA) (some portal1) (tinyState (some 1))).2.kernel
      = some 2 ∧
    ¬ withinLimit leakyEnv (some tgtA)
      (iSCSIDLoginWithPortal leakyEnv (some tgtA) (some portal1)
        (tinyState (some 1))).2.kernel := by
  refine ⟨?_, ?_, ?_, by decide, by decide, by decide, by decide, ?_⟩
  · intro k p a sc cc hk _
    cases k with
    | none => exact ⟨rfl, rfl⟩
    | some c => simp [sessionOf, leakyEnv, tinyEnv] at hk
  · intro k p a cc hk he
    cases k with
    | none => exact absurd rfl hk
    | some c =>
      have hval : leakyEnv.iSCSILoginConnection (some c)
          (sessionOf leakyEnv (some tgtA) (some c)) p a cc
          = if p.map (fun x => x.address) = some "10.0.0.1" then ⟨61, 3, some (c + 2)⟩
            else ⟨0, 0, some (c + 1)⟩ := rfl
      by_cases hp : p.map (fun x => x.address) = some "10.0.0.1"
      · rw [hval, if_pos hp] at he
        have h61 : (61 : errno_t) = 0 := he
        exact absurd h61 (by decide)
      · rw [hval, if_neg hp]
        refine ⟨?_, rfl, rfl⟩
        show (List.range (c + 1)).length = (List.range c).length + 1
        simp
  · intro _ m hm
    have h2 : m = 2 := (Option.some.inj hm).symm
    rw [h2]
    decide
  · intro h
    exact absurd (h (by decide) 2 rfl) (by decide)


/-! ## Termination and visiting order of the loop (C16) -/

theorem drop_of_get? (portals : List String) (i : Nat) (a : String)
    (hg : portals.get? i = some a) : portals.drop i = a :: portals.drop (i + 1) := by
  obtain ⟨h, ha⟩ := List.get?_eq_some.mp hg
  rw [List.drop_eq_getElem_cons h]
  simp at ha
  rw [ha]

/-- The loop from an arbitrary loop state, for an arbitrary negotiator: the
calls it makes are logins over the configured portals from index `portalIdx`
on, one per index and in order; and when it ends without an error, the index
has advanced by the number of calls, the loop condition is false at the end
(given enough fuel), and it was true at the head of every iteration. -/
theorem loop_visits (E : Env κ π χ) (target : iSCSITargetRef) (iqn : CFStringRef)
    (portals : List String) :
    ∀ (fuel : Nat) (l : LoginLoop κ π χ), ∃ evs : List Event,
      (iSCSIDLoginAllPortals_loop E target iqn portals fuel l).st.trace = l.st.trace ++ evs ∧
      evs.length ≤ portals.length - l.portalIdx ∧
      evs.map Event.loginPortal
        = ((portals.drop l.portalIdx).take evs.length).map
            (fun a => E.iSCSIPLCopyPortalForTarget l.st.plist iqn (some a)) ∧
      ((iSCSIDLoginAllPortals_loop E target iqn portals fuel l).errorCode = 0 →
        (iSCSIDLoginAllPortals_loop E target iqn portals fuel l).portalIdx
          = l.portalIdx + evs.length ∧
        (portals.length - l.portalIdx < fuel →
          (iSCSIDLoginAllPortals_loop E target iqn portals fuel l).maxConnections
            ≤ (iSCSIDLoginAllPortals_loop E target iqn portals fuel l).activeConnections ∨
          portals.length
            ≤ (iSCSIDLoginAllPortals_loop E target iqn portals fuel l).portalIdx) ∧
        ∀ j, j < evs.length →
          (iSCSIDLoginAllPortals_loop E target iqn portals j l).portalIdx = l.portalIdx + j ∧
          (iSCSIDLoginAllPortals_loop E target iqn portals j l).activeConnections
            < (iSCSIDLoginAllPortals_loop E target iqn portals j l).maxConnections ∧
          l.portalIdx + j < portals.length) := by
  intro fuel
  induction fuel with
  | zero =>
    intro l
    refine ⟨[], by simp [iSCSIDLoginAllPortals_loop], by simp, by simp, fun _ => ⟨rfl, ?_, ?_⟩⟩
    · intro h; omega
    · intro j hj; simp at hj
  | succ n ih =>
    intro l
    rw [iSCSIDLoginAllPortals_loop]
    by_cases hlt : l.activeConnections < l.maxConnections
    · simp only [hlt, if_true]
      cases hg : portals.get? l.portalIdx with
      | none =>
        refine ⟨[], by simp, by simp, by simp, fun _ => ⟨rfl, fun _ => ?_, ?_⟩⟩
        · exact Or.inr (List.get?_eq_none.mp hg)
        · intro j hj; simp at hj
      | some a =>
        simp only []
        have hidx : l.portalIdx < portals.length := (List.get?_eq_some.mp hg).1
        obtain ⟨e, htr, _, _, hportal, herr, _, _⟩ := loginCommon_trace E l.sessionId target
          (E.iSCSIPLCopyPortalForTarget l.st.plist iqn (some a)) l.st
        have hpl := loginCommon_plist E l.sessionId target
          (E.iSCSIPLCopyPortalForTarget l.st.plist iqn (some a)) l.st
        generalize hr : iSCSIDLoginCommon E l.sessionId target
          (E.iSCSIPLCopyPortalForTarget l.st.plist iqn (some a)) l.st = r at htr herr hpl ⊢
        by_cases he : r.1.1 = 0
        · simp only [he, ne_eq, not_true_eq_false, if_false]
          obtain ⟨evs, h1, h2, h3, h4⟩ := ih (iSCSIDLoginAllPortals_advance E target l r)
          have hst : (iSCSIDLoginAllPortals_advance E target l r).st = r.2 := rfl
          have hix : (iSCSIDLoginAllPortals_advance E target l r).portalIdx
              = l.portalIdx + 1 := rfl
          rw [hst] at h1 h3
          rw [hix] at h2 h3 h4
          rw [hpl] at h3
          refine ⟨e :: evs, ?_, ?_, ?_, ?_⟩
          · rw [h1, htr]; simp
          · simp only [List.length_cons]; omega
          · rw [drop_of_get? portals l.portalIdx a hg]
            simp only [List.length_cons, List.map_cons, List.take_succ_cons, h3, hportal]
          · intro hz
            obtain ⟨a1, a2, a3⟩ := h4 hz
            refine ⟨?_, ?_, ?_⟩
            · rw [a1]; simp only [List.length_cons]; omega
            · intro hf
              apply a2
              omega
            · intro j hj
              cases j with
              | zero =>
                exact ⟨rfl, hlt, hidx⟩
              | succ i =>
                have hi : i < evs.length := by
                  simp only [List.length_cons] at hj; omega
                obtain ⟨b1, b2, b3⟩ := a3 i hi
                rw [iSCSIDLoginAllPortals_loop]
                simp only [hlt, if_true, hg, hr, he, ne_eq, not_true_eq_false, if_false]
                exact ⟨by rw [b1]; omega, b2, by omega⟩
        · simp only [he, ne_eq, not_false_eq_true, if_true]
          refine ⟨[e], htr, ?_, ?_, fun hz => False.elim hz⟩
          · simp only [List.length_singleton]; omega
          · rw [drop_of_get? portals l.portalIdx a hg]
            simp [hportal]
    · simp only [hlt, if_false]
      refine ⟨[], by simp, by simp, by simp, fun _ => ⟨rfl, fun _ => Or.inl (by omega), ?_⟩⟩
      intro j hj; simp at hj

/-- Fuel beyond `portals.length + 1` changes nothing for the loop entered at
portal index 0. -/
theorem loop_fuel_enough (E : Env κ π χ) (target : iSCSITargetRef) (iqn : CFStringRef)
    (portals : List String) (l : LoginLoop κ π χ) (h0 : l.portalIdx = 0) :
    ∀ fuel, portals.length + 1 ≤ fuel →
      iSCSIDLoginAllPortals_loop E target iqn portals fuel l
        = iSCSIDLoginAllPortals_loop E target iqn portals (portals.length + 1) l := by
  intro fuel
  induction fuel with
  | zero => intro h; omega
  | succ n ih =>
    intro h
    by_cases hn : portals.length + 1 ≤ n
    · rw [iSCSIDLoginAllPortals_loop_fuel E target iqn portals n l (by omega)]
      exact ih hn
    · have : n = portals.length := by omega
      rw [this]


/-- C16: for every target, state and negotiator, with `N` configured portals:
the loop of `iSCSIDLoginAllPortals` never runs out of its `N + 1` iterations
(more fuel gives the same result); the function makes at most `N` calls, each
a negotiator login; the `k`-th call is a login over the configured portal of
index `k`, so each index is visited at most once and in increasing order; and
when the function returns error code 0, the loop ends with `portalIdx` equal
to the number of calls and with `maxConnections ≤ activeConnections` or
`portalIdx = N`, while at the head of every earlier iteration
`activeConnections < maxConnections` and `portalIdx < N` held. -/
theorem C16_loginAllPortals_terminates (E : Env κ π χ) (target : iSCSITargetRef)
    (s : State κ π χ) :
    (∀ fuel, (configuredPortals E target s).length + 1 ≤ fuel →
      (iSCSIDLoginAllPortals_loop E target (E.iSCSITargetGetIQN target)
        (configuredPortals E target s) fuel
        (iSCSIDLoginAllPortals_init E target s))
      = (iSCSIDLoginAllPortals_loop E target (E.iSCSITargetGetIQN target)
          (configuredPortals E target s) ((configuredPortals E target s).length + 1)
          (iSCSIDLoginAllPortals_init E target s))) ∧
    (callsMade s (iSCSIDLoginAllPortals E target s).2).length
      ≤ (configuredPortals E target s).length ∧
    (∀ e ∈ callsMade s (iSCSIDLoginAllPortals E target s).2, e.isLogin = true) ∧
    (callsMade s (iSCSIDLoginAllPortals E target s).2).map Event.loginPortal
      = (List.take (callsMade s (iSCSIDLoginAllPortals E target s).2).length
          (configuredPortals E target s)).map (portalAt E target s) ∧
    ((iSCSIDLoginAllPortals E target s).1.1 = 0 →
      (iSCSIDLoginAllPortals_loop E target (E.iSCSITargetGetIQN target)
        (configuredPortals E target s) ((configuredPortals E target s).length + 1)
        (iSCSIDLoginAllPortals_init E target s)).portalIdx
        = (callsMade s (iSCSIDLoginAllPortals E target s).2).length ∧
      ((iSCSIDLoginAllPortals_loop E target (E.iSCSITargetGetIQN target)
         (configuredPortals E target s) ((configuredPortals E target s).length + 1)
         (iSCSIDLoginAllPortals_init E target s)).maxConnections
        ≤ (iSCSIDLoginAllPortals_loop E target (E.iSCSITargetGetIQN target)
            (configuredPortals E target s) ((configuredPortals E target s).length + 1)
            (iSCSIDLoginAllPortals_init E target s)).activeConnections ∨
       (iSCSIDLoginAllPortals_loop E target (E.iSCSITargetGetIQN target)
         (configuredPortals E target s) ((configuredPortals E target s).length + 1)
         (iSCSIDLoginAllPortals_init E target s)).portalIdx
        = (configuredPortals E target s).length) ∧
      ∀ j, j < (callsMade s (iSCSIDLoginAllPortals E target s).2).length →
        (iSCSIDLoginAllPortals_loop E target (E.iSCSITargetGetIQN target)
          (configuredPortals E target s) j
          (iSCSIDLoginAllPortals_init E target s)).portalIdx = j ∧
        (iSCSIDLoginAllPortals_loop E target (E.iSCSITargetGetIQN target)
          (configuredPortals E target s) j
          (iSCSIDLoginAllPortals_init E target s)).activeConnections
          < (iSCSIDLoginAllPortals_loop E target (E.iSCSITargetGetIQN target)
              (configuredPortals E target s) j
              (iSCSIDLoginAllPortals_init E target s)).maxConnections ∧
        j < (configuredPortals E target s).length) := by
  obtain ⟨evs, h1, h2, h3, h4⟩ := loop_visits E target (E.iSCSITargetGetIQN target)
    (configuredPortals E target s) ((configuredPortals E target s).length + 1)
    (iSCSIDLoginAllPortals_init E target s)
  obtain ⟨evs', h1', hlog, _, _⟩ := loop_trace E target (E.iSCSITargetGetIQN target)
    (configuredPortals E target s) ((configuredPortals E target s).length + 1)
    (iSCSIDLoginAllPortals_init E target s)
  have hst : (iSCSIDLoginAllPortals_init E target s).st = s := rfl
  have hix : (iSCSIDLoginAllPortals_init E target s).portalIdx = 0 := rfl
  rw [hst] at h1 h1' h3
  rw [hix] at h2 h3 h4
  have hsame : evs' = evs := List.append_cancel_left (h1'.symm.trans h1)
  have hcalls : callsMade s (iSCSIDLoginAllPortals E target s).2 = evs :=
    callsMade_of_append s _ evs h1
  rw [hcalls]
  simp only [List.drop_zero, Nat.sub_zero, Nat.zero_add] at h2 h3 h4
  refine ⟨loop_fuel_enough E target _ _ _ hix, h2, ?_, h3, ?_⟩
  · intro e he
    exact (hlog e (hsame ▸ he)).1
  · intro hz
    obtain ⟨a1, a2, a3⟩ := h4 hz
    refine ⟨a1, ?_, a3⟩
    rcases a2 (by omega) with h | h
    · exact Or.inl h
    · exact Or.inr (by omega)

/-- C16 on the reference environment: with three configured portals, no
session and a negotiated maximum of 2, `iSCSIDLoginAllPortals` makes two
calls, over `portal1` and `portal2`, and its loop ends with `portalIdx = 2`,
`activeConnections = maxConnections = 2`. -/
theorem C16_loginAllPortals_terminates_witness :
    (configuredPortals refEnv (some tgtA) (state0 2)).length = 3 ∧
    (callsMade (state0 2) (iSCSIDLoginAllPortals refEnv (some tgtA) (state0 2)).2).map
      Event.loginPortal = [some portal1, some portal2] ∧
    (iSCSIDLoginAllPortals refEnv (some tgtA) (state0 2)).1.1 = 0 ∧
    (iSCSIDLoginAllPortals_loop refEnv (some tgtA) (refEnv.iSCSITargetGetIQN (some tgtA))
      (configuredPortals refEnv (some tgtA) (state0 2)) 4
      (iSCSIDLoginAllPortals_init refEnv (some tgtA) (state0 2))).portalIdx = 2 ∧
    (iSCSIDLoginAllPortals_loop refEnv (some tgtA) (refEnv.iSCSITargetGetIQN (some tgtA))
      (configuredPortals refEnv (some tgtA) (state0 2)) 4
      (iSCSIDLoginAllPortals_init refEnv (some tgtA) (state0 2))).activeConnections = 2 ∧
    (iSCSIDLoginAllPortals_loop refEnv (some tgtA) (refEnv.iSCSITargetGetIQN (some tgtA))
      (configuredPortals refEnv (some tgtA) (state0 2)) 4
      (iSCSIDLoginAllPortals_init refEnv (some tgtA) (state0 2))).maxConnections = 2 ∧
    (callsMade (state0 2) (iSCSIDLoginAllPortals refEnv (some tgtA) (state0 2)).2).length
      ≤ (configuredPortals refEnv (some tgtA) (state0 2)).length ∧
    (callsMade (state0 2) (iSCSIDLoginAllPortals refEnv (some tgtA) (state0 2)).2).map
      Event.loginPortal
      = (List.take
          (callsMade (state0 2) (iSCSIDLoginAllPortals refEnv (some tgtA) (state0 2)).2).length
          (configuredPortals refEnv (some tgtA) (state0 2))).map
            (portalAt refEnv (some tgtA) (state0 2)) :=
  ⟨by decide, by decide, by decide, by decide, by decide, by decide,
    (C16_loginAllPortals_terminates refEnv (some tgtA) (state0 2)).2.1,
    (C16_loginAllPortals_terminates refEnv (some tgtA) (state0 2)).2.2.2.1⟩

end iSCSIDaemon
